import Mathlib

/-!
# videobelajar-backend: request handlers over an explicit store

A shallow embedding of the Express handlers of `videobelajar-backend`
(`controllers/authController.js`, `controllers/usersController.js`,
`controllers/coursesController.js`, `utils/email.js`) together with the
Sequelize models they act on (`models/User.js`, `models/Course.js`).

Modelling conventions.

* The MySQL tables are lists of rows; a handler that writes returns the new
  store next to its response.  The primary key is `id`; the `unique: true`
  columns of `models/User.js` are enforced by the store operations, whose
  failure the handler's `catch` turns into its 500 response.
* The collaborators that are not part of the repository (bcryptjs,
  jsonwebtoken, uuid, `Math.random`, the clock, nodemailer) are fields of an
  environment `Env`; the development covers the runs in which they return.
* `validationResult(req)` is an input of the handler: the list of failures the
  express-validator middleware attached to the request.
* Request fields are typed: a destructured key that may be missing is an
  `Option` (`none` is `undefined`), ENUM columns are inductive types.
* `res.json(...)` bodies are JSON trees, so that "the body has no `password`
  key" is a statement about the tree and not about a Lean type.
* A `where` equality compares strings exactly; `LIKE` and the clock belong to
  the environment.
-/

namespace VideoBelajar

/-! ## JSON bodies -/

/-- JSON values as sent by `res.json`. Object keys keep their order. -/
inductive Json where
  | null : Json
  | bool : Bool → Json
  | num : Int → Json
  | str : String → Json
  | arr : List Json → Json
  | obj : List (String × Json) → Json

mutual
/-- Does the key `k` occur anywhere in the tree, at any depth? -/
def Json.hasKey (k : String) : Json → Bool
  | .arr xs => Json.hasKeyList k xs
  | .obj kvs => Json.hasKeyFields k kvs
  | _ => false
/-- Key search through the items of an array. -/
def Json.hasKeyList (k : String) : List Json → Bool
  | [] => false
  | x :: xs => Json.hasKey k x || Json.hasKeyList k xs
/-- Key search through the members of an object. -/
def Json.hasKeyFields (k : String) : List (String × Json) → Bool
  | [] => false
  | (k', v) :: kvs => k' == k || Json.hasKey k v || Json.hasKeyFields k kvs
end

/-- Member lookup `o[k]` on an object (first occurrence); `none` on anything else. -/
def Json.get? (k : String) : Json → Option Json
  | .obj kvs => (kvs.find? (fun kv => kv.1 == k)).map Prod.snd
  | _ => none

/-- A nullable string column or field as JSON. -/
def Json.ofOptStr : Option String → Json
  | some s => .str s
  | none => .null

/-- What `res.status(..).json(..)` sends: `res.json` alone is status 200. -/
structure Response where
  status : Nat
  body : Json

/-- The `success` flag of the response envelope. -/
def Response.succeeded (r : Response) : Bool :=
  match r.body.get? "success" with
  | some (.bool b) => b
  | _ => false

/-! ## JavaScript helpers -/

/-- JS `s.startsWith(p)`. -/
def jsStartsWith (s p : String) : Bool := p.data.isPrefixOf s.data

/-- JS truthiness of a value that is a string or `undefined`/`null`. -/
def truthy : Option String → Bool
  | some s => s != ""
  | none => false

/-- JS `x || d` for a string-or-undefined `x` and a string default. -/
def orDefault (x : Option String) (d : String) : String :=
  match x with
  | some s => if s != "" then s else d
  | none => d

/-- JS `x || null` for a string-or-undefined `x`. -/
def orNull (x : Option String) : Option String :=
  match x with
  | some s => if s != "" then some s else none
  | none => none

/-! ## Data model (`models/User.js`, `models/Course.js`) -/

/-- Column `role`: `DataTypes.ENUM('admin', 'user', 'student')`. -/
inductive Role where
  | admin | user | student
  deriving DecidableEq, Repr

/-- Column `gender`: `DataTypes.ENUM('Laki-laki', 'Perempuan')`. -/
inductive Gender where
  | lakiLaki | perempuan
  deriving DecidableEq, Repr

/-- Column `category`: `DataTypes.ENUM('Pemasaran', 'Desain', 'Pengembangan Diri', 'Bisnis')`. -/
inductive Category where
  | pemasaran | desain | pengembanganDiri | bisnis
  deriving DecidableEq, Repr

def Role.toString : Role → String
  | .admin => "admin"
  | .user => "user"
  | .student => "student"

def Gender.toString : Gender → String
  | .lakiLaki => "Laki-laki"
  | .perempuan => "Perempuan"

def Category.toString : Category → String
  | .pemasaran => "Pemasaran"
  | .desain => "Desain"
  | .pengembanganDiri => "Pengembangan Diri"
  | .bisnis => "Bisnis"

def Json.ofOptRole (r : Option Role) : Json := Json.ofOptStr (r.map Role.toString)

def Json.ofOptGender (g : Option Gender) : Json := Json.ofOptStr (g.map Gender.toString)

/-- A row of table `users`. `created_at`/`updated_at` are the timestamp
columns of `timestamps: true`, in clock ticks. -/
structure User where
  id : Nat
  name : String
  username : String
  email : String
  password : String
  phone : Option String
  gender : Option Gender
  role : Option Role
  avatar : Option String
  verification_token : Option String
  created_at : Nat
  updated_at : Nat
  deriving DecidableEq, Repr

/-- A row of table `courses`. `rating` is the `DECIMAL(2, 1)` column in tenths. -/
structure Course where
  id : Nat
  title : String
  description : String
  photos : Option String
  mentor : String
  rolementor : String
  avatar : Option String
  company : String
  rating : Nat
  review_count : Int
  price : String
  category : Category
  created_at : Nat
  updated_at : Nat
  deriving DecidableEq, Repr

/-- The database: both tables with their auto-increment counters. -/
structure Store where
  users : List User
  nextUserId : Nat
  courses : List Course
  nextCourseId : Nat
  deriving DecidableEq, Repr

/-! ## Environment: configuration and external collaborators -/

/-- Everything a handler reads that is neither the request nor the store. -/
structure Env where
  /-- the clock the store stamps rows with -/
  now : Nat
  /-- the value `uuidv4()` returns in this run -/
  uuidv4 : String
  /-- the value of `Math.floor(Math.random() * 100)` in this run -/
  random100 : Nat
  /-- result of `bcrypt.hash(plain, saltRounds)` -/
  bcryptHash : String → Int → String
  /-- result of `bcrypt.compare(plain, stored)` -/
  bcryptCompare : String → String → Bool
  /-- result of `jwt.sign(payload, secret, expiresIn)` -/
  jwtSign : Json → Option String → String → String
  /-- value of `process.env.JWT_SECRET` -/
  JWT_SECRET : Option String
  /-- value of `process.env.JWT_EXPIRES_IN` -/
  JWT_EXPIRES_IN : Option String
  /-- value of `parseInt(process.env.BCRYPT_SALT_ROUNDS)`, `none` for `NaN` -/
  BCRYPT_SALT_ROUNDS : Option Int
  /-- outcome of `transporter.sendMail` at the given attempt (from 1) -/
  sendMail : Nat → Bool
  /-- result of `jwt.verify(token, secret)`: the decoded payload, or the error
  thrown for a bad signature, a malformed or an expired token -/
  jwtVerify : String → Option String → Except String Json
  /-- the store's `value LIKE pattern` under the table's collation -/
  like : String → String → Bool

/-- Work factor `parseInt(process.env.BCRYPT_SALT_ROUNDS) || 12`: `NaN` and `0` are falsy. -/
def saltRounds (env : Env) : Int :=
  match env.BCRYPT_SALT_ROUNDS with
  | some n => if n = 0 then 12 else n
  | none => 12

/-! ## Validation failures -/

/-- One entry of `errors.array()` of express-validator. -/
structure FieldError where
  kind : String
  value : String
  msg : String
  path : String
  location : String
  deriving DecidableEq, Repr

def FieldError.toJson (e : FieldError) : Json :=
  .obj [("type", .str e.kind), ("value", .str e.value), ("msg", .str e.msg),
        ("path", .str e.path), ("location", .str e.location)]

/-- The shared `if (!errors.isEmpty())` response. -/
def validationFailed (errors : List FieldError) : Response :=
  { status := 400
    body := .obj [("success", .bool false), ("message", .str "Validation failed"),
                  ("errors", .arr (errors.map FieldError.toJson))] }

/-- A response that carries only `success: false` and a message. -/
def failure (status : Nat) (message : String) : Response :=
  { status := status, body := .obj [("success", .bool false), ("message", .str message)] }

/-! ## Store queries used by the handlers -/

/-- Query `User.findOne` with `where: email`. -/
def Store.findUserByEmail (s : Store) (email : String) : Option User :=
  s.users.find? (fun u => u.email == email)

/-- Query `User.findByPk(id)`. -/
def Store.findUserByPk (s : Store) (id : Nat) : Option User :=
  s.users.find? (fun u => u.id == id)

/-! ## `authController.js` -/

/-- Function `generateToken(userId, email, role)`. -/
def generateToken (env : Env) (userId : Json) (email : String) (role : Json) : String :=
  env.jwtSign (.obj [("userId", userId), ("email", .str email), ("role", role)])
    env.JWT_SECRET (orDefault env.JWT_EXPIRES_IN "7d")

/-- Body of `POST /auth/login` after validation. -/
structure LoginRequest where
  errors : List FieldError
  email : String
  password : String

/-- The two hardcoded accounts checked before the database. -/
def isBuiltinAccount (email password : String) : Bool :=
  (email == "admin@videobelajar.com" && password == "admin123") ||
  (email == "user@example.com" && password == "123456")

/-- The `isPasswordValid` computed by `login` for a database user. -/
def isPasswordValid (env : Env) (password : String) (user : User) : Bool :=
  if jsStartsWith user.password "$2" then env.bcryptCompare password user.password
  else password == user.password

/-- The success response of `login`. -/
def loginSuccess (user : Json) (token : String) : Response :=
  { status := 200
    body := .obj [("success", .bool true), ("message", .str "Login successful"),
                  ("data", .obj [("user", user), ("token", .str token)])] }

/-- Handler `login`: the hardcoded accounts first, then the database. -/
def login (env : Env) (req : LoginRequest) (s : Store) : Response :=
  if !req.errors.isEmpty then validationFailed req.errors
  else if req.email == "admin@videobelajar.com" && req.password == "admin123" then
    loginSuccess
      (.obj [("id", .str "admin"), ("name", .str "Administrator"),
             ("email", .str req.email), ("role", .str "admin")])
      (generateToken env (.str "admin") req.email (.str "admin"))
  else if req.email == "user@example.com" && req.password == "123456" then
    loginSuccess
      (.obj [("id", .str "demo"), ("name", .str "Demo User"),
             ("email", .str req.email), ("role", .str "user")])
      (generateToken env (.str "demo") req.email (.str "user"))
  else
    match s.findUserByEmail req.email with
    | none => failure 401 "Email atau password salah"
    | some user =>
      if !isPasswordValid env req.password user then
        failure 401 "Email atau password salah"
      else
        loginSuccess
          (.obj [("id", .num user.id), ("fullname", .str user.name),
                 ("username", .str user.username), ("email", .str user.email),
                 ("role", .str (match user.role with
                                | some r => r.toString
                                | none => "user")),
                 ("avatar", Json.ofOptStr user.avatar)])
          (generateToken env (.num user.id) user.email (Json.ofOptRole user.role))

/-! ### Store writes on `users` -/

/-- Why the store refused a statement. -/
inductive StoreError where
  | uniqueViolation (column : String)
  | invalidStatement (clause : String)
  deriving DecidableEq, Repr

/-- The values passed to `User.create`. -/
structure UserValues where
  name : String
  username : String
  email : String
  password : String
  phone : Option String
  gender : Option Gender
  role : Option Role
  avatar : Option String
  verification_token : Option String

/-- Statement `User.create(values)`: an INSERT that takes the next auto-increment
id and stamps both timestamps; refused when a `unique: true` column would
repeat. -/
def Store.createUser (s : Store) (now : Nat) (v : UserValues) : Except StoreError (User × Store) :=
  if s.users.any (fun u => u.username == v.username) then .error (.uniqueViolation "username")
  else if s.users.any (fun u => u.email == v.email) then .error (.uniqueViolation "email")
  else
    let row : User :=
      { id := s.nextUserId, name := v.name, username := v.username, email := v.email,
        password := v.password, phone := v.phone, gender := v.gender, role := v.role,
        avatar := v.avatar, verification_token := v.verification_token,
        created_at := now, updated_at := now }
    .ok (row, { s with users := s.users ++ [row], nextUserId := s.nextUserId + 1 })

/-- Statement `user.update(values)` on the instance `user`, where `assign`
writes the given columns: nothing is issued when no column of the instance
changes; otherwise an UPDATE of the row with the instance's primary key that
also stamps `updated_at` (`timestamps: true`), refused when a `unique: true`
column is given a value another row holds. -/
def Store.updateUser (s : Store) (now : Nat) (user : User) (assign : User → User) :
    Except StoreError Store :=
  if assign user = user then .ok s
  else if (assign user).username != user.username &&
      s.users.any (fun v => v.id != user.id && v.username == (assign user).username) then
    .error (.uniqueViolation "username")
  else if (assign user).email != user.email &&
      s.users.any (fun v => v.id != user.id && v.email == (assign user).email) then
    .error (.uniqueViolation "email")
  else
    let stamp : User → User :=
      fun v => if v.id = user.id then { assign v with updated_at := now } else v
    .ok { s with users := s.users.map stamp }

/-- Statement `user.destroy()` on the instance with primary key `id`. -/
def Store.destroyUser (s : Store) (id : Nat) : Store :=
  { s with users := s.users.filter (fun u => u.id != id) }

/-! ### `utils/email.js` -/

/-- How a call of `sendVerificationEmail` ends. -/
inductive SendResult where
  | returned (value : Option Bool)
  | threw
  deriving DecidableEq, Repr

/-- What a call of `sendVerificationEmail` did: its end, how many times it
called `sendMail`, and the `setTimeout` delays it waited, in order. -/
structure SendTrace where
  result : SendResult
  attempts : Nat
  delays : List Nat
  deriving DecidableEq, Repr

/-- The `for (attempt = ..; attempt <= maxRetries; attempt++)` loop, entered at
`attempt` with `left` iterations to go (`left = maxRetries + 1 - attempt`). -/
def sendLoop (sendMail : Nat → Bool) (maxRetries : Nat) : Nat → Nat → SendTrace
  | 0, _ => { result := .returned none, attempts := 0, delays := [] }
  | left + 1, attempt =>
    if sendMail attempt then { result := .returned (some true), attempts := 1, delays := [] }
    else if attempt = maxRetries then { result := .threw, attempts := 1, delays := [] }
    else
      let rest := sendLoop sendMail maxRetries left (attempt + 1)
      { result := rest.result, attempts := rest.attempts + 1,
        delays := (1000 * attempt) :: rest.delays }

/-- Function `sendVerificationEmail(to, token, maxRetries)`. The message is
built from `to` and `token`; what the caller observes is the trace. A caller
that omits `maxRetries` gets the default 3. -/
def sendVerificationEmail (env : Env) (_to _token : String) (maxRetries : Nat) : SendTrace :=
  sendLoop env.sendMail maxRetries maxRetries 1

/-! ### `register`, `verifyToken`, `verifyEmail` -/

/-- Body of `POST /auth/register` after validation. -/
structure RegisterRequest where
  errors : List FieldError
  fullname : String
  username : String
  email : String
  password : String

/-- Query `User.findOne` with `where: [Op.or]: [email, username]`. -/
def Store.findUserByEmailOrUsername (s : Store) (email username : String) : Option User :=
  s.users.find? (fun u => u.email == email || u.username == username)

/-- The user object of the auth responses: no phone, no gender. -/
def authUserData (u : User) : Json :=
  .obj [("id", .num u.id), ("fullname", .str u.name), ("username", .str u.username),
        ("email", .str u.email), ("role", Json.ofOptRole u.role),
        ("avatar", Json.ofOptStr u.avatar)]

/-- A success envelope with a `data` member. -/
def success (status : Nat) (message : String) (data : Json) : Response :=
  { status := status
    body := .obj [("success", .bool true), ("message", .str message), ("data", data)] }

/-- Handler `register`. -/
def register (env : Env) (req : RegisterRequest) (s : Store) : Response × Store :=
  if !req.errors.isEmpty then (validationFailed req.errors, s)
  else
    let verificationToken := env.uuidv4
    match s.findUserByEmailOrUsername req.email req.username with
    | some _ => (failure 400 "Email sudah terdaftar. Silakan gunakan email lain.", s)
    | none =>
      let hashedPassword := env.bcryptHash req.password (saltRounds env)
      let avatarId := env.random100 + 1
      let avatar := "https://cdn.jsdelivr.net/gh/faker-js/assets-person-portrait/male/512/"
        ++ toString avatarId ++ ".jpg"
      match s.createUser env.now
          { name := req.fullname, username := req.username, email := req.email,
            password := hashedPassword, phone := none, gender := none,
            role := some .student, avatar := some avatar,
            verification_token := some verificationToken } with
      | .error _ => (failure 500 "Terjadi kesalahan saat mendaftar. Silakan coba lagi.", s)
      | .ok (newUser, s') =>
        let userData := authUserData newUser
        let response := success 201 "Pendaftaran berhasil, silakan verifikasi email Anda" userData
        match (sendVerificationEmail env req.email verificationToken 3).result with
        | .threw => (response, s')
        | .returned _ => (response, s')

/-- JS `s.split(sep)` for a one-character separator, on the characters. -/
def splitOnChar (sep : Char) : List Char → List (List Char)
  | [] => [[]]
  | c :: cs =>
    match splitOnChar sep cs with
    | [] => [[]]
    | w :: ws => if c = sep then [] :: w :: ws else (c :: w) :: ws

/-- The bearer token `req.headers.authorization?.split(' ')[1]`. -/
def bearerToken (authorization : Option String) : Option String :=
  match authorization with
  | none => none
  | some h => ((splitOnChar ' ' h.data).get? 1).map String.mk

/-- Value of a run of leading decimal digits, most significant first. -/
def leadingDigits : Nat → List Char → Nat
  | acc, [] => acc
  | acc, c :: cs => if c.isDigit then leadingDigits (10 * acc + (c.toNat - 48)) cs else acc

/-- The primary key a `findByPk(v)` looks for, `v` being a member of a decoded
token: a number is itself, a string is compared by MySQL as the number its
leading digits spell (`'admin'` is 0), `undefined`/`null` finds nothing. -/
def pkOfJson : Option Json → Option Nat
  | some (.num n) => if 0 ≤ n then some n.toNat else none
  | some (.str s) => some (leadingDigits 0 s.data)
  | _ => none

/-- Handler `verifyToken`; `authorization` is `req.headers.authorization`. -/
def verifyToken (env : Env) (authorization : Option String) (s : Store) : Response :=
  let token := bearerToken authorization
  if !truthy token then failure 401 "Token tidak ditemukan"
  else
    match env.jwtVerify (token.getD "") env.JWT_SECRET with
    | .error _ => failure 401 "Token tidak valid"
    | .ok decoded =>
      match (pkOfJson (decoded.get? "userId")).bind s.findUserByPk with
      | none => failure 401 "User tidak ditemukan"
      | some user => success 200 "Token valid" (authUserData user)

/-- Value of a hexadecimal digit. -/
def hexDigit? (c : Char) : Option Nat :=
  if '0' ≤ c ∧ c ≤ '9' then some (c.toNat - 48)
  else if 'a' ≤ c ∧ c ≤ 'f' then some (c.toNat - 87)
  else if 'A' ≤ c ∧ c ≤ 'F' then some (c.toNat - 55)
  else none

/-- A URI component read left to right: a character standing for itself, or
the octet of an escape `%XX`. -/
inductive UriItem where
  | lit (c : Char)
  | octet (b : Nat)
  deriving DecidableEq, Repr

/-- First pass of `decodeURIComponent`: resolve the escapes; `none` is the
`URIError` of a `%` that is not followed by two hexadecimal digits. -/
def percentItems : List Char → Option (List UriItem)
  | [] => some []
  | c :: rest =>
    if c = '%' then
      match rest with
      | h :: l :: rest' =>
        match hexDigit? h, hexDigit? l with
        | some a, some b => (percentItems rest').map (fun is => UriItem.octet (16 * a + b) :: is)
        | _, _ => none
      | _ => none
    else (percentItems rest).map (fun is => UriItem.lit c :: is)

/-- Is `b` a UTF-8 continuation octet within `lo..hi`? -/
def contIn (lo hi b : Nat) : Bool := decide (lo ≤ b) && decide (b ≤ hi)

/-- Second pass of `decodeURIComponent`: runs of escaped octets must be
well-formed UTF-8 (Unicode table 3-7); `none` is the `URIError` otherwise. -/
def utf8Items : List UriItem → Option (List Char)
  | [] => some []
  | .lit c :: rest => (utf8Items rest).map (fun cs => c :: cs)
  | .octet b :: rest =>
    if b < 0x80 then (utf8Items rest).map (fun cs => Char.ofNat b :: cs)
    else if 0xC2 ≤ b ∧ b ≤ 0xDF then
      match rest with
      | .octet b1 :: rest' =>
        if contIn 0x80 0xBF b1 then
          (utf8Items rest').map (fun cs => Char.ofNat ((b - 0xC0) * 64 + (b1 - 0x80)) :: cs)
        else none
      | _ => none
    else if 0xE0 ≤ b ∧ b ≤ 0xEF then
      match rest with
      | .octet b1 :: .octet b2 :: rest' =>
        if contIn (if b = 0xE0 then 0xA0 else 0x80) (if b = 0xED then 0x9F else 0xBF) b1
            && contIn 0x80 0xBF b2 then
          (utf8Items rest').map
            (fun cs => Char.ofNat ((b - 0xE0) * 4096 + (b1 - 0x80) * 64 + (b2 - 0x80)) :: cs)
        else none
      | _ => none
    else if 0xF0 ≤ b ∧ b ≤ 0xF4 then
      match rest with
      | .octet b1 :: .octet b2 :: .octet b3 :: rest' =>
        if contIn (if b = 0xF0 then 0x90 else 0x80) (if b = 0xF4 then 0x8F else 0xBF) b1
            && contIn 0x80 0xBF b2 && contIn 0x80 0xBF b3 then
          (utf8Items rest').map
            (fun cs => Char.ofNat ((b - 0xF0) * 262144 + (b1 - 0x80) * 4096
                          + (b2 - 0x80) * 64 + (b3 - 0x80)) :: cs)
        else none
      | _ => none
    else none

/-- JS `decodeURIComponent(s)`; `none` is the thrown `URIError`. -/
def decodeURIComponent (s : String) : Option String :=
  ((percentItems s.data).bind utf8Items).map String.mk

/-- A success envelope without `data`. -/
def successMessage (message : String) : Response :=
  { status := 200, body := .obj [("success", .bool true), ("message", .str message)] }

/-- Handler `verifyEmail`; `queryToken` is `req.query.token`. -/
def verifyEmail (env : Env) (queryToken : Option String) (s : Store) : Response × Store :=
  match decodeURIComponent (orDefault queryToken "") with
  | none => (failure 500 "Verification failed", s)
  | some token =>
    if token == "" then (failure 400 "Invalid Verification Token", s)
    else
      match s.users.find? (fun u => u.verification_token == some token) with
      | none => (failure 400 "Invalid Verification Token", s)
      | some user =>
        match s.updateUser env.now user (fun u => { u with verification_token := none }) with
        | .error _ => (failure 500 "Verification failed", s)
        | .ok s' => (successMessage "Email Verified Successfully", s')

/-! ## `usersController.js` -/

/-- JS `toUpperCase` on the characters that matter for a comparison with an
ASCII word: `a`..`z`, and U+017F (long s), whose upper case is `S`. Every
other character is left alone: none of them has an ASCII letter as upper
case, except U+0131 (dotless i), which maps to `I`. -/
def jsUpperChar (c : Char) : Char :=
  if 'a' ≤ c ∧ c ≤ 'z' then Char.ofNat (c.toNat - 32)
  else if c = Char.ofNat 0x17F then 'S'
  else if c = Char.ofNat 0x131 then 'I'
  else c

/-- JS `s.toUpperCase()`, see `jsUpperChar`. -/
def jsToUpperCase (s : String) : String := String.mk (s.data.map jsUpperChar)

/-- The column `allowedSort.includes(sortBy) ? sortBy : 'created_at'`. -/
def sortColumn (allowedSort : List String) (sortBy : Option String) : String :=
  match sortBy with
  | some c => if allowedSort.contains c then c else "created_at"
  | none => "created_at"

/-- The direction `sort && sort.toUpperCase() === 'ASC' ? 'ASC' : 'DESC'`. -/
def sortOrder (sort : Option String) : String :=
  match sort with
  | some d => if d != "" && jsToUpperCase d == "ASC" then "ASC" else "DESC"
  | none => "DESC"

/-- Rows in the order `ORDER BY column direction`, `le` being the order of the
column; rows that tie keep their table order. -/
def orderRows {α : Type} (le : α → α → Prop) [DecidableRel le] (direction : String)
    (rows : List α) : List α :=
  if direction = "ASC" then rows.insertionSort le
  else rows.insertionSort (fun a b => le b a)

/-- Order of two `users` rows on a sortable column. -/
def userColumnLe (column : String) (u v : User) : Prop :=
  if column = "name" then u.name ≤ v.name
  else if column = "email" then u.email ≤ v.email
  else u.created_at ≤ v.created_at

instance (column : String) : DecidableRel (userColumnLe column) := by
  intro u v
  unfold userColumnLe
  exact inferInstance

/-- The user object of the `/users` responses. -/
def userData (u : User) : Json :=
  .obj [("id", .num u.id), ("fullname", .str u.name), ("username", .str u.username),
        ("email", .str u.email), ("phone", Json.ofOptStr u.phone),
        ("gender", Json.ofOptGender u.gender), ("role", Json.ofOptRole u.role),
        ("avatar", Json.ofOptStr u.avatar)]

/-- Query string of `GET /users`. -/
structure UsersQuery where
  role : Option String
  search : Option String
  sortBy : Option String
  sort : Option String

/-- The `where` clause built by `getAllUsers`. -/
def usersWhere (env : Env) (q : UsersQuery) (u : User) : Bool :=
  (if truthy q.role then u.role.map Role.toString == q.role else true) &&
  (if truthy q.search then env.like u.name ("%" ++ q.search.getD "" ++ "%") else true)

/-- Handler `getAllUsers`. -/
def getAllUsers (env : Env) (q : UsersQuery) (s : Store) : Response :=
  let column := sortColumn ["created_at", "name", "email"] q.sortBy
  let users := orderRows (userColumnLe column) (sortOrder q.sort)
    (s.users.filter (usersWhere env q))
  let mappedUsers := users.map userData
  { status := 200
    body := .obj [("success", .bool true), ("message", .str "Users retrieved successfully"),
                  ("data", .arr mappedUsers), ("count", .num mappedUsers.length)] }

/-- Handler `getUserById`; `id` is `req.params.id`. -/
def getUserById (errors : List FieldError) (id : Nat) (s : Store) : Response :=
  if !errors.isEmpty then validationFailed errors
  else
    match s.findUserByPk id with
    | none => failure 404 "User tidak ditemukan"
    | some user => success 200 "User retrieved successfully" (userData user)

/-- Body of `POST /users` after validation. -/
structure CreateUserRequest where
  errors : List FieldError
  fullname : String
  username : String
  email : String
  password : String
  phone : Option String
  gender : Option Gender
  role : Option Role
  avatar : Option String

/-- Handler `createUser`. -/
def createUser (env : Env) (req : CreateUserRequest) (s : Store) : Response × Store :=
  if !req.errors.isEmpty then (validationFailed req.errors, s)
  else
    match s.findUserByEmailOrUsername req.email req.username with
    | some _ => (failure 400 "Email sudah terdaftar", s)
    | none =>
      let hashedPassword := env.bcryptHash req.password (saltRounds env)
      let userAvatar := orDefault req.avatar
        ("https://cdn.jsdelivr.net/gh/faker-js/assets-person-portrait/male/512/"
          ++ toString env.random100 ++ ".jpg")
      match s.createUser env.now
          { name := req.fullname, username := req.username, email := req.email,
            password := hashedPassword, phone := orNull req.phone, gender := req.gender,
            role := some (req.role.getD .student), avatar := some userAvatar,
            verification_token := none } with
      | .error _ => (failure 500 "Terjadi kesalahan saat membuat user", s)
      | .ok (user, s') => (success 201 "User created successfully" (userData user), s')

/-- Body and parameter of `PUT /users/:id` after validation. A missing key is
`none`; for `gender` and `role` a key that is present with a falsy value
(`null`, `''`) is `some none`. -/
structure UpdateUserRequest where
  errors : List FieldError
  id : Nat
  fullname : Option String
  username : Option String
  email : Option String
  phone : Option String
  gender : Option (Option Gender)
  role : Option (Option Role)
  avatar : Option String

/-- The object `updates` of `updateUser`: one entry per key that was set. -/
structure UserUpdates where
  name : Option String
  username : Option String
  email : Option String
  phone : Option (Option String)
  gender : Option (Option Gender)
  role : Option (Option Role)
  avatar : Option String
  deriving DecidableEq, Repr

/-- The keys `Object.keys(updates)`. -/
def UserUpdates.keys (up : UserUpdates) : List String :=
  (if up.name.isSome then ["name"] else []) ++
  (if up.username.isSome then ["username"] else []) ++
  (if up.email.isSome then ["email"] else []) ++
  (if up.phone.isSome then ["phone"] else []) ++
  (if up.gender.isSome then ["gender"] else []) ++
  (if up.role.isSome then ["role"] else []) ++
  (if up.avatar.isSome then ["avatar"] else [])

/-- The columns `user.update(updates)` writes. -/
def UserUpdates.assign (up : UserUpdates) (u : User) : User :=
  { u with
    name := up.name.getD u.name
    username := up.username.getD u.username
    email := up.email.getD u.email
    phone := up.phone.getD u.phone
    gender := up.gender.getD u.gender
    role := up.role.getD u.role
    avatar := match up.avatar with
      | some a => some a
      | none => u.avatar }

/-- The `updates` that `updateUser` collects from the request body. -/
def userUpdatesOf (req : UpdateUserRequest) : UserUpdates :=
  { name := req.fullname
    username := req.username
    email := req.email
    phone := req.phone.map (fun p => orNull (some p))
    gender := req.gender
    role := req.role
    avatar := req.avatar }

/-- Handler `updateUser`. -/
def updateUser (env : Env) (req : UpdateUserRequest) (s : Store) : Response × Store :=
  if !req.errors.isEmpty then (validationFailed req.errors, s)
  else
    match s.findUserByPk req.id with
    | none => (failure 404 "User tidak ditemukan", s)
    | some user =>
      if truthy req.email && req.email != some user.email &&
          s.users.any (fun v => some v.email == req.email && v.id != req.id) then
        (failure 400 "Email sudah digunakan oleh user lain", s)
      else if truthy req.username && req.username != some user.username &&
          s.users.any (fun v => some v.username == req.username && v.id != req.id) then
        (failure 400 "Username sudah digunakan oleh user lain", s)
      else
        let updates := userUpdatesOf req
        if updates.keys.length == 0 then (failure 400 "Tidak ada data yang diupdate", s)
        else
          match s.updateUser env.now user updates.assign with
          | .error _ => (failure 500 "Terjadi kesalahan saat mengupdate user", s)
          | .ok s' => (success 200 "User updated successfully" (userData (updates.assign user)), s')

/-- Handler `deleteUser`; `id` is `req.params.id`. -/
def deleteUser (errors : List FieldError) (id : Nat) (s : Store) : Response × Store :=
  if !errors.isEmpty then (validationFailed errors, s)
  else
    match s.findUserByPk id with
    | none => (failure 404 "User tidak ditemukan", s)
    | some user =>
      if user.role = some .admin then (failure 403 "Admin user tidak dapat dihapus", s)
      else (successMessage "User deleted successfully", s.destroyUser user.id)

/-- Handler `resetPassword`; `id` is `req.params.id`. -/
def resetPassword (env : Env) (errors : List FieldError) (id : Nat) (newPassword : String)
    (s : Store) : Response × Store :=
  if !errors.isEmpty then (validationFailed errors, s)
  else
    match s.findUserByPk id with
    | none => (failure 404 "User tidak ditemukan", s)
    | some user =>
      let hashedPassword := env.bcryptHash newPassword (saltRounds env)
      match s.updateUser env.now user (fun u => { u with password := hashedPassword }) with
      | .error _ => (failure 500 "Terjadi kesalahan saat mereset password", s)
      | .ok s' => (success 200 "Password reset successfully" (userData user), s')

/-! ## `coursesController.js` -/

/-- Query `Course.findByPk(id)`. -/
def Store.findCourseByPk (s : Store) (id : Nat) : Option Course :=
  s.courses.find? (fun c => c.id == id)

/-- Statement `course.update(values)` on the instance `course`: nothing is
issued when no column of the instance changes; otherwise an UPDATE of the row
with the instance's primary key that also stamps `updated_at`
(`timestamps: true`). Table `courses` has no unique column, so the statement
is never refused. -/
def Store.updateCourse (s : Store) (now : Nat) (course : Course) (assign : Course → Course) :
    Store :=
  if assign course = course then s
  else
    let stamp : Course → Course :=
      fun v => if v.id = course.id then { assign v with updated_at := now } else v
    { s with courses := s.courses.map stamp }

/-- A row of `courses` as `res.json` serialises the model instance. -/
def courseData (c : Course) : Json :=
  .obj [("id", .num c.id), ("title", .str c.title), ("description", .str c.description),
        ("photos", Json.ofOptStr c.photos), ("mentor", .str c.mentor),
        ("rolementor", .str c.rolementor), ("avatar", Json.ofOptStr c.avatar),
        ("company", .str c.company), ("rating", .num c.rating),
        ("review_count", .num c.review_count), ("price", .str c.price),
        ("category", .str c.category.toString), ("created_at", .num c.created_at),
        ("updated_at", .num c.updated_at)]

/-- Body and parameter of `PUT /courses/:id` after validation; a missing key
is `none`. -/
structure UpdateCourseRequest where
  errors : List FieldError
  id : Nat
  title : Option String
  description : Option String
  photos : Option String
  mentor : Option String
  rolementor : Option String
  avatar : Option String
  company : Option String
  rating : Option Nat
  review_count : Option Int
  price : Option String
  category : Option Category

/-- The object `updates` of `updateCourse`: one entry per key that was set. -/
structure CourseUpdates where
  title : Option String
  description : Option String
  photos : Option (Option String)
  mentor : Option String
  rolementor : Option String
  avatar : Option (Option String)
  company : Option String
  rating : Option Nat
  review_count : Option Int
  price : Option String
  category : Option Category
  deriving DecidableEq, Repr

/-- The keys `Object.keys(updates)`. -/
def CourseUpdates.keys (up : CourseUpdates) : List String :=
  (if up.title.isSome then ["title"] else []) ++
  (if up.description.isSome then ["description"] else []) ++
  (if up.photos.isSome then ["photos"] else []) ++
  (if up.mentor.isSome then ["mentor"] else []) ++
  (if up.rolementor.isSome then ["rolementor"] else []) ++
  (if up.avatar.isSome then ["avatar"] else []) ++
  (if up.company.isSome then ["company"] else []) ++
  (if up.rating.isSome then ["rating"] else []) ++
  (if up.review_count.isSome then ["review_count"] else []) ++
  (if up.price.isSome then ["price"] else []) ++
  (if up.category.isSome then ["category"] else [])

/-- The columns `course.update(updates)` writes. -/
def CourseUpdates.assign (up : CourseUpdates) (c : Course) : Course :=
  { c with
    title := up.title.getD c.title
    description := up.description.getD c.description
    photos := up.photos.getD c.photos
    mentor := up.mentor.getD c.mentor
    rolementor := up.rolementor.getD c.rolementor
    avatar := up.avatar.getD c.avatar
    company := up.company.getD c.company
    rating := up.rating.getD c.rating
    review_count := up.review_count.getD c.review_count
    price := up.price.getD c.price
    category := up.category.getD c.category }

/-- The `updates` that `updateCourse` collects from the request body. -/
def courseUpdatesOf (req : UpdateCourseRequest) : CourseUpdates :=
  { title := req.title
    description := req.description
    photos := req.photos.map (fun p => orNull (some p))
    mentor := req.mentor
    rolementor := req.rolementor
    avatar := req.avatar.map (fun a => orNull (some a))
    company := req.company
    rating := req.rating
    review_count := req.review_count
    price := req.price
    category := req.category }

/-- Handler `updateCourse`. -/
def updateCourse (env : Env) (req : UpdateCourseRequest) (s : Store) : Response × Store :=
  if !req.errors.isEmpty then (validationFailed req.errors, s)
  else
    match s.findCourseByPk req.id with
    | none => (failure 404 "Course tidak ditemukan", s)
    | some course =>
      let updates := courseUpdatesOf req
      if updates.keys.length == 0 then (failure 400 "Tidak ada data yang diupdate", s)
      else
        let s' := s.updateCourse env.now course updates.assign
        let saved := updates.assign course
        let data := if saved = course then saved else { saved with updated_at := env.now }
        (success 200 "Course updated successfully" (courseData data), s')

/-! ## A concrete environment

Concrete inputs need a concrete hasher. `demoHash` keeps the shape of a bcrypt
string (`$2b$`, the cost, `$`, then the payload) and `demoCompare` accepts
exactly the strings `demoHash` makes, so the pair obeys the two laws of bcrypt
the handlers rely on: a hash starts with `$2`, and a plaintext matches its own
hash. -/

/-- Stand-in for `bcrypt.hash`. -/
def demoHash (plain : String) (rounds : Int) : String :=
  "$2b$" ++ toString rounds ++ "$" ++ plain

/-- Stand-in for `bcrypt.compare`. -/
def demoCompare (plain stored : String) : Bool :=
  match stored.data with
  | '$' :: '2' :: 'b' :: '$' :: rest => rest.dropWhile Char.isDigit == '$' :: plain.data
  | _ => false

/-- Stand-in for `jwt.sign`: the token spells out the signed user id. -/
def demoSign (payload : Json) (_secret : Option String) (_expiresIn : String) : String :=
  match payload.get? "userId" with
  | some (.num n) => "jwt." ++ toString n
  | some (.str t) => "jwt." ++ t
  | _ => "jwt"

/-- Environment used at concrete inputs. -/
def demoEnv : Env :=
  { now := 200
    uuidv4 := "3f2b8c1e-0000-4000-8000-000000000001"
    random100 := 41
    bcryptHash := demoHash
    bcryptCompare := demoCompare
    jwtSign := demoSign
    JWT_SECRET := some "secret"
    JWT_EXPIRES_IN := none
    BCRYPT_SALT_ROUNDS := none
    sendMail := fun _ => false
    jwtVerify := fun _ _ => .error "invalid token"
    like := fun value pattern => pattern == "%" ++ value ++ "%" }

/-- A `users` row with the given key, names and password, created at tick 100. -/
def demoUser (id : Nat) (username email password : String) (role : Role)
    (token : Option String) : User :=
  { id := id, name := "Jane Doe", username := username, email := email, password := password,
    phone := none, gender := none, role := some role, avatar := none,
    verification_token := token, created_at := 100, updated_at := 100 }

/-- A store holding the given users and no course. -/
def demoStore (users : List User) : Store :=
  { users := users, nextUserId := users.length + 1, courses := [], nextCourseId := 1 }

/-- The login request of the hardcoded administrator account. -/
def adminRequest : LoginRequest := ⟨[], "admin@videobelajar.com", "admin123"⟩

/-- A database user under the administrator's email whose password is the
hash of something else. -/
def otherAdminRow : User := demoUser 1 "root" "admin@videobelajar.com" "$2b$12$other" .admin none

/-- Jane's login request. -/
def janeLogin : LoginRequest := ⟨[], "jane@x.com", "secret1"⟩

/-- Jane's row, her password hashed by `demoHash`. -/
def janeRow : User := demoUser 1 "janed" "jane@x.com" "$2b$12$secret1" .student none

/-- The `token` member of the `data` of a response, when there is one. -/
def Response.token? (r : Response) : Option Json :=
  (r.body.get? "data").bind (Json.get? "token")

/-- The store with every user's `verification_token` replaced by `f` of the row:
the same users in any verification state. -/
def Store.setTokens (s : Store) (f : User → Option String) : Store :=
  { s with users := s.users.map (fun u => { u with verification_token := f u }) }

/-- Two users that hold the same verification token. -/
def sharedTokenStore : Store :=
  demoStore [demoUser 1 "janed" "jane@x.com" "$2b$12$secret1" .student (some "tok"),
             demoUser 2 "johnd" "john@x.com" "$2b$12$secret2" .student (some "tok")]

/-- A user whose verification token contains a percent sign. -/
def percentTokenStore : Store :=
  demoStore [demoUser 1 "janed" "jane@x.com" "$2b$12$secret1" .student (some "100%")]

/-- Jane alone, not yet verified. -/
def unverifiedStore : Store :=
  demoStore [demoUser 1 "janed" "jane@x.com" "$2b$12$secret1" .student (some "tok"),
             demoUser 2 "johnd" "john@x.com" "$2b$12$secret2" .student none]

/-- An administrator next to Jane. -/
def adminAndJane : Store :=
  demoStore [demoUser 1 "root" "root@x.com" "$2b$12$rootpw" .admin none,
             demoUser 2 "janed" "jane@x.com" "$2b$12$secret1" .student none]

/-- Does the request body of `PUT /users/:id` carry none of the recognised keys? -/
def UpdateUserRequest.noFields (req : UpdateUserRequest) : Bool :=
  req.fullname.isNone && req.username.isNone && req.email.isNone && req.phone.isNone &&
  req.gender.isNone && req.role.isNone && req.avatar.isNone

/-- Does the request body of `PUT /courses/:id` carry none of the recognised keys? -/
def UpdateCourseRequest.noFields (req : UpdateCourseRequest) : Bool :=
  req.title.isNone && req.description.isNone && req.photos.isNone && req.mentor.isNone &&
  req.rolementor.isNone && req.avatar.isNone && req.company.isNone && req.rating.isNone &&
  req.review_count.isNone && req.price.isNone && req.category.isNone

/-- A course of the default catalogue, created at tick 100. -/
def demoCourse : Course :=
  { id := 1, title := "Big 4 Auditor Financial Analyst", description := "Mulai transformasi",
    photos := some "/images/cards/card1.png", mentor := "Jenna Ortega",
    rolementor := "Senior Accountant", avatar := some "/images/tutors/tutor-card1.png",
    company := "Gojek", rating := 45, review_count := 126, price := "300K",
    category := .bisnis, created_at := 100, updated_at := 100 }

/-- A store with one course and one user. -/
def catalogStore : Store :=
  { users := [demoUser 1 "janed" "jane@x.com" "$2b$12$secret1" .student none], nextUserId := 2,
    courses := [demoCourse], nextCourseId := 2 }

/-- An update of course 1 whose body has no recognised key. -/
def emptyCourseUpdate : UpdateCourseRequest :=
  { errors := [], id := 1, title := none, description := none, photos := none, mentor := none,
    rolementor := none, avatar := none, company := none, rating := none,
    review_count := none, price := none, category := none }

/-- An update of user 1 whose body has no recognised key. -/
def emptyUserUpdate : UpdateUserRequest :=
  { errors := [], id := 1, fullname := none, username := none, email := none, phone := none,
    gender := none, role := none, avatar := none }

/-- All columns of a `users` row, by column name. -/
def userRow (u : User) : Json :=
  .obj [("id", .num u.id), ("name", .str u.name), ("username", .str u.username),
        ("email", .str u.email), ("password", .str u.password),
        ("phone", Json.ofOptStr u.phone), ("gender", Json.ofOptGender u.gender),
        ("role", Json.ofOptRole u.role), ("avatar", Json.ofOptStr u.avatar),
        ("verification_token", Json.ofOptStr u.verification_token),
        ("created_at", .num u.created_at), ("updated_at", .num u.updated_at)]

/-- An update of course 1 that carries a title and nothing else. -/
def titleUpdate : UpdateCourseRequest := { emptyCourseUpdate with title := some "Audit 101" }

/-- An update of user 1 that carries a phone number and nothing else. -/
def phoneUpdate : UpdateUserRequest := { emptyUserUpdate with phone := some "0812" }

/-- A row with its password blanked: everything about a user but the password. -/
def User.redact (u : User) : User := { u with password := "" }

/-- The store with every password blanked. -/
def Store.redact (s : Store) : Store := { s with users := s.users.map User.redact }

/-- Jane's store. -/
def janeStore : Store := demoStore [janeRow]

/-- Jane's store after her password changed. -/
def janeStoreRehashed : Store := demoStore [{ janeRow with password := "$2b$12$changed" }]

/-- The primary key of `users`: no two rows share an `id`, and the
auto-increment counter is ahead of every row. -/
def Store.WellKeyed (s : Store) : Prop :=
  (s.users.map User.id).Nodup ∧ ∀ u ∈ s.users, u.id < s.nextUserId

/-- No two rows of `users` share an email, and no two share a username. -/
def Store.UniqueUsers (s : Store) : Prop :=
  (s.users.map User.email).Nodup ∧ (s.users.map User.username).Nodup

/-- A request to give user 2 the email of user 1. -/
def takenEmailUpdate : UpdateUserRequest :=
  { emptyUserUpdate with id := 2, email := some "root@x.com" }

/-- A JWT stand-in that carries the three claims in clear: `jwt|<id>|<email>|<role>`,
the id written `n<digits>` for a number and `s<text>` for a string. -/
def clearSign (payload : Json) (_secret : Option String) (_expiresIn : String) : String :=
  let id := match payload.get? "userId" with
    | some (.num n) => "n" ++ toString n
    | some (.str t) => "s" ++ t
    | _ => ""
  let email := match payload.get? "email" with
    | some (.str e) => e
    | _ => ""
  let role := match payload.get? "role" with
    | some (.str r) => r
    | _ => ""
  "jwt|" ++ id ++ "|" ++ email ++ "|" ++ role

/-- The verifier of `clearSign`: it accepts exactly the tokens of that shape. -/
def clearVerify (token : String) (_secret : Option String) : Except String Json :=
  match splitOnChar '|' token.data with
  | [['j', 'w', 't'], 'n' :: digits, email, role] =>
    .ok (.obj [("userId", .num (leadingDigits 0 digits)), ("email", .str (String.mk email)),
               ("role", if role = [] then .null else .str (String.mk role))])
  | [['j', 'w', 't'], 's' :: text, email, role] =>
    .ok (.obj [("userId", .str (String.mk text)), ("email", .str (String.mk email)),
               ("role", if role = [] then .null else .str (String.mk role))])
  | _ => .error "jwt malformed"

/-- The concrete environment with a token library that verifies what it signs. -/
def tokenEnv : Env := { demoEnv with jwtSign := clearSign, jwtVerify := clearVerify }

/-- Jane's store after an administrator promoted her. -/
def janePromotedStore : Store := demoStore [{ janeRow with role := some .admin }]

/-- Handler `register` together with the call of `sendVerificationEmail` it
makes: the third component is the trace of that call, `none` when the handler
returns before reaching it. -/
def registerTraced (env : Env) (req : RegisterRequest) (s : Store) :
    Response × Store × Option SendTrace :=
  if !req.errors.isEmpty then (validationFailed req.errors, s, none)
  else
    let verificationToken := env.uuidv4
    match s.findUserByEmailOrUsername req.email req.username with
    | some _ => (failure 400 "Email sudah terdaftar. Silakan gunakan email lain.", s, none)
    | none =>
      let hashedPassword := env.bcryptHash req.password (saltRounds env)
      let avatarId := env.random100 + 1
      let avatar := "https://cdn.jsdelivr.net/gh/faker-js/assets-person-portrait/male/512/"
        ++ toString avatarId ++ ".jpg"
      match s.createUser env.now
          { name := req.fullname, username := req.username, email := req.email,
            password := hashedPassword, phone := none, gender := none,
            role := some .student, avatar := some avatar,
            verification_token := some verificationToken } with
      | .error _ => (failure 500 "Terjadi kesalahan saat mendaftar. Silakan coba lagi.", s, none)
      | .ok (newUser, s') =>
        let userData := authUserData newUser
        let response := success 201 "Pendaftaran berhasil, silakan verifikasi email Anda" userData
        let trace := sendVerificationEmail env req.email verificationToken 3
        match trace.result with
        | .threw => (response, s', some trace)
        | .returned _ => (response, s', some trace)

/-- A mail transport that is down. -/
def mailDownEnv : Env := { demoEnv with sendMail := fun _ => false }

/-- A mail transport that works. -/
def mailUpEnv : Env := { demoEnv with sendMail := fun _ => true }

/-! ## `coursesController.js`: listing, creation, deletion, reset -/

/-- JS `StrWhiteSpaceChar`: the characters `parseInt` skips at the start. -/
def jsIsWhiteSpace (c : Char) : Bool :=
  let n := c.toNat
  n == 0x09 || n == 0x0A || n == 0x0B || n == 0x0C || n == 0x0D || n == 0x20 || n == 0xA0 ||
  n == 0x1680 || (decide (0x2000 ≤ n) && decide (n ≤ 0x200A)) || n == 0x2028 || n == 0x2029 ||
  n == 0x202F || n == 0x205F || n == 0x3000 || n == 0xFEFF

/-- Value of `c` as a digit in the given radix, if it is one. -/
def digitIn (radix : Nat) (c : Char) : Option Nat :=
  let v :=
    if '0' ≤ c ∧ c ≤ '9' then some (c.toNat - 48)
    else if 'a' ≤ c ∧ c ≤ 'z' then some (c.toNat - 87)
    else if 'A' ≤ c ∧ c ≤ 'Z' then some (c.toNat - 55)
    else none
  match v with
  | some d => if d < radix then some d else none
  | none => none

/-- The longest run of digits at the start: its value and its length. -/
def readDigits (radix : Nat) : Nat → Nat → List Char → Nat × Nat
  | acc, len, [] => (acc, len)
  | acc, len, c :: cs =>
    match digitIn radix c with
    | some d => readDigits radix (radix * acc + d) (len + 1) cs
    | none => (acc, len)

/-- JS `parseInt(s)` without a radix, as an exact integer; `none` is `NaN`.
Leading white space is skipped, a sign is read, `0x`/`0X` switches to
hexadecimal, and the digits that follow are read up to the first character
that is not one. -/
def jsParseInt (s : String) : Option Int :=
  let trimmed := s.data.dropWhile jsIsWhiteSpace
  let signed : Bool × List Char :=
    match trimmed with
    | '-' :: rest => (true, rest)
    | '+' :: rest => (false, rest)
    | rest => (false, rest)
  let based : Nat × List Char :=
    match signed.2 with
    | '0' :: 'x' :: rest => (16, rest)
    | '0' :: 'X' :: rest => (16, rest)
    | rest => (10, rest)
  let read := readDigits based.1 0 0 based.2
  if read.2 = 0 then none
  else if signed.1 then some (-(read.1 : Int)) else some (read.1 : Int)

/-- JSON of a `parseInt` result: `NaN` is serialised as `null`. -/
def Json.ofParsed : Option Int → Json
  | some n => .num n
  | none => .null

/-- Order of two `courses` rows on a sortable column. -/
def courseColumnLe (column : String) (c d : Course) : Prop :=
  if column = "title" then c.title ≤ d.title
  else if column = "price" then c.price ≤ d.price
  else if column = "rating" then c.rating ≤ d.rating
  else c.created_at ≤ d.created_at

instance (column : String) : DecidableRel (courseColumnLe column) := by
  intro c d
  unfold courseColumnLe
  exact inferInstance

/-- Query string of `GET /courses`, with the validation result. -/
structure CoursesQuery where
  errors : List FieldError
  category : Option String
  limit : Option String
  offset : Option String
  search : Option String
  sortBy : Option String
  sort : Option String

/-- The `where` clause built by `getAllCourses`. -/
def coursesWhere (env : Env) (q : CoursesQuery) (c : Course) : Bool :=
  (if truthy q.category then some c.category.toString == q.category else true) &&
  (if truthy q.search then env.like c.title ("%" ++ q.search.getD "" ++ "%") else true)

/-- The option `...(x && { key: parseInt(x) })`: absent when `x` is falsy. -/
def parsedOption (x : Option String) : Option (Option Int) :=
  if truthy x then some (jsParseInt (x.getD "")) else none

/-- The value `x ? parseInt(x) : null` of the `pagination` object. -/
def parsedOrNull (x : Option String) : Json :=
  if truthy x then Json.ofParsed (jsParseInt (x.getD "")) else .null

/-- The clause `LIMIT`/`OFFSET` applied to ordered rows. A count that is `NaN`
or negative makes the statement invalid; an offset alone skips rows and keeps
the rest. -/
def limitRows {α : Type} (limit offset : Option (Option Int)) (rows : List α) :
    Except StoreError (List α) :=
  match limit, offset with
  | none, none => .ok rows
  | none, some (some o) =>
    if 0 ≤ o then .ok (rows.drop o.toNat) else .error (.invalidStatement "LIMIT")
  | some (some l), none =>
    if 0 ≤ l then .ok (rows.take l.toNat) else .error (.invalidStatement "LIMIT")
  | some (some l), some (some o) =>
    if 0 ≤ l ∧ 0 ≤ o then .ok ((rows.drop o.toNat).take l.toNat)
    else .error (.invalidStatement "LIMIT")
  | _, _ => .error (.invalidStatement "LIMIT")

/-- Query `Course.findAndCountAll`: the page of rows, and the number of rows
that match `where`, whatever the page. -/
def Store.findAndCountAllCourses (s : Store) (matches_ : Course → Bool) (column direction : String)
    (limit offset : Option (Option Int)) : Except StoreError (List Course × Nat) :=
  let matching := s.courses.filter matches_
  match limitRows limit offset (orderRows (courseColumnLe column) direction matching) with
  | .error e => .error e
  | .ok rows => .ok (rows, matching.length)

/-- The success response of `getAllCourses`. -/
def coursesPage (q : CoursesQuery) (courses : List Course) (totalCount : Nat) : Response :=
  { status := 200
    body := .obj [("success", .bool true), ("message", .str "Courses retrieved successfully"),
                  ("data", .arr (courses.map courseData)),
                  ("pagination", .obj [("total", .num totalCount),
                                       ("count", .num courses.length),
                                       ("limit", parsedOrNull q.limit),
                                       ("offset", parsedOrNull q.offset)])] }

/-- Handler `getAllCourses`. -/
def getAllCourses (env : Env) (q : CoursesQuery) (s : Store) : Response :=
  if !q.errors.isEmpty then validationFailed q.errors
  else
    let column := sortColumn ["created_at", "title", "price", "rating"] q.sortBy
    let direction := sortOrder q.sort
    match s.findAndCountAllCourses (coursesWhere env q) column direction
        (parsedOption q.limit) (parsedOption q.offset) with
    | .error _ => failure 500 "Terjadi kesalahan saat mengambil data courses"
    | .ok (courses, totalCount) => coursesPage q courses totalCount

/-- Handler `getCourseById`; `id` is `req.params.id`. -/
def getCourseById (errors : List FieldError) (id : Nat) (s : Store) : Response :=
  if !errors.isEmpty then validationFailed errors
  else
    match s.findCourseByPk id with
    | none => failure 404 "Course tidak ditemukan"
    | some course => success 200 "Course retrieved successfully" (courseData course)

/-- Handler `getCoursesByCategory`; `category` is `req.params.category`. -/
def getCoursesByCategory (errors : List FieldError) (category : String) (s : Store) : Response :=
  if !errors.isEmpty then validationFailed errors
  else
    let courses := orderRows (courseColumnLe "created_at") "DESC"
      (s.courses.filter (fun c => c.category.toString == category))
    { status := 200
      body := .obj [("success", .bool true),
                    ("message", .str ("Courses in category '" ++ category
                      ++ "' retrieved successfully")),
                    ("data", .arr (courses.map courseData)),
                    ("count", .num courses.length)] }

/-- The values passed to `Course.create` and `Course.bulkCreate`. -/
structure CourseValues where
  title : String
  description : String
  photos : Option String
  mentor : String
  rolementor : String
  avatar : Option String
  company : String
  rating : Nat
  review_count : Int
  price : String
  category : Category

/-- Statement `Course.create(values)`: an INSERT that takes the next
auto-increment id and stamps both timestamps. -/
def Store.createCourse (s : Store) (now : Nat) (v : CourseValues) : Course × Store :=
  let row : Course :=
    { id := s.nextCourseId, title := v.title, description := v.description, photos := v.photos,
      mentor := v.mentor, rolementor := v.rolementor, avatar := v.avatar, company := v.company,
      rating := v.rating, review_count := v.review_count, price := v.price,
      category := v.category, created_at := now, updated_at := now }
  (row, { s with courses := s.courses ++ [row], nextCourseId := s.nextCourseId + 1 })

/-- Statement `Course.bulkCreate(list)`: the rows inserted, in order, and the
store after them. -/
def Store.bulkCreateCourses (s : Store) (now : Nat) : List CourseValues → List Course × Store
  | [] => ([], s)
  | v :: vs =>
    let created := s.createCourse now v
    let rest := Store.bulkCreateCourses created.2 now vs
    (created.1 :: rest.1, rest.2)

/-- Body of `POST /courses` after validation. -/
structure CreateCourseRequest where
  errors : List FieldError
  title : String
  description : String
  photos : Option String
  mentor : String
  rolementor : String
  avatar : Option String
  company : String
  rating : Option Nat
  review_count : Option Int
  price : String
  category : Category

/-- Handler `createCourse`. -/
def createCourse (env : Env) (req : CreateCourseRequest) (s : Store) : Response × Store :=
  if !req.errors.isEmpty then (validationFailed req.errors, s)
  else
    let created := s.createCourse env.now
      { title := req.title, description := req.description, photos := orNull req.photos,
        mentor := req.mentor, rolementor := req.rolementor, avatar := orNull req.avatar,
        company := req.company, rating := req.rating.getD 0,
        review_count := req.review_count.getD 0, price := req.price, category := req.category }
    (success 201 "Course created successfully" (courseData created.1), created.2)

/-- Statement `course.destroy()` on the instance with primary key `id`. -/
def Store.destroyCourse (s : Store) (id : Nat) : Store :=
  { s with courses := s.courses.filter (fun c => c.id != id) }

/-- Handler `deleteCourse`; `id` is `req.params.id`. -/
def deleteCourse (errors : List FieldError) (id : Nat) (s : Store) : Response × Store :=
  if !errors.isEmpty then (validationFailed errors, s)
  else
    match s.findCourseByPk id with
    | none => (failure 404 "Course tidak ditemukan", s)
    | some course => (successMessage "Course deleted successfully", s.destroyCourse course.id)

/-- The three rows `resetToDefaultCourses` seeds. -/
def defaultCourses : List CourseValues :=
  [ { title := "Big 4 Auditor Financial Analyst"
      description := "Mulai transformasi dengan instruktur profesional, harga yang terjangkau, dan sistem pembelajaran yang mudah dipahami."
      photos := some "/images/cards/card1.png", mentor := "Jenna Ortega"
      rolementor := "Senior Accountant", avatar := some "/images/tutors/tutor-card1.png"
      company := "Gojek", rating := 45, review_count := 126, price := "300K"
      category := .bisnis },
    { title := "Digital Marketing Strategy"
      description := "Pelajari strategi pemasaran digital yang efektif untuk meningkatkan brand awareness dan konversi."
      photos := some "/images/cards/card2.png", mentor := "Sarah Johnson"
      rolementor := "Marketing Director", avatar := some "/images/tutors/tutor-card2.png"
      company := "Tokopedia", rating := 42, review_count := 98, price := "250K"
      category := .pemasaran },
    { title := "UI/UX Design Fundamentals"
      description := "Kuasai dasar-dasar desain UI/UX untuk menciptakan pengalaman pengguna yang luar biasa."
      photos := some "/images/cards/card3.png", mentor := "Michael Chen"
      rolementor := "Lead Designer", avatar := some "/images/tutors/tutor-card3.png"
      company := "Grab", rating := 47, review_count := 204, price := "400K"
      category := .desain } ]

/-- Handler `resetToDefaultCourses`: `TRUNCATE` empties the table and resets
its auto-increment counter, then the default rows are inserted. The handler
does not consult `validationResult`. -/
def resetToDefaultCourses (env : Env) (s : Store) : Response × Store :=
  let truncated : Store := { s with courses := [], nextCourseId := 1 }
  let created := truncated.bulkCreateCourses env.now defaultCourses
  ({ status := 200
     body := .obj [("success", .bool true),
                   ("message", .str "Courses reset to default successfully"),
                   ("data", .arr (created.1.map courseData)),
                   ("count", .num created.1.length)] },
   created.2)

/-- A course by mentor Zed, created first. -/
def zedCourse : Course :=
  { demoCourse with id := 1, title := "Audit", mentor := "Zed", price := "300K", created_at := 100 }

/-- A course by mentor Abe, created later. -/
def abeCourse : Course :=
  { demoCourse with id := 2, title := "Budget", mentor := "Abe", price := "250K", created_at := 150 }

/-- Two courses of category `Bisnis` and one of another category. -/
def businessStore : Store :=
  { users := [], nextUserId := 1,
    courses := [zedCourse, abeCourse,
                { demoCourse with id := 3, title := "Logo", category := .desain, created_at := 120 }],
    nextCourseId := 4 }

/-- Request `GET /courses?category=Bisnis&sortBy=mentor&sort=ASC&limit=2`. -/
def byMentorQuery : CoursesQuery :=
  { errors := [], category := some "Bisnis", limit := some "2", offset := none, search := none,
    sortBy := some "mentor", sort := some "ASC" }

/-- Request `GET /courses?category=Bisnis&sortBy=price&sort=ASC&limit=2`. -/
def byPriceQuery : CoursesQuery :=
  { errors := [], category := some "Bisnis", limit := some "2", offset := none, search := none,
    sortBy := some "price", sort := some "ASC" }

/-- The spellings of `ASC` in any letter case: the eight ASCII ones, and the
four with U+017F (long s), a lower-case form of `S`. -/
def ascSpellings : List String :=
  ["ASC", "ASc", "AsC", "Asc", "aSC", "aSc", "asC", "asc",
   String.mk ['A', Char.ofNat 0x17F, 'C'], String.mk ['A', Char.ofNat 0x17F, 'c'],
   String.mk ['a', Char.ofNat 0x17F, 'C'], String.mk ['a', Char.ofNat 0x17F, 'c']]

/-! ## The handlers as a whole -/

/-- A request for one of the seventeen handlers of the three controllers, with
what the handler destructures from it. -/
inductive Call where
  | login (req : LoginRequest)
  | register (req : RegisterRequest)
  | verifyToken (authorization : Option String)
  | verifyEmail (token : Option String)
  | getAllUsers (q : UsersQuery)
  | getUserById (id : Nat)
  | createUser (req : CreateUserRequest)
  | updateUser (req : UpdateUserRequest)
  | deleteUser (id : Nat)
  | resetPassword (id : Nat) (newPassword : String)
  | getAllCourses (q : CoursesQuery)
  | getCourseById (id : Nat)
  | getCoursesByCategory (category : String)
  | createCourse (req : CreateCourseRequest)
  | updateCourse (req : UpdateCourseRequest)
  | deleteCourse (id : Nat)
  | resetToDefaultCourses

/-- The handler run on a request to which the validation middleware attached
`errors`: a handler that calls `validationResult(req)` receives them, a handler
that does not call it never sees them. -/
def handle (env : Env) (errors : List FieldError) (call : Call) (s : Store) : Response × Store :=
  match call with
  | .login req => (login env { req with errors := errors } s, s)
  | .register req => register env { req with errors := errors } s
  | .verifyToken authorization => (verifyToken env authorization s, s)
  | .verifyEmail token => verifyEmail env token s
  | .getAllUsers q => (getAllUsers env q s, s)
  | .getUserById id => (getUserById errors id s, s)
  | .createUser req => createUser env { req with errors := errors } s
  | .updateUser req => updateUser env { req with errors := errors } s
  | .deleteUser id => deleteUser errors id s
  | .resetPassword id newPassword => resetPassword env errors id newPassword s
  | .getAllCourses q => (getAllCourses env { q with errors := errors } s, s)
  | .getCourseById id => (getCourseById errors id s, s)
  | .getCoursesByCategory category => (getCoursesByCategory errors category s, s)
  | .createCourse req => createCourse env { req with errors := errors } s
  | .updateCourse req => updateCourse env { req with errors := errors } s
  | .deleteCourse id => deleteCourse errors id s
  | .resetToDefaultCourses => resetToDefaultCourses env s

/-- Does the handler of this request call `validationResult(req)`? -/
def Call.consultsValidation : Call → Bool
  | .verifyToken _ => false
  | .verifyEmail _ => false
  | .getAllUsers _ => false
  | .resetToDefaultCourses => false
  | _ => true

/-- A failure reported by the validation layer. -/
def demoFailure : FieldError :=
  { kind := "field", value := "x", msg := "Invalid value", path := "role", location := "query" }

/-! ## Error handling -/

/-- A JavaScript error object as a `catch` clause or an error callback
receives it. -/
structure JsError where
  name : String
  message : String
  stack : String
  deriving DecidableEq, Repr

/-- The handlers of the three controllers. -/
inductive Handler where
  | login | register | verifyToken | verifyEmail
  | getAllUsers | getUserById | createUser | updateUser | deleteUser | resetPassword
  | getAllCourses | getCourseById | getCoursesByCategory | createCourse | updateCourse
  | deleteCourse | resetToDefaultCourses
  deriving DecidableEq, Repr

/-- The second argument of a `console.error(label, x)` call: `error.message`
or the error object itself. -/
inductive Logged where
  | message (text : String)
  | error (e : JsError)
  deriving DecidableEq, Repr

/-- The `catch (error)` clause of each handler: the arguments of its
`console.error` call and the response it sends. -/
def catchClause : Handler → JsError → (String × Logged) × Response
  | .login, error =>
    (("Login error:", .message error.message), failure 500 "Terjadi kesalahan saat login")
  | .register, error =>
    (("Register error:", .message error.message),
      failure 500 "Terjadi kesalahan saat mendaftar. Silakan coba lagi.")
  | .verifyToken, error =>
    (("Token verification error:", .message error.message), failure 401 "Token tidak valid")
  | .verifyEmail, error =>
    (("Email verification error:", .message error.message), failure 500 "Verification failed")
  | .getAllUsers, error =>
    (("Get all users error:", .error error),
      failure 500 "Terjadi kesalahan saat mengambil data users")
  | .getUserById, error =>
    (("Get user by ID error:", .error error),
      failure 500 "Terjadi kesalahan saat mengambil data user")
  | .createUser, error =>
    (("Create user error:", .error error), failure 500 "Terjadi kesalahan saat membuat user")
  | .updateUser, error =>
    (("Update user error:", .error error), failure 500 "Terjadi kesalahan saat mengupdate user")
  | .deleteUser, error =>
    (("Delete user error:", .error error), failure 500 "Terjadi kesalahan saat menghapus user")
  | .resetPassword, error =>
    (("Reset password error:", .error error),
      failure 500 "Terjadi kesalahan saat mereset password")
  | .getAllCourses, error =>
    (("Get all courses error:", .error error),
      failure 500 "Terjadi kesalahan saat mengambil data courses")
  | .getCourseById, error =>
    (("Get course by ID error:", .error error),
      failure 500 "Terjadi kesalahan saat mengambil data course")
  | .getCoursesByCategory, error =>
    (("Get courses by category error:", .error error),
      failure 500 "Terjadi kesalahan saat mengambil data courses")
  | .createCourse, error =>
    (("Create course error:", .error error), failure 500 "Terjadi kesalahan saat membuat course")
  | .updateCourse, error =>
    (("Update course error:", .error error),
      failure 500 "Terjadi kesalahan saat mengupdate course")
  | .deleteCourse, error =>
    (("Delete course error:", .error error),
      failure 500 "Terjadi kesalahan saat menghapus course")
  | .resetToDefaultCourses, error =>
    (("Reset courses error:", .error error), failure 500 "Terjadi kesalahan saat mereset courses")

/-- The `req.file` that the upload middleware stored. -/
structure UploadedFile where
  filename : String
  path : String
  deriving DecidableEq, Repr

/-- The error that `upload.single('file')` hands to its callback, with the
outcome of `err instanceof multer.MulterError`. -/
structure UploadError where
  isMulterError : Bool
  error : JsError
  deriving DecidableEq, Repr

/-- Route `POST /upload`: the callback given to `upload.single('file')`; `err`
is its argument (absent when the middleware succeeded), `file` is `req.file`. -/
def uploadRoute (err : Option UploadError) (file : Option UploadedFile) : Response :=
  match err with
  | some e =>
    if e.isMulterError then
      { status := 400, body := .obj [("success", .bool false), ("message", .str e.error.message)] }
    else
      { status := 400, body := .obj [("success", .bool false), ("message", .str e.error.message)] }
  | none =>
    match file with
    | none => failure 400 "No file uploaded"
    | some f =>
      success 200 "File uploaded successfully"
        (.obj [("filename", .str f.filename), ("path", .str f.path)])

/-- The error of the upload middleware for a file in an unexpected form field. -/
def unexpectedField : UploadError :=
  { isMulterError := true
    error := { name := "MulterError", message := "Unexpected field",
               stack := "MulterError: Unexpected field" } }

/-- The error of the upload middleware when the disk of the server is full. -/
def diskFull : UploadError :=
  { isMulterError := false
    error := { name := "Error",
               message := "ENOSPC: no space left on device, open /srv/app/uploads/1700000000000.png",
               stack := "Error: ENOSPC: no space left on device" } }

/-- The error of a database connection that was refused. -/
def connectionRefused : JsError :=
  { name := "SequelizeConnectionRefusedError", message := "connect ECONNREFUSED 127.0.0.1:3306",
    stack := "SequelizeConnectionRefusedError: connect ECONNREFUSED 127.0.0.1:3306" }

/-- The error of a statement that timed out. -/
def queryTimeout : JsError :=
  { name := "SequelizeTimeoutError", message := "Query inactivity timeout",
    stack := "SequelizeTimeoutError: Query inactivity timeout" }

/-- Jane's row with the `role` column holding NULL. -/
def janeNoRole : User := { janeRow with role := none }

/-- The `user` member of the `data` of a login response, when there is one. -/
def Response.user? (r : Response) : Option Json :=
  (r.body.get? "data").bind (Json.get? "user")

/-- The `Authorization` header that carries a token. -/
def bearerHeader (token : String) : Option String := some ("Bearer " ++ token)

/-! ## Theorems -/

/-! ### Helper lemmas -/

theorem succeeded_failure (status : Nat) (message : String) :
    (failure status message).succeeded = false := by
  simp [failure, Response.succeeded, Json.get?]

theorem succeeded_loginSuccess (user : Json) (token : String) :
    (loginSuccess user token).succeeded = true := by
  simp [loginSuccess, Response.succeeded, Json.get?]

theorem succeeded_validationFailed (errors : List FieldError) :
    (validationFailed errors).succeeded = false := by
  simp [validationFailed, Response.succeeded, Json.get?]

/-- A stored value that looks like a hash is neither of the hardcoded passwords. -/
theorem not_builtin_of_hashed (email password : String)
    (h : jsStartsWith password "$2" = true) : isBuiltinAccount email password = false := by
  have h1 : password ≠ "admin123" := by
    intro e
    subst e
    revert h
    decide
  have h2 : password ≠ "123456" := by
    intro e
    subst e
    revert h
    decide
  simp [isBuiltinAccount, h1, h2]

/-- Past validation and the hardcoded accounts, `login` is decided by the
database row and `isPasswordValid`. -/
theorem login_database (env : Env) (req : LoginRequest) (s : Store)
    (hvalid : req.errors = [])
    (hnb : isBuiltinAccount req.email req.password = false) :
    login env req s =
      match s.findUserByEmail req.email with
      | none => failure 401 "Email atau password salah"
      | some user =>
        if !isPasswordValid env req.password user then failure 401 "Email atau password salah"
        else
          loginSuccess
            (.obj [("id", .num user.id), ("fullname", .str user.name),
                   ("username", .str user.username), ("email", .str user.email),
                   ("role", .str (match user.role with
                                  | some r => r.toString
                                  | none => "user")),
                   ("avatar", Json.ofOptStr user.avatar)])
            (generateToken env (.num user.id) user.email (Json.ofOptRole user.role)) := by
  simp only [isBuiltinAccount, Bool.or_eq_false_iff] at hnb
  obtain ⟨h1, h2⟩ := hnb
  unfold login
  simp only [hvalid, h1, h2, List.isEmpty_nil, Bool.not_true, Bool.false_eq_true, if_false]

/-! ### C1 -/

/-- C1 as stated fails: a validated request carrying the hardcoded
administrator credentials succeeds although the user stored under that email
has a hashed password that the supplied plaintext does not match. -/
theorem C1_counterexample :
    adminRequest.errors = [] ∧
    (demoStore [otherAdminRow]).findUserByEmail adminRequest.email = some otherAdminRow ∧
    jsStartsWith otherAdminRow.password "$2" = true ∧
    (login demoEnv adminRequest (demoStore [otherAdminRow])).succeeded = true ∧
    demoEnv.bcryptCompare adminRequest.password otherAdminRow.password = false := by
  decide

/-- C1 (amended): for a validated login request that is not one of the
hardcoded accounts, against a user whose stored password begins with `$2`,
login succeeds exactly when `bcrypt.compare` accepts the supplied plaintext,
and answers 401 otherwise; and for any validated request against such a user,
supplying the stored hash itself as the password is decided by `bcrypt.compare`
too, never by string equality. -/
theorem C1_login_hashed_iff_compare (env : Env) (req : LoginRequest) (s : Store) (u : User)
    (hvalid : req.errors = [])
    (hnb : isBuiltinAccount req.email req.password = false)
    (hfind : s.findUserByEmail req.email = some u)
    (hhash : jsStartsWith u.password "$2" = true) :
    ((login env req s).succeeded = true ↔ env.bcryptCompare req.password u.password = true) ∧
    (env.bcryptCompare req.password u.password = false → (login env req s).status = 401) ∧
    ((login env { req with password := u.password } s).succeeded
      = env.bcryptCompare u.password u.password) := by
  have key : ∀ r : LoginRequest, r.errors = [] → r.email = req.email →
      isBuiltinAccount r.email r.password = false →
      login env r s = if env.bcryptCompare r.password u.password then
        loginSuccess
            (.obj [("id", .num u.id), ("fullname", .str u.name),
                   ("username", .str u.username), ("email", .str u.email),
                   ("role", .str (match u.role with
                                  | some r => r.toString
                                  | none => "user")),
                   ("avatar", Json.ofOptStr u.avatar)])
            (generateToken env (.num u.id) u.email (Json.ofOptRole u.role))
        else failure 401 "Email atau password salah" := by
    intro r hr he hb
    rw [login_database env r s hr hb, he, hfind]
    simp only [isPasswordValid, hhash, if_true]
    cases env.bcryptCompare r.password u.password <;> simp
  refine ⟨?_, ?_, ?_⟩
  · rw [key req hvalid rfl hnb]
    cases h : env.bcryptCompare req.password u.password <;>
      simp [succeeded_failure, succeeded_loginSuccess]
  · intro h
    rw [key req hvalid rfl hnb, h]
    simp [failure]
  · rw [key { req with password := u.password } hvalid rfl
      (not_builtin_of_hashed _ _ hhash)]
    cases h : env.bcryptCompare u.password u.password <;>
      simp [succeeded_failure, succeeded_loginSuccess]

/-- Witness for C1: a registered-style user with a hashed password. -/
theorem C1_login_hashed_iff_compare_witness :
    janeLogin.errors = [] ∧
    isBuiltinAccount janeLogin.email janeLogin.password = false ∧
    (demoStore [janeRow]).findUserByEmail janeLogin.email = some janeRow ∧
    jsStartsWith janeRow.password "$2" = true ∧
    ((login demoEnv janeLogin (demoStore [janeRow])).succeeded = true ↔
      demoEnv.bcryptCompare janeLogin.password janeRow.password = true) ∧
    (demoEnv.bcryptCompare janeLogin.password janeRow.password = false →
      (login demoEnv janeLogin (demoStore [janeRow])).status = 401) ∧
    ((login demoEnv { janeLogin with password := janeRow.password } (demoStore [janeRow])).succeeded
      = demoEnv.bcryptCompare janeRow.password janeRow.password) :=
  ⟨by decide, by decide, by decide, by decide,
    C1_login_hashed_iff_compare demoEnv janeLogin (demoStore [janeRow]) janeRow
      (by decide) (by decide) (by decide) (by decide)⟩

/-! ### C2 -/

/-- The row `register` inserts for a request, as `User.create` completes it. -/
theorem register_fresh (env : Env) (req : RegisterRequest) (s : Store)
    (hvalid : req.errors = [])
    (hemail : ∀ u ∈ s.users, u.email ≠ req.email)
    (husername : ∀ u ∈ s.users, u.username ≠ req.username) :
    ∃ row : User,
      row.id = s.nextUserId ∧ row.name = req.fullname ∧ row.username = req.username ∧
      row.email = req.email ∧
      row.password = env.bcryptHash req.password (saltRounds env) ∧
      row.role = some .student ∧ row.verification_token = some env.uuidv4 ∧
      register env req s =
        (success 201 "Pendaftaran berhasil, silakan verifikasi email Anda" (authUserData row),
         { s with users := s.users ++ [row], nextUserId := s.nextUserId + 1 }) := by
  have hfind : s.findUserByEmailOrUsername req.email req.username = none := by
    simp only [Store.findUserByEmailOrUsername, List.find?_eq_none]
    intro u hu
    simp [hemail u hu, husername u hu]
  have h1 : s.users.any (fun u => u.username == req.username) = false := by
    simp only [List.any_eq_false]
    intro u hu
    simp [husername u hu]
  have h2 : s.users.any (fun u => u.email == req.email) = false := by
    simp only [List.any_eq_false]
    intro u hu
    simp [hemail u hu]
  refine ⟨{ id := s.nextUserId, name := req.fullname, username := req.username,
             email := req.email, password := env.bcryptHash req.password (saltRounds env),
             phone := none, gender := none, role := some .student,
             avatar := some ("https://cdn.jsdelivr.net/gh/faker-js/assets-person-portrait/male/512/"
               ++ toString (env.random100 + 1) ++ ".jpg"),
             verification_token := some env.uuidv4, created_at := env.now,
             updated_at := env.now }, rfl, rfl, rfl, rfl, rfl, rfl, rfl, ?_⟩
  unfold register
  simp only [hvalid, hfind, Store.createUser, h1, h2, List.isEmpty_nil, Bool.not_true,
    Bool.false_eq_true, if_false]
  split <;> rfl

/-- C2: a validated register request whose email and username are both absent
from the store is answered 201 and appends exactly one user to the store; that
user has role `student`, a non-null verification token, and as password the
bcrypt hash of the supplied password, which is not the plaintext (a bcrypt
hash never equals the text it was made from). -/
theorem C2_register_new_user (env : Env) (req : RegisterRequest) (s : Store)
    (hvalid : req.errors = [])
    (hemail : ∀ u ∈ s.users, u.email ≠ req.email)
    (husername : ∀ u ∈ s.users, u.username ≠ req.username)
    (hhash : env.bcryptHash req.password (saltRounds env) ≠ req.password) :
    (register env req s).1.status = 201 ∧
    ∃ newUser : User,
      (register env req s).2.users = s.users ++ [newUser] ∧
      newUser.email = req.email ∧ newUser.username = req.username ∧
      newUser.role = some .student ∧
      newUser.verification_token ≠ none ∧
      newUser.password = env.bcryptHash req.password (saltRounds env) ∧
      newUser.password ≠ req.password := by
  obtain ⟨row, -, -, hu, he, hp, hr, ht, hreg⟩ := register_fresh env req s hvalid hemail husername
  rw [hreg]
  refine ⟨rfl, row, rfl, he, hu, hr, ?_, hp, ?_⟩
  · rw [ht]
    exact Option.some_ne_none _
  · rw [hp]
    exact hhash

/-- Jane's registration, as in the scenario of the specification. -/
def janeRegistration : RegisterRequest :=
  { errors := [], fullname := "Jane Doe", username := "janed", email := "jane@x.com",
    password := "secret1" }

/-- Witness for C2: Jane registers into a store that holds another user. -/
theorem C2_register_new_user_witness :
    janeRegistration.errors = [] ∧
    (∀ u ∈ (demoStore [otherAdminRow]).users, u.email ≠ janeRegistration.email) ∧
    (∀ u ∈ (demoStore [otherAdminRow]).users, u.username ≠ janeRegistration.username) ∧
    demoEnv.bcryptHash janeRegistration.password (saltRounds demoEnv)
      ≠ janeRegistration.password ∧
    ((register demoEnv janeRegistration (demoStore [otherAdminRow])).1.status = 201 ∧
     ∃ newUser : User,
      (register demoEnv janeRegistration (demoStore [otherAdminRow])).2.users
        = (demoStore [otherAdminRow]).users ++ [newUser] ∧
      newUser.email = janeRegistration.email ∧ newUser.username = janeRegistration.username ∧
      newUser.role = some .student ∧
      newUser.verification_token ≠ none ∧
      newUser.password
        = demoEnv.bcryptHash janeRegistration.password (saltRounds demoEnv) ∧
      newUser.password ≠ janeRegistration.password) :=
  ⟨by decide, by decide, by decide, by decide,
    C2_register_new_user demoEnv janeRegistration (demoStore [otherAdminRow])
      (by decide) (by decide) (by decide) (by decide)⟩

/-! ### C3 -/

/-- A request carrying hardcoded credentials is answered with a success that
carries a token, whatever the store holds. -/
theorem login_builtin (env : Env) (req : LoginRequest) (s : Store)
    (hvalid : req.errors = [])
    (hb : isBuiltinAccount req.email req.password = true) :
    ∃ user token, login env req s = loginSuccess user token := by
  unfold login
  simp only [hvalid, List.isEmpty_nil, Bool.not_true, Bool.false_eq_true, if_false]
  by_cases h1 : (req.email == "admin@videobelajar.com" && req.password == "admin123") = true
  · simp only [h1, if_true]
    exact ⟨_, _, rfl⟩
  · have h2 : (req.email == "user@example.com" && req.password == "123456") = true := by
      simp only [isBuiltinAccount, Bool.or_eq_true] at hb
      rcases hb with hb | hb
      · exact absurd hb h1
      · exact hb
    simp only [h1, h2, if_true, if_false]
    exact ⟨_, _, rfl⟩

/-- The outcome of `login` does not read `verification_token`. -/
theorem login_setTokens (env : Env) (req : LoginRequest) (s : Store)
    (f : User → Option String) : login env req (s.setTokens f) = login env req s := by
  have hfind : (s.setTokens f).findUserByEmail req.email
      = (s.findUserByEmail req.email).map (fun u => { u with verification_token := f u }) := by
    simp only [Store.findUserByEmail, Store.setTokens, List.find?_map]
    rfl
  unfold login
  rw [hfind]
  cases s.findUserByEmail req.email <;> rfl

/-- C3: after a validated register request with an email and username not
yet in the store, the new user still holds the verification token it was
given, and a login with the same email and password succeeds (200) and returns
the token that `jwt.sign` makes, with the configured secret and expiry, for the
id, email and role of the new user (for the credentials of a hardcoded
account: for the id and role of that account); the response of login is the
same in every verification state of the users. The two hypotheses on the
hasher are the laws of bcrypt: a hash starts with `$2`, and a plaintext
matches its own hash. -/
theorem C3_login_before_verification (env : Env) (req : RegisterRequest) (s : Store)
    (hvalid : req.errors = [])
    (hemail : ∀ u ∈ s.users, u.email ≠ req.email)
    (husername : ∀ u ∈ s.users, u.username ≠ req.username)
    (hlooks : jsStartsWith (env.bcryptHash req.password (saltRounds env)) "$2" = true)
    (hmatch : env.bcryptCompare req.password
      (env.bcryptHash req.password (saltRounds env)) = true) :
    (∃ u, (register env req s).2.findUserByEmail req.email = some u ∧
      u.id = s.nextUserId ∧ u.role = some .student ∧
      u.verification_token = some env.uuidv4) ∧
    (login env ⟨[], req.email, req.password⟩ (register env req s).2).status = 200 ∧
    (login env ⟨[], req.email, req.password⟩ (register env req s).2).succeeded = true ∧
    (login env ⟨[], req.email, req.password⟩ (register env req s).2).token?
      = some (.str
          (if req.email = "admin@videobelajar.com" ∧ req.password = "admin123" then
            env.jwtSign (.obj [("userId", .str "admin"), ("email", .str req.email),
                               ("role", .str "admin")])
              env.JWT_SECRET (orDefault env.JWT_EXPIRES_IN "7d")
          else if req.email = "user@example.com" ∧ req.password = "123456" then
            env.jwtSign (.obj [("userId", .str "demo"), ("email", .str req.email),
                               ("role", .str "user")])
              env.JWT_SECRET (orDefault env.JWT_EXPIRES_IN "7d")
          else
            env.jwtSign (.obj [("userId", .num s.nextUserId), ("email", .str req.email),
                               ("role", .str "student")])
              env.JWT_SECRET (orDefault env.JWT_EXPIRES_IN "7d"))) ∧
    (isBuiltinAccount req.email req.password = false →
      (login env ⟨[], req.email, req.password⟩ (register env req s).2).user?.bind
          (Json.get? "id") = some (.num s.nextUserId) ∧
      (login env ⟨[], req.email, req.password⟩ (register env req s).2).user?.bind
          (Json.get? "fullname") = some (.str req.fullname) ∧
      (login env ⟨[], req.email, req.password⟩ (register env req s).2).user?.bind
          (Json.get? "username") = some (.str req.username) ∧
      (login env ⟨[], req.email, req.password⟩ (register env req s).2).user?.bind
          (Json.get? "email") = some (.str req.email) ∧
      (login env ⟨[], req.email, req.password⟩ (register env req s).2).user?.bind
          (Json.get? "role") = some (.str "student")) ∧
    (∀ (lreq : LoginRequest) (st : Store) (f : User → Option String),
      login env lreq (st.setTokens f) = login env lreq st) := by
  obtain ⟨row, hi, hn, hun, he, hp, hr, ht, hreg⟩ :=
    register_fresh env req s hvalid hemail husername
  rw [hreg]
  have hfind : Store.findUserByEmail
      { s with users := s.users ++ [row], nextUserId := s.nextUserId + 1 } req.email
      = some row := by
    have hnone : s.users.find? (fun u => u.email == req.email) = none := by
      simp only [List.find?_eq_none]
      intro u hu
      simp [hemail u hu]
    simp [Store.findUserByEmail, List.find?_append, hnone, he]
  have hpw : isPasswordValid env req.password row = true := by
    simp only [isPasswordValid, hp, hlooks, hmatch, if_true]
  refine ⟨⟨row, hfind, hi, hr, ht⟩, ?_, ?_, ?_, ?_, fun lreq st f => login_setTokens env lreq st f⟩
  · unfold login
    simp only [hfind, hpw, List.isEmpty_nil, Bool.not_true, Bool.false_eq_true, if_false]
    split_ifs <;> rfl
  · unfold login
    simp only [hfind, hpw, List.isEmpty_nil, Bool.not_true, Bool.false_eq_true, if_false]
    split_ifs <;> exact succeeded_loginSuccess _ _
  · unfold login
    simp only [hfind, hpw, List.isEmpty_nil, Bool.not_true, Bool.false_eq_true, if_false]
    by_cases h1 : req.email = "admin@videobelajar.com" ∧ req.password = "admin123"
    · simp [h1, loginSuccess, Response.token?, Json.get?, generateToken]
    · by_cases h2 : req.email = "user@example.com" ∧ req.password = "123456"
      · simp [h1, h2, loginSuccess, Response.token?, Json.get?, generateToken]
      · simp [h1, h2, loginSuccess, Response.token?, Json.get?, generateToken, hi, he, hr,
          Json.ofOptRole, Json.ofOptStr, Role.toString]
  · intro hnb
    rw [login_database env _ _ rfl hnb]
    simp only [hfind, hpw, Bool.not_true, Bool.false_eq_true, if_false]
    simp [loginSuccess, Response.user?, Json.get?, hi, hn, hun, he, hr, Role.toString]

/-- Witness for C3: Jane registers and logs in before verifying her email; the
token she is given is the one signed for her new id, her email and the role
`student`. -/
theorem C3_login_before_verification_witness :
    janeRegistration.errors = [] ∧
    (∀ u ∈ (demoStore [otherAdminRow]).users, u.email ≠ janeRegistration.email) ∧
    (∀ u ∈ (demoStore [otherAdminRow]).users, u.username ≠ janeRegistration.username) ∧
    jsStartsWith (tokenEnv.bcryptHash janeRegistration.password (saltRounds tokenEnv)) "$2"
      = true ∧
    tokenEnv.bcryptCompare janeRegistration.password
      (tokenEnv.bcryptHash janeRegistration.password (saltRounds tokenEnv)) = true ∧
    (login tokenEnv ⟨[], janeRegistration.email, janeRegistration.password⟩
      (register tokenEnv janeRegistration (demoStore [otherAdminRow])).2).succeeded = true ∧
    (login tokenEnv ⟨[], janeRegistration.email, janeRegistration.password⟩
      (register tokenEnv janeRegistration (demoStore [otherAdminRow])).2).token?
      = some (.str "jwt|n2|jane@x.com|student") :=
  ⟨by decide, by decide, by decide, by decide, by decide,
    (C3_login_before_verification tokenEnv janeRegistration (demoStore [otherAdminRow])
      (by decide) (by decide) (by decide) (by decide) (by decide)).2.2.1,
    (C3_login_before_verification tokenEnv janeRegistration (demoStore [otherAdminRow])
      (by decide) (by decide) (by decide) (by decide) (by decide)).2.2.2.1.trans rfl⟩

/-! ### C4 -/

/-- The escapes of a string without a percent sign are its characters. -/
theorem percentItems_of_no_percent (l : List Char) (h : '%' ∉ l) :
    percentItems l = some (l.map UriItem.lit) := by
  induction l with
  | nil => rfl
  | cons c cs ih =>
    have hc : c ≠ '%' := fun e => h (by simp [e])
    have hcs : '%' ∉ cs := fun e => h (by simp [e])
    unfold percentItems
    simp only [hc, if_false, ih hcs]
    rfl

theorem utf8Items_lit (l : List Char) : utf8Items (l.map UriItem.lit) = some l := by
  induction l with
  | nil => rfl
  | cons c cs ih =>
    show (utf8Items (List.map UriItem.lit cs)).map (fun cs => c :: cs) = some (c :: cs)
    rw [ih]
    rfl

/-- A string without a percent sign, such as a uuid, is left as it is by
`decodeURIComponent`. -/
theorem decodeURIComponent_of_no_percent (t : String) (h : '%' ∉ t.data) :
    decodeURIComponent t = some t := by
  unfold decodeURIComponent
  rw [percentItems_of_no_percent t.data h]
  simp only [Option.bind, utf8Items_lit, Option.map]

/-- C4 as stated fails: nothing keeps two users from holding the same
verification token; the first call clears it for the first of them, and the
second call with the identical token succeeds again, for the other. (And a
stored token that `decodeURIComponent` rejects, such as `100%`, is answered
500 on the first call already.) -/
theorem C4_counterexample :
    (∃ u ∈ sharedTokenStore.users, u.verification_token = some "tok") ∧
    (verifyEmail demoEnv (some "tok") sharedTokenStore).1.status = 200 ∧
    (verifyEmail demoEnv (some "tok")
      (verifyEmail demoEnv (some "tok") sharedTokenStore).2).1.status = 200 ∧
    (∃ u ∈ percentTokenStore.users, u.verification_token = some "100%") ∧
    (verifyEmail demoEnv (some "100%") percentTokenStore).1.status = 500 := by
  decide

/-- C4 (amended): for every store and every non-empty token `t` that
`decodeURIComponent` leaves as it is (such as a uuid) and that is the stored
verification token of one user only, `verifyEmail` with `t` succeeds and sets
that user's token to null: the store it leaves is the old one with the token
of that user's row set to null and its `updated_at` stamped, every other row
as it was, so the user is still stored, without a token. An immediately
following `verifyEmail` with the identical `t` fails with 400 and changes
nothing. -/
theorem C4_verifyEmail_single_use (env : Env) (s : Store) (t : String) (u : User)
    (hdecode : decodeURIComponent t = some t)
    (hne : t ≠ "")
    (hu : u ∈ s.users)
    (htoken : u.verification_token = some t)
    (hsingle : ∀ v ∈ s.users, v.verification_token = some t → v.id = u.id) :
    (verifyEmail env (some t) s).1.status = 200 ∧
    (verifyEmail env (some t) s).1.succeeded = true ∧
    (verifyEmail env (some t) s).2
      = { s with users := s.users.map (fun v =>
            if v.id = u.id then { v with verification_token := none, updated_at := env.now }
            else v) } ∧
    ({ u with verification_token := none, updated_at := env.now } : User)
      ∈ (verifyEmail env (some t) s).2.users ∧
    (∀ v ∈ (verifyEmail env (some t) s).2.users, v.id = u.id → v.verification_token = none) ∧
    (∀ v ∈ s.users, v.id ≠ u.id → v ∈ (verifyEmail env (some t) s).2.users) ∧
    (verifyEmail env (some t) (verifyEmail env (some t) s).2).1.status = 400 ∧
    (verifyEmail env (some t) (verifyEmail env (some t) s).2).2
      = (verifyEmail env (some t) s).2 := by
  have hor : orDefault (some t) "" = t := by simp [orDefault, hne]
  have hte : (t == "") = false := by simp [hne]
  -- the holder found by the first call
  obtain ⟨u0, hf0⟩ : ∃ u0, s.users.find? (fun v => v.verification_token == some t) = some u0 := by
    cases hf : s.users.find? (fun v => v.verification_token == some t) with
    | some u0 => exact ⟨u0, rfl⟩
    | none =>
      rw [List.find?_eq_none] at hf
      exact absurd (by simp [htoken]) (hf u hu)
  have hu0tok : u0.verification_token = some t := by
    have := List.find?_some hf0
    simpa using this
  have hu0id : u0.id = u.id := hsingle u0 (List.mem_of_find?_eq_some hf0) hu0tok
  have hchanged : ({ u0 with verification_token := none } : User) ≠ u0 := by
    intro h
    have := congrArg User.verification_token h
    simp [hu0tok] at this
  -- the store after the first call
  have hfirst : verifyEmail env (some t) s =
      (successMessage "Email Verified Successfully",
       { s with users := s.users.map (fun v =>
          if v.id = u0.id then { v with verification_token := none, updated_at := env.now }
          else v) }) := by
    unfold verifyEmail
    simp only [hor, hdecode, hte, hf0, Bool.false_eq_true, if_false, Store.updateUser,
      hchanged, bne_self_eq_false, Bool.false_and]
  -- nobody holds the token any more
  have hgone : ∀ v ∈ s.users.map (fun v =>
      if v.id = u0.id then { v with verification_token := none, updated_at := env.now }
      else v), v.verification_token ≠ some t := by
    intro v hv
    rw [List.mem_map] at hv
    obtain ⟨w, hw, rfl⟩ := hv
    by_cases hid : w.id = u0.id
    · simp [hid]
    · simp only [hid, if_false]
      intro hwt
      exact hid ((hsingle w hw hwt).trans hu0id.symm)
  have hsecond : verifyEmail env (some t)
      { s with users := s.users.map (fun v =>
          if v.id = u0.id then { v with verification_token := none, updated_at := env.now }
          else v) } =
      (failure 400 "Invalid Verification Token",
       { s with users := s.users.map (fun v =>
          if v.id = u0.id then { v with verification_token := none, updated_at := env.now }
          else v) }) := by
    have hnone : (s.users.map (fun v =>
        if v.id = u0.id then { v with verification_token := none, updated_at := env.now }
        else v)).find? (fun v => v.verification_token == some t) = none := by
      rw [List.find?_eq_none]
      intro v hv
      simpa using hgone v hv
    unfold verifyEmail
    simp only [hor, hdecode, hte, hnone, Bool.false_eq_true, if_false]
  rw [hfirst]
  refine ⟨rfl, ?_, ?_, ?_, ?_, ?_, ?_, ?_⟩
  · simp [successMessage, Response.succeeded, Json.get?]
  · simp only [hu0id]
  · simp only [List.mem_map]
    exact ⟨u, hu, by simp [hu0id]⟩
  · intro v hv hid
    simp only [List.mem_map] at hv
    obtain ⟨w, -, rfl⟩ := hv
    by_cases hw : w.id = u0.id
    · simp [hw]
    · simp only [hw, if_false] at hid
      exact absurd (hid.trans hu0id.symm) hw
  · intro v hv hid
    simp only [List.mem_map]
    exact ⟨v, hv, by simp [hu0id, hid]⟩
  · simp only [hsecond]
    rfl
  · simp only [hsecond]

/-- Witness for C4: Jane verifies her email with her token, twice; after the
first call her row is still stored, without a token. -/
theorem C4_verifyEmail_single_use_witness :
    decodeURIComponent "tok" = some "tok" ∧ "tok" ≠ "" ∧
    demoUser 1 "janed" "jane@x.com" "$2b$12$secret1" .student (some "tok")
      ∈ unverifiedStore.users ∧
    (∀ v ∈ unverifiedStore.users, v.verification_token = some "tok" → v.id = 1) ∧
    (verifyEmail demoEnv (some "tok") unverifiedStore).1.status = 200 ∧
    ({ demoUser 1 "janed" "jane@x.com" "$2b$12$secret1" .student none with updated_at := 200 }
      : User) ∈ (verifyEmail demoEnv (some "tok") unverifiedStore).2.users ∧
    (verifyEmail demoEnv (some "tok")
      (verifyEmail demoEnv (some "tok") unverifiedStore).2).1.status = 400 :=
  have h := C4_verifyEmail_single_use demoEnv unverifiedStore "tok"
    (demoUser 1 "janed" "jane@x.com" "$2b$12$secret1" .student (some "tok"))
    (by decide) (by decide) (by decide) (by decide) (by decide)
  ⟨by decide, by decide, by decide, by decide, h.1, h.2.2.2.1, h.2.2.2.2.2.2.1⟩

/-! ### C5 -/

/-- After `destroy`, the primary key finds nothing. -/
theorem findUserByPk_destroyUser (s : Store) (id : Nat) :
    (s.destroyUser id).findUserByPk id = none := by
  simp only [Store.findUserByPk, Store.destroyUser, List.find?_eq_none, List.mem_filter]
  rintro u ⟨-, hu⟩
  simpa using hu

/-- The row found by primary key carries that key. -/
theorem id_of_findUserByPk {s : Store} {id : Nat} {u : User}
    (h : s.findUserByPk id = some u) : u.id = id := by
  have := List.find?_some h
  simpa using this

/-- C5: a validated `deleteUser` on an existing user whose role is `admin` is
answered 403 and leaves the store as it was; on an existing user of any other
role it succeeds and removes the rows with that id, all others staying, so that
a following validated `getUserById` for the same id is answered 404. -/
theorem C5_deleteUser (errors : List FieldError) (id : Nat) (s : Store) (u : User)
    (hvalid : errors = [])
    (hfind : s.findUserByPk id = some u) :
    (u.role = some .admin →
      (deleteUser errors id s).1.status = 403 ∧ (deleteUser errors id s).2 = s) ∧
    (u.role ≠ some .admin →
      (deleteUser errors id s).1.status = 200 ∧
      (deleteUser errors id s).1.succeeded = true ∧
      (deleteUser errors id s).2.users = s.users.filter (fun v => v.id != id) ∧
      (getUserById [] id (deleteUser errors id s).2).status = 404) := by
  have hid : u.id = id := id_of_findUserByPk hfind
  constructor
  · intro hrole
    simp [deleteUser, hvalid, hfind, hrole, failure]
  · intro hrole
    have hdel : deleteUser errors id s
        = (successMessage "User deleted successfully", s.destroyUser id) := by
      simp [deleteUser, hvalid, hfind, hrole, hid]
    rw [hdel]
    refine ⟨rfl, ?_, rfl, ?_⟩
    · simp [successMessage, Response.succeeded, Json.get?]
    · simp [getUserById, findUserByPk_destroyUser, failure]

/-- Witness for C5: on `adminAndJane`, deleting the administrator is refused
and deleting Jane succeeds. -/
theorem C5_deleteUser_witness :
    adminAndJane.findUserByPk 1
      = some (demoUser 1 "root" "root@x.com" "$2b$12$rootpw" .admin none) ∧
    adminAndJane.findUserByPk 2
      = some (demoUser 2 "janed" "jane@x.com" "$2b$12$secret1" .student none) ∧
    ((deleteUser [] 1 adminAndJane).1.status = 403 ∧
      (deleteUser [] 1 adminAndJane).2 = adminAndJane) ∧
    ((deleteUser [] 2 adminAndJane).1.status = 200 ∧
      (deleteUser [] 2 adminAndJane).1.succeeded = true ∧
      (deleteUser [] 2 adminAndJane).2.users
        = adminAndJane.users.filter (fun v => v.id != 2) ∧
      (getUserById [] 2 (deleteUser [] 2 adminAndJane).2).status = 404) :=
  ⟨by decide, by decide,
    (C5_deleteUser [] 1 adminAndJane (demoUser 1 "root" "root@x.com" "$2b$12$rootpw" .admin none)
      rfl (by decide)).1 (by decide),
    (C5_deleteUser [] 2 adminAndJane
      (demoUser 2 "janed" "jane@x.com" "$2b$12$secret1" .student none)
      rfl (by decide)).2 (by decide)⟩

/-! ### C6 -/

/-- C6: `updateCourse`, called with a validated request for an existing course
and a body that has none of the recognised keys, answers 400 ("Tidak ada data
yang diupdate") and leaves the store, hence the record, as it was, whatever
else the store holds; and so does `updateUser` for an existing user. -/
theorem C6_update_without_fields (env : Env) :
    (∀ (creq : UpdateCourseRequest) (s : Store) (c : Course),
      creq.errors = [] → s.findCourseByPk creq.id = some c → creq.noFields = true →
      updateCourse env creq s = (failure 400 "Tidak ada data yang diupdate", s) ∧
      (updateCourse env creq s).2.findCourseByPk creq.id = some c) ∧
    (∀ (ureq : UpdateUserRequest) (s : Store) (u : User),
      ureq.errors = [] → s.findUserByPk ureq.id = some u → ureq.noFields = true →
      updateUser env ureq s = (failure 400 "Tidak ada data yang diupdate", s) ∧
      (updateUser env ureq s).2.findUserByPk ureq.id = some u) := by
  constructor
  · intro creq s c hcvalid hcfind hcnone
    simp only [UpdateCourseRequest.noFields, Bool.and_eq_true, Option.isNone_iff_eq_none]
      at hcnone
    obtain ⟨⟨⟨⟨⟨⟨⟨⟨⟨⟨h1, h2⟩, h3⟩, h4⟩, h5⟩, h6⟩, h7⟩, h8⟩, h9⟩, h10⟩, h11⟩ := hcnone
    have hrun : updateCourse env creq s = (failure 400 "Tidak ada data yang diupdate", s) := by
      simp [updateCourse, hcvalid, hcfind, courseUpdatesOf, CourseUpdates.keys,
        h1, h2, h3, h4, h5, h6, h7, h8, h9, h10, h11]
    exact ⟨hrun, by rw [hrun]; exact hcfind⟩
  · intro ureq s u huvalid hufind hunone
    simp only [UpdateUserRequest.noFields, Bool.and_eq_true, Option.isNone_iff_eq_none]
      at hunone
    obtain ⟨⟨⟨⟨⟨⟨h1, h2⟩, h3⟩, h4⟩, h5⟩, h6⟩, h7⟩ := hunone
    have hrun : updateUser env ureq s = (failure 400 "Tidak ada data yang diupdate", s) := by
      simp [updateUser, huvalid, hufind, userUpdatesOf, UserUpdates.keys, truthy,
        h1, h2, h3, h4, h5, h6, h7]
    exact ⟨hrun, by rw [hrun]; exact hufind⟩

/-- Witness for C6: an empty update of course 1 in a store without users, and
an empty update of user 1 in a store without courses. -/
theorem C6_update_without_fields_witness :
    emptyCourseUpdate.errors = [] ∧
    businessStore.findCourseByPk emptyCourseUpdate.id = some zedCourse ∧
    emptyCourseUpdate.noFields = true ∧
    businessStore.users = [] ∧
    emptyUserUpdate.errors = [] ∧
    janeStore.findUserByPk emptyUserUpdate.id = some janeRow ∧
    emptyUserUpdate.noFields = true ∧
    janeStore.courses = [] ∧
    updateCourse demoEnv emptyCourseUpdate businessStore
      = (failure 400 "Tidak ada data yang diupdate", businessStore) ∧
    updateUser demoEnv emptyUserUpdate janeStore
      = (failure 400 "Tidak ada data yang diupdate", janeStore) :=
  ⟨by decide, by decide, by decide, by decide, by decide, by decide, by decide, by decide,
    ((C6_update_without_fields demoEnv).1 emptyCourseUpdate businessStore zedCourse
      (by decide) (by decide) (by decide)).1,
    ((C6_update_without_fields demoEnv).2 emptyUserUpdate janeStore janeRow
      (by decide) (by decide) (by decide)).1⟩

/-! ### C7 -/

/-- A column name that differs from `k` fails the key test of `Json.get?`. -/
theorem beq_col_false {k col : String} (h : col ≠ k) : (k == col) = false := by
  simp [Ne.symm h]

/-- Searching a mapped list with a test the map does not disturb. -/
theorem find?_map_of_preserved {α : Type} (p : α → Bool) (f : α → α) (l : List α)
    (hp : ∀ x, p (f x) = p x) : (l.map f).find? p = (l.find? p).map f := by
  have hpf : p ∘ f = p := funext hp
  rw [List.find?_map, hpf]

/-- Columns that `updates` does not name, `updated_at` apart, keep their value
when the store writes `updates` and stamps the row. -/
theorem courseData_frame (up : CourseUpdates) (r : Course) (n : Nat) (col : String)
    (hcol : col ∉ up.keys) (hstamp : col ≠ "updated_at") :
    (courseData { up.assign r with updated_at := n }).get? col = (courseData r).get? col := by
  simp only [CourseUpdates.keys, List.mem_append, not_or] at hcol
  obtain ⟨⟨⟨⟨⟨⟨⟨⟨⟨⟨h1, h2⟩, h3⟩, h4⟩, h5⟩, h6⟩, h7⟩, h8⟩, h9⟩, h10⟩, h11⟩ := hcol
  by_cases e1 : col = "title"
  · subst e1
    simp at h1
    simp [courseData, Json.get?, CourseUpdates.assign, h1]
  by_cases e2 : col = "description"
  · subst e2
    simp at h2
    simp [courseData, Json.get?, CourseUpdates.assign, h2]
  by_cases e3 : col = "photos"
  · subst e3
    simp at h3
    simp [courseData, Json.get?, CourseUpdates.assign, h3]
  by_cases e4 : col = "mentor"
  · subst e4
    simp at h4
    simp [courseData, Json.get?, CourseUpdates.assign, h4]
  by_cases e5 : col = "rolementor"
  · subst e5
    simp at h5
    simp [courseData, Json.get?, CourseUpdates.assign, h5]
  by_cases e6 : col = "avatar"
  · subst e6
    simp at h6
    simp [courseData, Json.get?, CourseUpdates.assign, h6]
  by_cases e7 : col = "company"
  · subst e7
    simp at h7
    simp [courseData, Json.get?, CourseUpdates.assign, h7]
  by_cases e8 : col = "rating"
  · subst e8
    simp at h8
    simp [courseData, Json.get?, CourseUpdates.assign, h8]
  by_cases e9 : col = "review_count"
  · subst e9
    simp at h9
    simp [courseData, Json.get?, CourseUpdates.assign, h9]
  by_cases e10 : col = "price"
  · subst e10
    simp at h10
    simp [courseData, Json.get?, CourseUpdates.assign, h10]
  by_cases e11 : col = "category"
  · subst e11
    simp at h11
    simp [courseData, Json.get?, CourseUpdates.assign, h11]
  by_cases e12 : col = "id"
  · subst e12
    simp [courseData, Json.get?, CourseUpdates.assign]
  by_cases e13 : col = "created_at"
  · subst e13
    simp [courseData, Json.get?, CourseUpdates.assign]
  simp only [courseData, Json.get?, CourseUpdates.assign, List.find?,
    beq_col_false e1, beq_col_false e2, beq_col_false e3, beq_col_false e4, beq_col_false e5, beq_col_false e6, beq_col_false e7, beq_col_false e8, beq_col_false e9, beq_col_false e10, beq_col_false e11, beq_col_false e12, beq_col_false e13, beq_col_false hstamp]

/-- The stamp touches no column but `updated_at`. -/
theorem courseData_stamp (r : Course) (n : Nat) (col : String) (hstamp : col ≠ "updated_at") :
    (courseData { r with updated_at := n }).get? col = (courseData r).get? col := by
  simp only [courseData, Json.get?, List.find?, beq_col_false hstamp]

/-- Columns that `updates` does not name, `updated_at` apart, keep their value
when the store writes `updates` and stamps the row. -/
theorem userRow_frame (up : UserUpdates) (r : User) (n : Nat) (col : String)
    (hcol : col ∉ up.keys) (hstamp : col ≠ "updated_at") :
    (userRow { up.assign r with updated_at := n }).get? col = (userRow r).get? col := by
  simp only [UserUpdates.keys, List.mem_append, not_or] at hcol
  obtain ⟨⟨⟨⟨⟨⟨h1, h2⟩, h3⟩, h4⟩, h5⟩, h6⟩, h7⟩ := hcol
  by_cases e1 : col = "name"
  · subst e1
    simp at h1
    simp [userRow, Json.get?, UserUpdates.assign, h1]
  by_cases e2 : col = "username"
  · subst e2
    simp at h2
    simp [userRow, Json.get?, UserUpdates.assign, h2]
  by_cases e3 : col = "email"
  · subst e3
    simp at h3
    simp [userRow, Json.get?, UserUpdates.assign, h3]
  by_cases e4 : col = "phone"
  · subst e4
    simp at h4
    simp [userRow, Json.get?, UserUpdates.assign, h4]
  by_cases e5 : col = "gender"
  · subst e5
    simp at h5
    simp [userRow, Json.get?, UserUpdates.assign, h5]
  by_cases e6 : col = "role"
  · subst e6
    simp at h6
    simp [userRow, Json.get?, UserUpdates.assign, h6]
  by_cases e7 : col = "avatar"
  · subst e7
    simp at h7
    simp [userRow, Json.get?, UserUpdates.assign, h7]
  by_cases e8 : col = "id"
  · subst e8
    simp [userRow, Json.get?, UserUpdates.assign]
  by_cases e9 : col = "password"
  · subst e9
    simp [userRow, Json.get?, UserUpdates.assign]
  by_cases e10 : col = "verification_token"
  · subst e10
    simp [userRow, Json.get?, UserUpdates.assign]
  by_cases e11 : col = "created_at"
  · subst e11
    simp [userRow, Json.get?, UserUpdates.assign]
  simp only [userRow, Json.get?, UserUpdates.assign, List.find?,
    beq_col_false e1, beq_col_false e2, beq_col_false e3, beq_col_false e4, beq_col_false e5, beq_col_false e6, beq_col_false e7, beq_col_false e8, beq_col_false e9, beq_col_false e10, beq_col_false e11, beq_col_false hstamp]

/-- The stamp touches no column but `updated_at`. -/
theorem userRow_stamp (r : User) (n : Nat) (col : String) (hstamp : col ≠ "updated_at") :
    (userRow { r with updated_at := n }).get? col = (userRow r).get? col := by
  simp only [userRow, Json.get?, List.find?, beq_col_false hstamp]


/-- The row found by primary key carries that key. -/
theorem id_of_findCourseByPk {s : Store} {id : Nat} {c : Course}
    (h : s.findCourseByPk id = some c) : c.id = id := by
  have := List.find?_some h
  simpa using this

/-- What `updateCourse` does to the record it was called for, whatever keys
the body carries (at least one). -/
theorem updateCourse_record (env : Env) (req : UpdateCourseRequest) (s : Store) (c : Course)
    (hvalid : req.errors = []) (hfind : s.findCourseByPk req.id = some c)
    (hkeys : (courseUpdatesOf req).keys ≠ []) :
    (updateCourse env req s).1.status = 200 ∧
    (updateCourse env req s).2.users = s.users ∧
    (∀ r ∈ s.courses, r.id ≠ req.id → r ∈ (updateCourse env req s).2.courses) ∧
    ∃ c', (updateCourse env req s).2.findCourseByPk req.id = some c' ∧
      (c' = c ∧ (courseUpdatesOf req).assign c = c ∨
       c' = { (courseUpdatesOf req).assign c with updated_at := env.now }) := by
  have hid : c.id = req.id := id_of_findCourseByPk hfind
  have hlen : ((courseUpdatesOf req).keys.length == 0) = false := by
    cases hk : (courseUpdatesOf req).keys with
    | nil => exact absurd hk hkeys
    | cons a l => simp
  have hrun : updateCourse env req s =
      (success 200 "Course updated successfully"
        (courseData (if (courseUpdatesOf req).assign c = c then (courseUpdatesOf req).assign c
          else { (courseUpdatesOf req).assign c with updated_at := env.now })),
       s.updateCourse env.now c (courseUpdatesOf req).assign) := by
    unfold updateCourse
    simp only [hvalid, hfind, hlen, List.isEmpty_nil, Bool.not_true, Bool.false_eq_true,
      if_false]
  rw [hrun]
  by_cases hsame : (courseUpdatesOf req).assign c = c
  · have hs : s.updateCourse env.now c (courseUpdatesOf req).assign = s := by
      simp [Store.updateCourse, hsame]
    rw [hs]
    exact ⟨rfl, rfl, fun r hr _ => hr, c, hfind, Or.inl ⟨rfl, hsame⟩⟩
  · have hs : s.updateCourse env.now c (courseUpdatesOf req).assign =
        { s with courses := s.courses.map (fun v =>
            if v.id = c.id then { (courseUpdatesOf req).assign v with updated_at := env.now }
            else v) } := by
      simp [Store.updateCourse, hsame]
    rw [hs]
    refine ⟨rfl, rfl, ?_, { (courseUpdatesOf req).assign c with updated_at := env.now }, ?_,
      Or.inr rfl⟩
    · intro r hr hne
      rw [List.mem_map]
      refine ⟨r, hr, ?_⟩
      simp [hid, hne]
    · simp only [Store.findCourseByPk] at hfind ⊢
      rw [find?_map_of_preserved, hfind]
      · simp
      · intro x
        by_cases hx : x.id = c.id <;> simp [hx, CourseUpdates.assign]

/-- What `updateUser` does to the record it was called for, whatever keys the
body carries (at least one), when the email and the username of the body are
not those of another user. -/
theorem updateUser_record (env : Env) (req : UpdateUserRequest) (s : Store) (u : User)
    (hvalid : req.errors = []) (hfind : s.findUserByPk req.id = some u)
    (hkeys : (userUpdatesOf req).keys ≠ [])
    (hfree : ∀ v ∈ s.users, v.id ≠ req.id →
      some v.email ≠ req.email ∧ some v.username ≠ req.username) :
    (updateUser env req s).1.status = 200 ∧
    (updateUser env req s).2.courses = s.courses ∧
    (∀ r ∈ s.users, r.id ≠ req.id → r ∈ (updateUser env req s).2.users) ∧
    ∃ u', (updateUser env req s).2.findUserByPk req.id = some u' ∧
      (u' = u ∧ (userUpdatesOf req).assign u = u ∨
       u' = { (userUpdatesOf req).assign u with updated_at := env.now }) := by
  have hid : u.id = req.id := id_of_findUserByPk hfind
  have hlen : ((userUpdatesOf req).keys.length == 0) = false := by
    cases hk : (userUpdatesOf req).keys with
    | nil => exact absurd hk hkeys
    | cons a l => simp
  have hc1 : s.users.any (fun v => some v.email == req.email && v.id != req.id) = false := by
    rw [List.any_eq_false]
    intro v hv
    by_cases h : v.id = req.id
    · simp [h]
    · simp [(hfree v hv h).1]
  have hc2 : s.users.any (fun v => some v.username == req.username && v.id != req.id)
      = false := by
    rw [List.any_eq_false]
    intro v hv
    by_cases h : v.id = req.id
    · simp [h]
    · simp [(hfree v hv h).2]
  have hd1 : (((userUpdatesOf req).assign u).username != u.username &&
      s.users.any (fun v => v.id != u.id &&
        v.username == ((userUpdatesOf req).assign u).username)) = false := by
    cases hreq : req.username with
    | none => simp [userUpdatesOf, UserUpdates.assign, hreq]
    | some x =>
      have : s.users.any (fun v => v.id != u.id && v.username == x) = false := by
        rw [List.any_eq_false]
        intro v hv
        by_cases h : v.id = req.id
        · simp [h, hid]
        · have := (hfree v hv h).2
          rw [hreq] at this
          have hx : v.username ≠ x := fun e => this (by rw [e])
          simp [hx]
      simp [userUpdatesOf, UserUpdates.assign, hreq, this]
  have hd2 : (((userUpdatesOf req).assign u).email != u.email &&
      s.users.any (fun v => v.id != u.id &&
        v.email == ((userUpdatesOf req).assign u).email)) = false := by
    cases hreq : req.email with
    | none => simp [userUpdatesOf, UserUpdates.assign, hreq]
    | some x =>
      have : s.users.any (fun v => v.id != u.id && v.email == x) = false := by
        rw [List.any_eq_false]
        intro v hv
        by_cases h : v.id = req.id
        · simp [h, hid]
        · have := (hfree v hv h).1
          rw [hreq] at this
          have hx : v.email ≠ x := fun e => this (by rw [e])
          simp [hx]
      simp [userUpdatesOf, UserUpdates.assign, hreq, this]
  by_cases hsame : (userUpdatesOf req).assign u = u
  · have hrun : updateUser env req s =
        (success 200 "User updated successfully" (userData ((userUpdatesOf req).assign u)),
         s) := by
      unfold updateUser
      simp only [hvalid, hfind, hlen, hc1, hc2, Store.updateUser, hsame, List.isEmpty_nil,
        Bool.not_true, Bool.false_eq_true, if_false, if_true, Bool.and_false]
    rw [hrun]
    exact ⟨rfl, rfl, fun r hr _ => hr, u, hfind, Or.inl ⟨rfl, hsame⟩⟩
  · have hrun : updateUser env req s =
        (success 200 "User updated successfully" (userData ((userUpdatesOf req).assign u)),
         { s with users := s.users.map (fun v =>
            if v.id = u.id then { (userUpdatesOf req).assign v with updated_at := env.now }
            else v) }) := by
      unfold updateUser
      simp only [hvalid, hfind, hlen, hc1, hc2, Store.updateUser, hsame, hd1, hd2,
        List.isEmpty_nil, Bool.not_true, Bool.false_eq_true, if_false, Bool.and_false]
    rw [hrun]
    refine ⟨rfl, rfl, ?_, { (userUpdatesOf req).assign u with updated_at := env.now }, ?_,
      Or.inr rfl⟩
    · intro r hr hne
      rw [List.mem_map]
      refine ⟨r, hr, ?_⟩
      simp [hid, hne]
    · simp only [Store.findUserByPk] at hfind ⊢
      rw [find?_map_of_preserved, hfind]
      · simp
      · intro x
        by_cases hx : x.id = u.id <;> simp [hx, UserUpdates.assign]

/-- C7 as stated fails: the store stamps `updated_at` on every effective
update (`timestamps: true`), so a body that carries only `title` (for a user,
only `phone`) also changes the `updated_at` of the record, a timestamp the
request did not touch. -/
theorem C7_counterexample :
    titleUpdate.errors = [] ∧
    catalogStore.findCourseByPk titleUpdate.id = some demoCourse ∧
    (courseUpdatesOf titleUpdate).keys = ["title"] ∧
    demoCourse.updated_at = 100 ∧
    ((updateCourse demoEnv titleUpdate catalogStore).2.findCourseByPk 1).map Course.updated_at
      = some 200 ∧
    phoneUpdate.errors = [] ∧
    (userUpdatesOf phoneUpdate).keys = ["phone"] ∧
    (catalogStore.findUserByPk 1).map User.updated_at = some 100 ∧
    ((updateUser demoEnv phoneUpdate catalogStore).2.findUserByPk 1).map User.updated_at
      = some 200 := by
  decide

/-- C7 (amended): `updateCourse`, called with a validated request for an
existing course and a body with exactly one recognised key, answers 200 and
leaves the record with the columns `updates` assigns; every column other than
the one named and the store-maintained `updated_at` keeps its value,
`created_at` included, whatever else the store holds. And so does `updateUser`
for an existing user, when the email and the username of the body are not
those of another user. -/
theorem C7_update_one_field (env : Env) :
    (∀ (creq : UpdateCourseRequest) (s : Store) (c : Course) (kc : String),
      creq.errors = [] → s.findCourseByPk creq.id = some c →
      (courseUpdatesOf creq).keys = [kc] →
      (updateCourse env creq s).1.status = 200 ∧
      ∃ c', (updateCourse env creq s).2.findCourseByPk creq.id = some c' ∧
        (∀ col, col ≠ "updated_at" →
          (courseData c').get? col = (courseData ((courseUpdatesOf creq).assign c)).get? col) ∧
        (∀ col, col ≠ kc → col ≠ "updated_at" →
          (courseData c').get? col = (courseData c).get? col)) ∧
    (∀ (ureq : UpdateUserRequest) (s : Store) (u : User) (ku : String),
      ureq.errors = [] → s.findUserByPk ureq.id = some u →
      (userUpdatesOf ureq).keys = [ku] →
      (∀ v ∈ s.users, v.id ≠ ureq.id →
        some v.email ≠ ureq.email ∧ some v.username ≠ ureq.username) →
      (updateUser env ureq s).1.status = 200 ∧
      ∃ u', (updateUser env ureq s).2.findUserByPk ureq.id = some u' ∧
        (∀ col, col ≠ "updated_at" →
          (userRow u').get? col = (userRow ((userUpdatesOf ureq).assign u)).get? col) ∧
        (∀ col, col ≠ ku → col ≠ "updated_at" →
          (userRow u').get? col = (userRow u).get? col)) := by
  constructor
  · intro creq s c kc hcvalid hcfind hcone
    obtain ⟨hstatus, -, -, c', hc', hcase⟩ :=
      updateCourse_record env creq s c hcvalid hcfind (by rw [hcone]; simp)
    refine ⟨hstatus, c', hc', ?_, ?_⟩
    · intro col hcol
      rcases hcase with ⟨rfl, hsame⟩ | rfl
      · rw [hsame]
      · exact courseData_stamp _ _ col hcol
    · intro col hk hcol
      rcases hcase with ⟨rfl, -⟩ | rfl
      · rfl
      · exact courseData_frame _ _ _ col (by rw [hcone]; simpa using hk) hcol
  · intro ureq s u ku huvalid hufind huone hfree
    obtain ⟨hstatus, -, -, u', hu', hcase⟩ :=
      updateUser_record env ureq s u huvalid hufind (by rw [huone]; simp) hfree
    refine ⟨hstatus, u', hu', ?_, ?_⟩
    · intro col hcol
      rcases hcase with ⟨rfl, hsame⟩ | rfl
      · rw [hsame]
      · exact userRow_stamp _ _ col hcol
    · intro col hk hcol
      rcases hcase with ⟨rfl, -⟩ | rfl
      · rfl
      · exact userRow_frame _ _ _ col (by rw [huone]; simpa using hk) hcol

/-- Witness for C7: a new title for course 1 in a store without users, and a
phone number for user 1 in a store without courses. -/
theorem C7_update_one_field_witness :
    titleUpdate.errors = [] ∧
    businessStore.findCourseByPk titleUpdate.id = some zedCourse ∧
    (courseUpdatesOf titleUpdate).keys = ["title"] ∧
    businessStore.users = [] ∧
    phoneUpdate.errors = [] ∧
    janeStore.findUserByPk phoneUpdate.id = some janeRow ∧
    (userUpdatesOf phoneUpdate).keys = ["phone"] ∧
    (∀ v ∈ janeStore.users, v.id ≠ phoneUpdate.id →
      some v.email ≠ phoneUpdate.email ∧ some v.username ≠ phoneUpdate.username) ∧
    janeStore.courses = [] ∧
    (updateCourse demoEnv titleUpdate businessStore).1.status = 200 ∧
    (updateUser demoEnv phoneUpdate janeStore).1.status = 200 :=
  ⟨by decide, by decide, by decide, by decide, by decide, by decide, by decide, by decide,
    by decide,
    ((C7_update_one_field demoEnv).1 titleUpdate businessStore zedCourse "title"
      (by decide) (by decide) (by decide)).1,
    ((C7_update_one_field demoEnv).2 phoneUpdate janeStore janeRow "phone"
      (by decide) (by decide) (by decide) (by decide)).1⟩

/-! ### C8 -/

/-! #### No `password` key -/

theorem hasKey_ofOptStr (k : String) (x : Option String) : (Json.ofOptStr x).hasKey k = false := by
  cases x <;> simp [Json.ofOptStr, Json.hasKey]

theorem hasKey_ofOptRole (k : String) (x : Option Role) : (Json.ofOptRole x).hasKey k = false :=
  hasKey_ofOptStr k _

theorem hasKey_ofOptGender (k : String) (x : Option Gender) :
    (Json.ofOptGender x).hasKey k = false :=
  hasKey_ofOptStr k _

theorem hasKey_failure (status : Nat) (message : String) :
    (failure status message).body.hasKey "password" = false := by
  simp [failure, Json.hasKey, Json.hasKeyFields]

theorem hasKey_successMessage (message : String) :
    (successMessage message).body.hasKey "password" = false := by
  simp [successMessage, Json.hasKey, Json.hasKeyFields]

theorem hasKey_success (status : Nat) (message : String) (data : Json) :
    (success status message data).body.hasKey "password" = data.hasKey "password" := by
  simp [success, Json.hasKey, Json.hasKeyFields]

theorem hasKey_validationFailed (errors : List FieldError) :
    (validationFailed errors).body.hasKey "password" = false := by
  have h : Json.hasKeyList "password" (errors.map FieldError.toJson) = false := by
    induction errors with
    | nil => simp [Json.hasKeyList]
    | cons e es ih => simp [Json.hasKeyList, ih, FieldError.toJson, Json.hasKey, Json.hasKeyFields]
  simp [validationFailed, Json.hasKey, Json.hasKeyFields, h]

theorem hasKey_authUserData (u : User) : (authUserData u).hasKey "password" = false := by
  simp [authUserData, Json.hasKey, Json.hasKeyFields, hasKey_ofOptStr, hasKey_ofOptRole]

theorem hasKey_userData (u : User) : (userData u).hasKey "password" = false := by
  simp [userData, Json.hasKey, Json.hasKeyFields, hasKey_ofOptStr, hasKey_ofOptRole,
    hasKey_ofOptGender]

theorem hasKey_loginSuccess (user : Json) (token : String) :
    (loginSuccess user token).body.hasKey "password" = user.hasKey "password" := by
  simp [loginSuccess, Json.hasKey, Json.hasKeyFields]

theorem hasKey_login (env : Env) (req : LoginRequest) (s : Store) :
    (login env req s).body.hasKey "password" = false := by
  unfold login
  split
  · exact hasKey_validationFailed _
  split
  · rw [hasKey_loginSuccess]
    simp [Json.hasKey, Json.hasKeyFields]
  split
  · rw [hasKey_loginSuccess]
    simp [Json.hasKey, Json.hasKeyFields]
  split
  · exact hasKey_failure _ _
  split
  · exact hasKey_failure _ _
  · rw [hasKey_loginSuccess]
    simp [Json.hasKey, Json.hasKeyFields, hasKey_ofOptStr]

theorem hasKey_register (env : Env) (req : RegisterRequest) (s : Store) :
    (register env req s).1.body.hasKey "password" = false := by
  unfold register
  split
  · exact hasKey_validationFailed _
  simp only []
  split
  · exact hasKey_failure _ _
  split
  · exact hasKey_failure _ _
  split <;> simp [hasKey_success, hasKey_authUserData]

theorem hasKey_verifyToken (env : Env) (auth : Option String) (s : Store) :
    (verifyToken env auth s).body.hasKey "password" = false := by
  unfold verifyToken
  simp only []
  split
  · exact hasKey_failure _ _
  split
  · exact hasKey_failure _ _
  split
  · exact hasKey_failure _ _
  · simp [hasKey_success, hasKey_authUserData]

theorem hasKey_getAllUsers (env : Env) (q : UsersQuery) (s : Store) :
    (getAllUsers env q s).body.hasKey "password" = false := by
  have h : ∀ l : List User, Json.hasKeyList "password" (l.map userData) = false := by
    intro l
    induction l with
    | nil => simp [Json.hasKeyList]
    | cons u us ih => simp [Json.hasKeyList, ih, hasKey_userData]
  simp [getAllUsers, Json.hasKey, Json.hasKeyFields, h]

theorem hasKey_getUserById (errors : List FieldError) (id : Nat) (s : Store) :
    (getUserById errors id s).body.hasKey "password" = false := by
  unfold getUserById
  split
  · exact hasKey_validationFailed _
  split
  · exact hasKey_failure _ _
  · simp [hasKey_success, hasKey_userData]

theorem hasKey_createUser (env : Env) (req : CreateUserRequest) (s : Store) :
    (createUser env req s).1.body.hasKey "password" = false := by
  unfold createUser
  split
  · exact hasKey_validationFailed _
  split
  · exact hasKey_failure _ _
  simp only []
  split
  · exact hasKey_failure _ _
  · simp [hasKey_success, hasKey_userData]

theorem hasKey_updateUser (env : Env) (req : UpdateUserRequest) (s : Store) :
    (updateUser env req s).1.body.hasKey "password" = false := by
  unfold updateUser
  split
  · exact hasKey_validationFailed _
  split
  · exact hasKey_failure _ _
  split
  · exact hasKey_failure _ _
  split
  · exact hasKey_failure _ _
  simp only []
  split
  · exact hasKey_failure _ _
  split
  · exact hasKey_failure _ _
  · simp [hasKey_success, hasKey_userData]

theorem hasKey_resetPassword (env : Env) (errors : List FieldError) (id : Nat)
    (newPassword : String) (s : Store) :
    (resetPassword env errors id newPassword s).1.body.hasKey "password" = false := by
  unfold resetPassword
  split
  · exact hasKey_validationFailed _
  split
  · exact hasKey_failure _ _
  simp only []
  split
  · exact hasKey_failure _ _
  · simp [hasKey_success, hasKey_userData]

/-! #### Independence of the stored password -/

/-- Two rows with the same public part differ at most in the password. -/
theorem eq_of_redact_eq {u v : User} (h : u.redact = v.redact) :
    v = { u with password := v.password } := by
  cases u
  cases v
  simp only [User.redact, User.mk.injEq] at h ⊢
  tauto

theorem findUserByPk_redact (s : Store) (id : Nat) :
    s.redact.findUserByPk id = (s.findUserByPk id).map User.redact := by
  simp only [Store.findUserByPk, Store.redact]
  exact find?_map_of_preserved _ _ _ (fun _ => rfl)

theorem findUserByEmail_redact (s : Store) (email : String) :
    s.redact.findUserByEmail email = (s.findUserByEmail email).map User.redact := by
  simp only [Store.findUserByEmail, Store.redact]
  exact find?_map_of_preserved _ _ _ (fun _ => rfl)

theorem findUserByEmailOrUsername_redact (s : Store) (email username : String) :
    s.redact.findUserByEmailOrUsername email username
      = (s.findUserByEmailOrUsername email username).map User.redact := by
  simp only [Store.findUserByEmailOrUsername, Store.redact]
  exact find?_map_of_preserved _ _ _ (fun _ => rfl)

theorem verifyToken_redact (env : Env) (auth : Option String) (s : Store) :
    verifyToken env auth s.redact = verifyToken env auth s := by
  unfold verifyToken
  simp only []
  split
  · rfl
  split
  · rfl
  · rename_i decoded _
    cases hpk : pkOfJson (decoded.get? "userId") with
    | none => rfl
    | some id =>
      simp only [Option.bind, findUserByPk_redact]
      cases s.findUserByPk id <;> rfl

theorem getUserById_redact (errors : List FieldError) (id : Nat) (s : Store) :
    getUserById errors id s.redact = getUserById errors id s := by
  unfold getUserById
  rw [findUserByPk_redact]
  cases s.findUserByPk id <;> rfl

theorem orderRows_redact (column direction : String) (l : List User) :
    orderRows (userColumnLe column) direction (l.map User.redact)
      = (orderRows (userColumnLe column) direction l).map User.redact := by
  unfold orderRows
  split
  · exact (List.map_insertionSort _ _ User.redact l (fun a _ b _ => Iff.rfl)).symm
  · exact (List.map_insertionSort _ _ User.redact l (fun a _ b _ => Iff.rfl)).symm

theorem getAllUsers_redact (env : Env) (q : UsersQuery) (s : Store) :
    getAllUsers env q s.redact = getAllUsers env q s := by
  have hfilter : (s.users.map User.redact).filter (usersWhere env q)
      = (s.users.filter (usersWhere env q)).map User.redact := by
    rw [List.filter_map]
    rfl
  have hdata : ∀ l : List User, (l.map User.redact).map userData = l.map userData := by
    intro l
    rw [List.map_map]
    rfl
  simp only [getAllUsers, Store.redact, hfilter, orderRows_redact, hdata]

theorem any_redact (l : List User) (p : User → Bool) (hp : ∀ u, p u.redact = p u) :
    (l.map User.redact).any p = l.any p := by
  rw [List.any_map]
  congr 1
  funext u
  exact hp u

theorem register_redact (env : Env) (hash : String → Int → String) (req : RegisterRequest)
    (s : Store) :
    (register { env with bcryptHash := hash } req s.redact).1 = (register env req s).1 := by
  unfold register
  cases hv : req.errors.isEmpty
  · simp only [Bool.not_false, if_true]
  simp only [Bool.not_true, Bool.false_eq_true, if_false, findUserByEmailOrUsername_redact]
  cases s.findUserByEmailOrUsername req.email req.username with
  | some u => rfl
  | none =>
    simp only [Option.map, Store.createUser, Store.redact,
      any_redact s.users (fun u => u.username == req.username) (fun _ => rfl),
      any_redact s.users (fun u => u.email == req.email) (fun _ => rfl)]
    cases h1 : s.users.any (fun u => u.username == req.username)
    · cases h2 : s.users.any (fun u => u.email == req.email)
      · simp only [Bool.false_eq_true, if_false]
        split <;> split <;> rfl
      · simp only [Bool.false_eq_true, if_false, if_true]
    · simp only [if_true]

theorem createUser_redact (env : Env) (hash : String → Int → String) (req : CreateUserRequest)
    (s : Store) :
    (createUser { env with bcryptHash := hash } req s.redact).1 = (createUser env req s).1 := by
  unfold createUser
  cases hv : req.errors.isEmpty
  · simp only [Bool.not_false, if_true]
  simp only [Bool.not_true, Bool.false_eq_true, if_false, findUserByEmailOrUsername_redact]
  cases s.findUserByEmailOrUsername req.email req.username with
  | some u => rfl
  | none =>
    simp only [Option.map, Store.createUser, Store.redact,
      any_redact s.users (fun u => u.username == req.username) (fun _ => rfl),
      any_redact s.users (fun u => u.email == req.email) (fun _ => rfl)]
    cases h1 : s.users.any (fun u => u.username == req.username)
    · cases h2 : s.users.any (fun u => u.email == req.email)
      · simp only [Bool.false_eq_true, if_false]
        rfl
      · simp only [Bool.false_eq_true, if_false, if_true]
    · simp only [if_true]

theorem assign_redact_eq_iff (up : UserUpdates) (u : User) :
    up.assign u.redact = u.redact ↔ up.assign u = u := by
  cases u
  simp [User.redact, UserUpdates.assign]

/-- Whether the store accepts `user.update(updates)` does not depend on a password. -/
theorem updateUser_toBool_redact (s : Store) (now : Nat) (u : User) (up : UserUpdates) :
    (s.redact.updateUser now u.redact up.assign).toBool = (s.updateUser now u up.assign).toBool := by
  unfold Store.updateUser
  by_cases hsame : up.assign u = u
  · have hsame' := (assign_redact_eq_iff up u).mpr hsame
    simp only [hsame, hsame', if_true]
    rfl
  · have hsame' : ¬ up.assign u.redact = u.redact := fun h => hsame ((assign_redact_eq_iff up u).mp h)
    simp only [hsame, hsame', if_false, Store.redact]
    have e1 : (s.users.map User.redact).any
        (fun v => v.id != u.redact.id && v.username == (up.assign u.redact).username)
        = s.users.any (fun v => v.id != u.id && v.username == (up.assign u).username) :=
      any_redact s.users _ (fun _ => rfl)
    have e2 : (s.users.map User.redact).any
        (fun v => v.id != u.redact.id && v.email == (up.assign u.redact).email)
        = s.users.any (fun v => v.id != u.id && v.email == (up.assign u).email) :=
      any_redact s.users _ (fun _ => rfl)
    have e3 : (up.assign u.redact).username = (up.assign u).username := rfl
    have e4 : (up.assign u.redact).email = (up.assign u).email := rfl
    have e5 : u.redact.username = u.username := rfl
    have e6 : u.redact.email = u.email := rfl
    rw [e1, e2, e3, e4, e5, e6]
    split
    · rfl
    split
    · rfl
    · rfl

theorem updateUser_redact (env : Env) (req : UpdateUserRequest) (s : Store) :
    (updateUser env req s.redact).1 = (updateUser env req s).1 := by
  unfold updateUser
  cases hv : req.errors.isEmpty
  · simp only [Bool.not_false, if_true]
  simp only [Bool.not_true, Bool.false_eq_true, if_false, findUserByPk_redact]
  cases s.findUserByPk req.id with
  | none => rfl
  | some u =>
    simp only [Option.map]
    have e1 : s.redact.users.any (fun v => some v.email == req.email && v.id != req.id)
        = s.users.any (fun v => some v.email == req.email && v.id != req.id) :=
      any_redact s.users _ (fun _ => rfl)
    have e2 : s.redact.users.any (fun v => some v.username == req.username && v.id != req.id)
        = s.users.any (fun v => some v.username == req.username && v.id != req.id) :=
      any_redact s.users _ (fun _ => rfl)
    have e3 : u.redact.email = u.email := rfl
    have e4 : u.redact.username = u.username := rfl
    rw [e1, e2, e3, e4]
    split
    · rfl
    split
    · rfl
    split
    · rfl
    have hb := updateUser_toBool_redact s env.now u (userUpdatesOf req)
    cases h1 : s.redact.updateUser env.now u.redact (userUpdatesOf req).assign <;>
      cases h2 : s.updateUser env.now u (userUpdatesOf req).assign <;>
      rw [h1, h2] at hb <;>
      first
        | rfl
        | exact absurd hb (by simp [Except.toBool])

theorem resetPassword_response (env : Env) (errors : List FieldError) (id : Nat)
    (newPassword : String) (s : Store) :
    (resetPassword env errors id newPassword s).1 =
      if !errors.isEmpty then validationFailed errors
      else
        match s.findUserByPk id with
        | none => failure 404 "User tidak ditemukan"
        | some user => success 200 "Password reset successfully" (userData user) := by
  unfold resetPassword
  cases hv : errors.isEmpty
  · simp only [Bool.not_false, if_true]
  simp only [Bool.not_true, Bool.false_eq_true, if_false]
  cases hf : s.findUserByPk id with
  | none => rfl
  | some user =>
    simp only [Store.updateUser, bne_self_eq_false, Bool.false_and, Bool.false_eq_true,
      if_false]
    split_ifs <;> rfl

theorem resetPassword_redact (env : Env) (hash : String → Int → String)
    (errors : List FieldError) (id : Nat) (newPassword : String) (s : Store) :
    (resetPassword { env with bcryptHash := hash } errors id newPassword s.redact).1
      = (resetPassword env errors id newPassword s).1 := by
  rw [resetPassword_response, resetPassword_response, findUserByPk_redact]
  cases s.findUserByPk id <;> rfl

/-- Two stores with the same public part give `login` the same response
whenever they give it the same status. -/
theorem login_public (env : Env) (req : LoginRequest) (s s' : Store)
    (hpublic : s.redact = s'.redact)
    (hstatus : (login env req s).status = (login env req s').status) :
    login env req s = login env req s' := by
  cases hv : req.errors.isEmpty
  · unfold login
    simp only [hv, Bool.not_false, if_true]
  have hvalid : req.errors = [] := List.isEmpty_iff.mp hv
  cases hb : isBuiltinAccount req.email req.password
  · have hfind : (s.findUserByEmail req.email).map User.redact
        = (s'.findUserByEmail req.email).map User.redact := by
      rw [← findUserByEmail_redact, ← findUserByEmail_redact, hpublic]
    rw [login_database env req s hvalid hb, login_database env req s' hvalid hb] at hstatus ⊢
    cases h1 : s.findUserByEmail req.email with
    | none =>
      cases h2 : s'.findUserByEmail req.email with
      | none => rfl
      | some v => simp [h1, h2] at hfind
    | some u =>
      cases h2 : s'.findUserByEmail req.email with
      | none => simp [h1, h2] at hfind
      | some v =>
        rw [h1, h2] at hfind hstatus
        simp only [Option.map, Option.some.injEq] at hfind
        have hv' := eq_of_redact_eq hfind
        cases hu : isPasswordValid env req.password u <;>
          cases hw : isPasswordValid env req.password v <;>
          simp only [hu, hw, Bool.not_true, Bool.not_false, if_true, if_false,
            Bool.false_eq_true] at hstatus ⊢
        · exact absurd hstatus (by simp [failure, loginSuccess])
        · exact absurd hstatus (by simp [failure, loginSuccess])
        · rw [hv']
  · unfold login
    simp only [hvalid, List.isEmpty_nil, Bool.not_true, Bool.false_eq_true, if_false]
    by_cases h1 : (req.email == "admin@videobelajar.com" && req.password == "admin123") = true
    · simp only [h1, if_true]
    · have h2 : (req.email == "user@example.com" && req.password == "123456") = true := by
        simp only [isBuiltinAccount, Bool.or_eq_true] at hb
        rcases hb with hb | hb
        · exact absurd hb h1
        · exact hb
      simp only [h1, h2, if_true, if_false]

/-- C8: no response of `login`, `register`, `verifyToken`, `getAllUsers`,
`getUserById`, `createUser`, `updateUser` or `resetPassword` has a `password`
key at any depth, for every request and store; and none carries a value taken
from a stored password: two stores that agree on everything but the passwords
get the same response from each of these handlers, also when the hasher that
produces the password to store is replaced (for `login`, whose status is
decided by the password check, the same response whenever the status is the
same). -/
theorem C8_password_never_returned (env : Env) (hash : String → Int → String) (s s' : Store)
    (lreq : LoginRequest) (rreq : RegisterRequest) (auth : Option String) (q : UsersQuery)
    (errors : List FieldError) (id : Nat) (creq : CreateUserRequest) (ureq : UpdateUserRequest)
    (newPassword : String)
    (hpublic : s.redact = s'.redact) :
    ((login env lreq s).body.hasKey "password" = false ∧
     (register env rreq s).1.body.hasKey "password" = false ∧
     (verifyToken env auth s).body.hasKey "password" = false ∧
     (getAllUsers env q s).body.hasKey "password" = false ∧
     (getUserById errors id s).body.hasKey "password" = false ∧
     (createUser env creq s).1.body.hasKey "password" = false ∧
     (updateUser env ureq s).1.body.hasKey "password" = false ∧
     (resetPassword env errors id newPassword s).1.body.hasKey "password" = false) ∧
    ((login env lreq s).status = (login env lreq s').status →
      login env lreq s = login env lreq s') ∧
    (register env rreq s).1 = (register { env with bcryptHash := hash } rreq s').1 ∧
    verifyToken env auth s = verifyToken env auth s' ∧
    getAllUsers env q s = getAllUsers env q s' ∧
    getUserById errors id s = getUserById errors id s' ∧
    (createUser env creq s).1 = (createUser { env with bcryptHash := hash } creq s').1 ∧
    (updateUser env ureq s).1 = (updateUser env ureq s').1 ∧
    (resetPassword env errors id newPassword s).1
      = (resetPassword { env with bcryptHash := hash } errors id newPassword s').1 := by
  refine ⟨⟨hasKey_login _ _ _, hasKey_register _ _ _, hasKey_verifyToken _ _ _,
    hasKey_getAllUsers _ _ _, hasKey_getUserById _ _ _, hasKey_createUser _ _ _,
    hasKey_updateUser _ _ _, hasKey_resetPassword _ _ _ _ _⟩,
    login_public env lreq s s' hpublic, ?_, ?_, ?_, ?_, ?_, ?_, ?_⟩
  · rw [← register_redact env hash rreq s, hpublic]
    exact register_redact { env with bcryptHash := hash } hash rreq s'
  · rw [← verifyToken_redact env auth s, hpublic, verifyToken_redact]
  · rw [← getAllUsers_redact env q s, hpublic, getAllUsers_redact]
  · rw [← getUserById_redact errors id s, hpublic, getUserById_redact]
  · rw [← createUser_redact env hash creq s, hpublic]
    exact createUser_redact { env with bcryptHash := hash } hash creq s'
  · rw [← updateUser_redact env ureq s, hpublic, updateUser_redact]
  · rw [← resetPassword_redact env hash errors id newPassword s, hpublic]
    exact resetPassword_redact { env with bcryptHash := hash } hash errors id newPassword s'

/-- Witness for C8: Jane's store before and after her password changed. -/
theorem C8_password_never_returned_witness :
    janeStore.redact = janeStoreRehashed.redact ∧
    getUserById [] 1 janeStore = getUserById [] 1 janeStoreRehashed ∧
    (login demoEnv janeLogin janeStore).body.hasKey "password" = false :=
  ⟨by decide,
    (C8_password_never_returned demoEnv demoHash janeStore janeStoreRehashed janeLogin
      janeRegistration none ⟨none, none, none, none⟩ [] 1
      ⟨[], "John Doe", "johnd", "john@x.com", "secret2", none, none, none, none⟩
      emptyUserUpdate "secret3" (by decide)).2.2.2.2.2.1,
    (C8_password_never_returned demoEnv demoHash janeStore janeStoreRehashed janeLogin
      janeRegistration none ⟨none, none, none, none⟩ [] 1
      ⟨[], "John Doe", "johnd", "john@x.com", "secret2", none, none, none, none⟩
      emptyUserUpdate "secret3" (by decide)).1.1⟩

/-! ### C9 -/

/-- C9: for a validated login request that is not one of the hardcoded
accounts, the response when the email is not in the store and the response
when the email is found but the password check fails are the same: status 401
and the body with the message "Email atau password salah". -/
theorem C9_login_failures_identical (env : Env) (req : LoginRequest) (s₁ s₂ : Store) (u : User)
    (hvalid : req.errors = [])
    (hnb : isBuiltinAccount req.email req.password = false)
    (hmissing : s₁.findUserByEmail req.email = none)
    (hfound : s₂.findUserByEmail req.email = some u)
    (hwrong : isPasswordValid env req.password u = false) :
    login env req s₁ = login env req s₂ ∧
    login env req s₁ = failure 401 "Email atau password salah" ∧
    (login env req s₁).status = 401 := by
  have h1 : login env req s₁ = failure 401 "Email atau password salah" := by
    rw [login_database env req s₁ hvalid hnb, hmissing]
  have h2 : login env req s₂ = failure 401 "Email atau password salah" := by
    rw [login_database env req s₂ hvalid hnb, hfound]
    simp [hwrong]
  exact ⟨h1.trans h2.symm, h1, by rw [h1]; rfl⟩

/-- Witness for C9: Jane's email with a wrong password, against an empty
store and against her own. -/
theorem C9_login_failures_identical_witness :
    isBuiltinAccount "jane@x.com" "wrong-password" = false ∧
    (demoStore []).findUserByEmail "jane@x.com" = none ∧
    janeStore.findUserByEmail "jane@x.com" = some janeRow ∧
    isPasswordValid demoEnv "wrong-password" janeRow = false ∧
    login demoEnv ⟨[], "jane@x.com", "wrong-password"⟩ (demoStore [])
      = login demoEnv ⟨[], "jane@x.com", "wrong-password"⟩ janeStore :=
  ⟨by decide, by decide, by decide, by decide,
    (C9_login_failures_identical demoEnv ⟨[], "jane@x.com", "wrong-password"⟩ (demoStore [])
      janeStore janeRow rfl (by decide) (by decide) (by decide) (by decide)).1⟩

/-! ### C10 -/

/-- An INSERT that the store accepts keeps both invariants. -/
theorem createUser_invariants (s s' : Store) (now : Nat) (v : UserValues) (row : User)
    (h : s.createUser now v = .ok (row, s'))
    (hk : s.WellKeyed) (hu : s.UniqueUsers) : s'.WellKeyed ∧ s'.UniqueUsers := by
  unfold Store.createUser at h
  split at h
  · exact absurd h (by simp)
  split at h
  · exact absurd h (by simp)
  rename_i h1 h2
  simp only [Except.ok.injEq, Prod.mk.injEq] at h
  obtain ⟨hrow, hs'⟩ := h
  subst hs'
  subst hrow
  simp only [Bool.not_eq_true, List.any_eq_false, beq_iff_eq] at h1 h2
  refine ⟨⟨?_, ?_⟩, ⟨?_, ?_⟩⟩
  · simp only [List.map_append, List.map_cons, List.map_nil]
    rw [List.nodup_append]
    refine ⟨hk.1, List.nodup_singleton _, ?_⟩
    simp only [List.disjoint_singleton, List.mem_map, not_exists, not_and]
    intro u hu' he
    exact absurd (he ▸ hk.2 u hu') (lt_irrefl _)
  · intro u hu'
    simp only [List.mem_append, List.mem_singleton] at hu'
    rcases hu' with hu' | rfl
    · exact Nat.lt_succ_of_lt (hk.2 u hu')
    · exact Nat.lt_succ_self _
  · simp only [List.map_append, List.map_cons, List.map_nil]
    rw [List.nodup_append]
    refine ⟨hu.1, List.nodup_singleton _, ?_⟩
    simp only [List.disjoint_singleton, List.mem_map, not_exists, not_and]
    intro u hu' he
    exact h2 u hu' he
  · simp only [List.map_append, List.map_cons, List.map_nil]
    rw [List.nodup_append]
    refine ⟨hu.2, List.nodup_singleton _, ?_⟩
    simp only [List.disjoint_singleton, List.mem_map, not_exists, not_and]
    intro u hu' he
    exact h1 u hu' he

/-- A unique column stays unique when one row, identified by its key, is
rewritten to a value that is its old one or that no other row holds. -/
theorem nodup_map_stamp {β : Type} (g : User → β) (l : List User) (u : User)
    (stamp : User → User)
    (hids : (l.map User.id).Nodup) (hg : (l.map g).Nodup) (hmem : u ∈ l)
    (hother : ∀ v, v.id ≠ u.id → stamp v = v)
    (hfresh : g (stamp u) = g u ∨ ∀ v ∈ l, v.id ≠ u.id → g v ≠ g (stamp u)) :
    ((l.map stamp).map g).Nodup := by
  rw [List.map_map, List.Nodup, List.pairwise_map]
  have hp : l.Pairwise (fun a b => a.id ≠ b.id ∧ g a ≠ g b) :=
    (List.pairwise_map.mp hids).and (List.pairwise_map.mp hg)
  refine hp.imp_of_mem ?_
  intro a b ha hb hab
  obtain ⟨hidab, hgab⟩ := hab
  simp only [Function.comp]
  by_cases hau : a.id = u.id
  · have hae : a = u := List.inj_on_of_nodup_map hids ha hmem hau
    subst hae
    have hbu : b.id ≠ a.id := fun e => hidab e.symm
    rw [hother b hbu]
    rcases hfresh with hsame | hnew
    · rw [hsame]
      exact hgab
    · exact fun e => hnew b hb hbu e.symm
  · rw [hother a hau]
    by_cases hbu : b.id = u.id
    · have hbe : b = u := List.inj_on_of_nodup_map hids hb hmem hbu
      subst hbe
      rcases hfresh with hsame | hnew
      · rw [hsame]
        exact hgab
      · exact hnew a ha hau
    · rw [hother b hbu]
      exact hgab

/-- An UPDATE that the store accepts keeps both invariants. -/
theorem updateUser_invariants (s s' : Store) (now : Nat) (u : User) (assign : User → User)
    (hid : ∀ v, (assign v).id = v.id)
    (hmem : u ∈ s.users)
    (h : s.updateUser now u assign = .ok s')
    (hk : s.WellKeyed) (hu : s.UniqueUsers) : s'.WellKeyed ∧ s'.UniqueUsers := by
  unfold Store.updateUser at h
  split at h
  · simp only [Except.ok.injEq] at h
    subst h
    exact ⟨hk, hu⟩
  split at h
  · exact absurd h (by simp)
  split at h
  · exact absurd h (by simp)
  rename_i hsame h1 h2
  simp only [Except.ok.injEq] at h
  subst h
  have hstampid : ∀ v : User,
      (if v.id = u.id then { assign v with updated_at := now } else v).id = v.id := by
    intro v
    by_cases hv : v.id = u.id <;> simp [hv, hid]
  have hother : ∀ v : User, v.id ≠ u.id →
      (if v.id = u.id then { assign v with updated_at := now } else v) = v := by
    intro v hv
    simp [hv]
  have hfreshU : ((if u.id = u.id then { assign u with updated_at := now } else u).username
      = u.username) ∨ ∀ v ∈ s.users, v.id ≠ u.id →
        v.username ≠ (if u.id = u.id then { assign u with updated_at := now } else u).username := by
    simp only [if_true]
    by_cases hc : (assign u).username = u.username
    · exact Or.inl hc
    · right
      intro v hv hvid e
      apply h1
      simp only [Bool.and_eq_true, bne_iff_ne, ne_eq, List.any_eq_true, beq_iff_eq]
      exact ⟨hc, v, hv, hvid, e⟩
  have hfreshE : ((if u.id = u.id then { assign u with updated_at := now } else u).email
      = u.email) ∨ ∀ v ∈ s.users, v.id ≠ u.id →
        v.email ≠ (if u.id = u.id then { assign u with updated_at := now } else u).email := by
    simp only [if_true]
    by_cases hc : (assign u).email = u.email
    · exact Or.inl hc
    · right
      intro v hv hvid e
      apply h2
      simp only [Bool.and_eq_true, bne_iff_ne, ne_eq, List.any_eq_true, beq_iff_eq]
      exact ⟨hc, v, hv, hvid, e⟩
  refine ⟨⟨?_, ?_⟩, ⟨?_, ?_⟩⟩
  · have : (s.users.map (fun v =>
        if v.id = u.id then { assign v with updated_at := now } else v)).map User.id
        = s.users.map User.id := by
      rw [List.map_map]
      exact List.map_congr_left (fun v _ => hstampid v)
    simp only [this]
    exact hk.1
  · intro v hv
    simp only [List.mem_map] at hv
    obtain ⟨w, hw, rfl⟩ := hv
    rw [hstampid w]
    exact hk.2 w hw
  · exact nodup_map_stamp User.email s.users u _ hk.1 hu.1 hmem hother hfreshE
  · exact nodup_map_stamp User.username s.users u _ hk.1 hu.2 hmem hother hfreshU

/-- The store refuses an UPDATE that gives the row the email of another row. -/
theorem updateUser_refuses_email (s : Store) (now : Nat) (u : User) (assign : User → User)
    (hchange : (assign u).email ≠ u.email)
    (htaken : ∃ v ∈ s.users, v.id ≠ u.id ∧ v.email = (assign u).email) :
    ∃ e, s.updateUser now u assign = .error e := by
  have hne : assign u ≠ u := fun h => hchange (by rw [h])
  have hany : s.users.any (fun v => v.id != u.id && v.email == (assign u).email) = true := by
    obtain ⟨v, hv, hvid, hve⟩ := htaken
    simp only [List.any_eq_true, Bool.and_eq_true, bne_iff_ne, ne_eq, beq_iff_eq]
    exact ⟨v, hv, hvid, hve⟩
  unfold Store.updateUser
  simp only [hne, if_false, hany, Bool.and_true]
  split
  · exact ⟨_, rfl⟩
  · have : ((assign u).email != u.email) = true := by simp [hchange]
    simp only [this, if_true]
    exact ⟨_, rfl⟩

/-- The store refuses an UPDATE that gives the row the username of another row. -/
theorem updateUser_refuses_username (s : Store) (now : Nat) (u : User) (assign : User → User)
    (hchange : (assign u).username ≠ u.username)
    (htaken : ∃ v ∈ s.users, v.id ≠ u.id ∧ v.username = (assign u).username) :
    ∃ e, s.updateUser now u assign = .error e := by
  have hne : assign u ≠ u := fun h => hchange (by rw [h])
  have hany : s.users.any (fun v => v.id != u.id && v.username == (assign u).username)
      = true := by
    obtain ⟨v, hv, hvid, hve⟩ := htaken
    simp only [List.any_eq_true, Bool.and_eq_true, bne_iff_ne, ne_eq, beq_iff_eq]
    exact ⟨v, hv, hvid, hve⟩
  have : ((assign u).username != u.username) = true := by simp [hchange]
  unfold Store.updateUser
  simp only [hne, if_false, hany, Bool.and_true, this, if_true]
  exact ⟨_, rfl⟩

/-- The store `register` leaves: the old one, or the result of an accepted INSERT. -/
theorem register_store (env : Env) (req : RegisterRequest) (s : Store) :
    (register env req s).2 = s ∨
    ∃ v row, s.createUser env.now v = .ok (row, (register env req s).2) := by
  unfold register
  split
  · exact Or.inl rfl
  simp only []
  split
  · exact Or.inl rfl
  split
  · exact Or.inl rfl
  · rename_i newUser s' hc
    right
    cases (sendVerificationEmail env req.email env.uuidv4 3).result <;>
      exact ⟨_, newUser, hc⟩

/-- The store `createUser` leaves: the old one, or the result of an accepted INSERT. -/
theorem createUser_store (env : Env) (req : CreateUserRequest) (s : Store) :
    (createUser env req s).2 = s ∨
    ∃ v row, s.createUser env.now v = .ok (row, (createUser env req s).2) := by
  unfold createUser
  split
  · exact Or.inl rfl
  split
  · exact Or.inl rfl
  simp only []
  split
  · exact Or.inl rfl
  · rename_i user s' hc
    right
    exact ⟨_, user, hc⟩

/-- The store `updateUser` leaves: the old one, or the result of an accepted
UPDATE of the row the request names. -/
theorem updateUser_store (env : Env) (req : UpdateUserRequest) (s : Store) :
    (updateUser env req s).2 = s ∨
    ∃ u, s.findUserByPk req.id = some u ∧
      s.updateUser env.now u (userUpdatesOf req).assign = .ok (updateUser env req s).2 := by
  unfold updateUser
  split
  · exact Or.inl rfl
  split
  · exact Or.inl rfl
  rename_i user hf
  split
  · exact Or.inl rfl
  split
  · exact Or.inl rfl
  simp only []
  split
  · exact Or.inl rfl
  split
  · exact Or.inl rfl
  · rename_i s' hc
    right
    exact ⟨user, hf, hc⟩

/-- The handler `register` rejects a request whose email or username
belongs to a user of the store. -/
theorem register_rejects (env : Env) (req : RegisterRequest) (s : Store)
    (htaken : ∃ v ∈ s.users, v.email = req.email ∨ v.username = req.username) :
    (register env req s).2 = s ∧ (register env req s).1.succeeded = false := by
  have hfind : s.findUserByEmailOrUsername req.email req.username ≠ none := by
    intro hnone
    simp only [Store.findUserByEmailOrUsername, List.find?_eq_none] at hnone
    obtain ⟨v, hv, hor⟩ := htaken
    apply hnone v hv
    simpa using hor
  unfold register
  split
  · exact ⟨rfl, succeeded_validationFailed _⟩
  simp only []
  split
  · exact ⟨rfl, succeeded_failure _ _⟩
  · rename_i hnone
    exact absurd hnone hfind

/-- The handler `createUser` rejects a request whose email or username
belongs to a user of the store. -/
theorem createUser_rejects (env : Env) (req : CreateUserRequest) (s : Store)
    (htaken : ∃ v ∈ s.users, v.email = req.email ∨ v.username = req.username) :
    (createUser env req s).2 = s ∧ (createUser env req s).1.succeeded = false := by
  have hfind : s.findUserByEmailOrUsername req.email req.username ≠ none := by
    intro hnone
    simp only [Store.findUserByEmailOrUsername, List.find?_eq_none] at hnone
    obtain ⟨v, hv, hor⟩ := htaken
    apply hnone v hv
    simpa using hor
  unfold createUser
  split
  · exact ⟨rfl, succeeded_validationFailed _⟩
  split
  · exact ⟨rfl, succeeded_failure _ _⟩
  · rename_i hnone
    exact absurd hnone hfind

/-- The handler `updateUser` rejects a request whose email or username
belongs to another user: by its own check (400), or, for a value its check
skips, because the store refuses the UPDATE (500). -/
theorem updateUser_rejects (env : Env) (req : UpdateUserRequest) (s : Store)
    (hu : s.UniqueUsers)
    (htaken : ∃ v ∈ s.users, v.id ≠ req.id ∧
      (some v.email = req.email ∨ some v.username = req.username)) :
    (updateUser env req s).2 = s ∧ (updateUser env req s).1.succeeded = false := by
  unfold updateUser
  split
  · exact ⟨rfl, succeeded_validationFailed _⟩
  split
  · exact ⟨rfl, succeeded_failure _ _⟩
  rename_i user hf
  have hid : user.id = req.id := id_of_findUserByPk hf
  have hmem : user ∈ s.users := List.mem_of_find?_eq_some hf
  split
  · exact ⟨rfl, succeeded_failure _ _⟩
  rename_i hE
  split
  · exact ⟨rfl, succeeded_failure _ _⟩
  rename_i hU
  simp only []
  split
  · exact ⟨rfl, succeeded_failure _ _⟩
  -- the handler's checks passed: the store refuses
  have hrefuse : ∃ e, s.updateUser env.now user (userUpdatesOf req).assign = .error e := by
    obtain ⟨v, hv, hvid, hor⟩ := htaken
    have hvu : v.id ≠ user.id := by rw [hid]; exact hvid
    have hne : v ≠ user := fun e => hvu (by rw [e])
    rcases hor with he | hn
    · -- the email of `v`
      have hany : s.users.any (fun w => some w.email == req.email && w.id != req.id) = true := by
        simp only [List.any_eq_true, Bool.and_eq_true, beq_iff_eq, bne_iff_ne, ne_eq]
        exact ⟨v, hv, he, hvid⟩
      have hvne : v.email ≠ user.email := fun e =>
        hne (List.inj_on_of_nodup_map hu.1 hv hmem e)
      have hreq : req.email ≠ some user.email := by
        rw [← he]
        exact fun e => hvne (Option.some.inj e)
      have hassign : ((userUpdatesOf req).assign user).email = v.email := by
        simp [userUpdatesOf, UserUpdates.assign, ← he]
      apply updateUser_refuses_email
      · rw [hassign]
        exact hvne
      · exact ⟨v, hv, hvu, hassign.symm⟩
    · have hvne : v.username ≠ user.username := fun e =>
        hne (List.inj_on_of_nodup_map hu.2 hv hmem e)
      have hassign : ((userUpdatesOf req).assign user).username = v.username := by
        simp [userUpdatesOf, UserUpdates.assign, ← hn]
      apply updateUser_refuses_username
      · rw [hassign]
        exact hvne
      · exact ⟨v, hv, hvu, hassign.symm⟩
  obtain ⟨e, he⟩ := hrefuse
  rw [he]
  exact ⟨rfl, succeeded_failure _ _⟩

/-- C10: uniqueness of username and of email is an invariant of the user
store. On a store whose rows have distinct primary keys below the
auto-increment counter, if no two users share an email or a username before
`register`, `createUser` or `updateUser` handles a request, none do afterwards
(and the primary keys stay distinct); and each handler rejects a request
whose email or username belongs to another user: the store is left unchanged
and the response is not a success. -/
theorem C10_uniqueness_invariant (env : Env) (rreq : RegisterRequest) (creq : CreateUserRequest)
    (ureq : UpdateUserRequest) (s : Store)
    (hk : s.WellKeyed) (hu : s.UniqueUsers) :
    ((register env rreq s).2.UniqueUsers ∧ (createUser env creq s).2.UniqueUsers ∧
      (updateUser env ureq s).2.UniqueUsers) ∧
    ((register env rreq s).2.WellKeyed ∧ (createUser env creq s).2.WellKeyed ∧
      (updateUser env ureq s).2.WellKeyed) ∧
    ((∃ v ∈ s.users, v.email = rreq.email ∨ v.username = rreq.username) →
      (register env rreq s).2 = s ∧ (register env rreq s).1.succeeded = false) ∧
    ((∃ v ∈ s.users, v.email = creq.email ∨ v.username = creq.username) →
      (createUser env creq s).2 = s ∧ (createUser env creq s).1.succeeded = false) ∧
    ((∃ v ∈ s.users, v.id ≠ ureq.id ∧
        (some v.email = ureq.email ∨ some v.username = ureq.username)) →
      (updateUser env ureq s).2 = s ∧ (updateUser env ureq s).1.succeeded = false) := by
  have hr : (register env rreq s).2.WellKeyed ∧ (register env rreq s).2.UniqueUsers := by
    rcases register_store env rreq s with h | ⟨v, row, h⟩
    · rw [h]
      exact ⟨hk, hu⟩
    · exact createUser_invariants s _ env.now v row h hk hu
  have hc : (createUser env creq s).2.WellKeyed ∧ (createUser env creq s).2.UniqueUsers := by
    rcases createUser_store env creq s with h | ⟨v, row, h⟩
    · rw [h]
      exact ⟨hk, hu⟩
    · exact createUser_invariants s _ env.now v row h hk hu
  have hup : (updateUser env ureq s).2.WellKeyed ∧ (updateUser env ureq s).2.UniqueUsers := by
    rcases updateUser_store env ureq s with h | ⟨u, hf, h⟩
    · rw [h]
      exact ⟨hk, hu⟩
    · exact updateUser_invariants s _ env.now u (userUpdatesOf ureq).assign (fun _ => rfl)
        (List.mem_of_find?_eq_some hf) h hk hu
  exact ⟨⟨hr.2, hc.2, hup.2⟩, ⟨hr.1, hc.1, hup.1⟩, register_rejects env rreq s,
    createUser_rejects env creq s, updateUser_rejects env ureq s hu⟩

/-- Witness for C10: on `adminAndJane`, Jane (user 2) asks for the
administrator's email and is refused. -/
theorem C10_uniqueness_invariant_witness :
    adminAndJane.WellKeyed ∧ adminAndJane.UniqueUsers ∧
    (updateUser demoEnv takenEmailUpdate adminAndJane).2.UniqueUsers ∧
    (register demoEnv janeRegistration adminAndJane).2 = adminAndJane :=
  ⟨⟨by decide, by decide⟩, ⟨by decide, by decide⟩,
    (C10_uniqueness_invariant demoEnv janeRegistration
      ⟨[], "John Doe", "johnd", "john@x.com", "secret2", none, none, none, none⟩
      takenEmailUpdate adminAndJane ⟨by decide, by decide⟩ ⟨by decide, by decide⟩).1.2.2,
    ((C10_uniqueness_invariant demoEnv janeRegistration
      ⟨[], "John Doe", "johnd", "john@x.com", "secret2", none, none, none, none⟩
      takenEmailUpdate adminAndJane ⟨by decide, by decide⟩ ⟨by decide, by decide⟩).2.2.1
      (by decide)).1⟩

/-! ### C11 -/

/-- What `verifyToken` answers when `jwt.verify` throws: the same response
whatever the error says. -/
theorem verifyToken_of_verify_error (env : Env) (auth : Option String) (s : Store)
    (detail : String)
    (htoken : truthy (bearerToken auth) = true)
    (hthrow : env.jwtVerify ((bearerToken auth).getD "") env.JWT_SECRET = .error detail) :
    verifyToken env auth s = failure 401 "Token tidak valid" := by
  unfold verifyToken
  simp only [htoken, hthrow, Bool.not_true, Bool.false_eq_true, if_false]

/-- What `verifyToken` answers when the header carries no token. -/
theorem verifyToken_of_missing (env : Env) (auth : Option String) (s : Store)
    (htoken : truthy (bearerToken auth) = false) :
    verifyToken env auth s = failure 401 "Token tidak ditemukan" := by
  unfold verifyToken
  simp only [htoken, Bool.not_false, if_true]

/-- C11 as stated fails: a request without a token and a request with a
token that `jwt.verify` rejects are both answered 401, but with different
messages. -/
theorem C11_counterexample :
    truthy (bearerToken none) = false ∧
    (verifyToken tokenEnv none janeStore).status = 401 ∧
    (verifyToken tokenEnv none janeStore).body.get? "message"
      = some (.str "Token tidak ditemukan") ∧
    truthy (bearerToken (some "Bearer not-a-token")) = true ∧
    tokenEnv.jwtVerify "not-a-token" tokenEnv.JWT_SECRET = .error "jwt malformed" ∧
    (verifyToken tokenEnv (some "Bearer not-a-token") janeStore).status = 401 ∧
    (verifyToken tokenEnv (some "Bearer not-a-token") janeStore).body.get? "message"
      = some (.str "Token tidak valid") := by
  refine ⟨by decide, by decide, ?_, by decide, ?_, by decide, ?_⟩
  · rfl
  · rfl
  · rfl

/-- C11 (amended): `verifyToken` answers every failure to validate the bearer
token with status 401. When a token is present and `jwt.verify` throws, for a
malformed, a wrongly signed or an expired token alike, the response is the
fixed "Token tidak valid" and does not depend on the error; when the token is
missing the response is the fixed "Token tidak ditemukan". -/
theorem C11_verifyToken_failures (env : Env) (auth auth' : Option String) (s s' : Store)
    (detail detail' : String)
    (htoken : truthy (bearerToken auth) = true)
    (hthrow : env.jwtVerify ((bearerToken auth).getD "") env.JWT_SECRET = .error detail)
    (htoken' : truthy (bearerToken auth') = true)
    (hthrow' : env.jwtVerify ((bearerToken auth').getD "") env.JWT_SECRET = .error detail') :
    verifyToken env auth s = verifyToken env auth' s' ∧
    verifyToken env auth s = failure 401 "Token tidak valid" ∧
    (verifyToken env auth s).status = 401 ∧
    (∀ (missing : Option String) (t : Store), truthy (bearerToken missing) = false →
      verifyToken env missing t = failure 401 "Token tidak ditemukan" ∧
      (verifyToken env missing t).status = 401) := by
  have h1 := verifyToken_of_verify_error env auth s detail htoken hthrow
  have h2 := verifyToken_of_verify_error env auth' s' detail' htoken' hthrow'
  refine ⟨h1.trans h2.symm, h1, by rw [h1]; rfl, ?_⟩
  intro missing t hm
  have h3 := verifyToken_of_missing env missing t hm
  exact ⟨h3, by rw [h3]; rfl⟩

/-- Witness for C11: a malformed token and a token with an unknown shape. -/
theorem C11_verifyToken_failures_witness :
    truthy (bearerToken (some "Bearer not-a-token")) = true ∧
    tokenEnv.jwtVerify ((bearerToken (some "Bearer not-a-token")).getD "") tokenEnv.JWT_SECRET
      = .error "jwt malformed" ∧
    truthy (bearerToken (some "Bearer jwt|x5")) = true ∧
    tokenEnv.jwtVerify ((bearerToken (some "Bearer jwt|x5")).getD "") tokenEnv.JWT_SECRET
      = .error "jwt malformed" ∧
    verifyToken tokenEnv (some "Bearer not-a-token") janeStore
      = verifyToken tokenEnv (some "Bearer jwt|x5") (demoStore []) :=
  ⟨by decide, rfl, by decide, rfl,
    (C11_verifyToken_failures tokenEnv (some "Bearer not-a-token") (some "Bearer jwt|x5")
      janeStore (demoStore []) "jwt malformed" "jwt malformed"
      (by decide) rfl (by decide) rfl).1⟩

/-! ### C12 -/

/-- What `verifyToken` answers for a token that validates: the record that
`findByPk(decoded.userId)` returns, or 401 when there is none. -/
theorem verifyToken_of_valid (env : Env) (auth : Option String) (s : Store) (decoded : Json)
    (htoken : truthy (bearerToken auth) = true)
    (hvalid : env.jwtVerify ((bearerToken auth).getD "") env.JWT_SECRET = .ok decoded) :
    verifyToken env auth s =
      match (pkOfJson (decoded.get? "userId")).bind s.findUserByPk with
      | none => failure 401 "User tidak ditemukan"
      | some user => success 200 "Token valid" (authUserData user) := by
  unfold verifyToken
  simp only [htoken, hvalid, Bool.not_true, Bool.false_eq_true, if_false]

/-- C12: when the bearer token validates, `verifyToken` answers with the
fields (id, fullname, username, email, role, avatar) of the record that the
store holds now under the token's user id, whatever the other claims of the
token say; when the store holds no record under that id it answers 401. -/
theorem C12_verifyToken_reads_store (env : Env) (auth : Option String) (s : Store)
    (decoded : Json)
    (htoken : truthy (bearerToken auth) = true)
    (hvalid : env.jwtVerify ((bearerToken auth).getD "") env.JWT_SECRET = .ok decoded) :
    (∀ u, (pkOfJson (decoded.get? "userId")).bind s.findUserByPk = some u →
      verifyToken env auth s = success 200 "Token valid"
        (.obj [("id", .num u.id), ("fullname", .str u.name), ("username", .str u.username),
               ("email", .str u.email), ("role", Json.ofOptRole u.role),
               ("avatar", Json.ofOptStr u.avatar)])) ∧
    ((pkOfJson (decoded.get? "userId")).bind s.findUserByPk = none →
      verifyToken env auth s = failure 401 "User tidak ditemukan" ∧
      (verifyToken env auth s).status = 401) ∧
    (∀ (env' : Env) (auth' : Option String) (decoded' : Json),
      truthy (bearerToken auth') = true →
      env'.jwtVerify ((bearerToken auth').getD "") env'.JWT_SECRET = .ok decoded' →
      decoded'.get? "userId" = decoded.get? "userId" →
      verifyToken env' auth' s = verifyToken env auth s) := by
  have h := verifyToken_of_valid env auth s decoded htoken hvalid
  refine ⟨?_, ?_, ?_⟩
  · intro u hu
    rw [h, hu]
    rfl
  · intro hnone
    rw [h, hnone]
    exact ⟨rfl, rfl⟩
  · intro env' auth' decoded' ht' hv' hid
    rw [h, verifyToken_of_valid env' auth' s decoded' ht' hv', hid]

/-- Witness for C12: a token issued to Jane as a student, presented after her
promotion, is answered with the role the store holds now. -/
theorem C12_verifyToken_reads_store_witness :
    truthy (bearerToken (some "Bearer jwt|n1|jane@x.com|student")) = true ∧
    tokenEnv.jwtVerify ((bearerToken (some "Bearer jwt|n1|jane@x.com|student")).getD "")
        tokenEnv.JWT_SECRET
      = .ok (.obj [("userId", .num 1), ("email", .str "jane@x.com"),
                   ("role", .str "student")]) ∧
    verifyToken tokenEnv (some "Bearer jwt|n1|jane@x.com|student") janePromotedStore
      = success 200 "Token valid"
          (.obj [("id", .num 1), ("fullname", .str "Jane Doe"), ("username", .str "janed"),
                 ("email", .str "jane@x.com"), ("role", .str "admin"),
                 ("avatar", .null)]) :=
  ⟨by decide, rfl,
    (C12_verifyToken_reads_store tokenEnv (some "Bearer jwt|n1|jane@x.com|student")
      janePromotedStore
      (.obj [("userId", .num 1), ("email", .str "jane@x.com"), ("role", .str "student")])
      (by decide) rfl).1 { janeRow with role := some .admin } rfl⟩

/-! ### C16 -/

theorem sendLoop_zero (send : Nat → Bool) (m a : Nat) :
    sendLoop send m 0 a = { result := .returned none, attempts := 0, delays := [] } := rfl

theorem sendLoop_succ (send : Nat → Bool) (m left a : Nat) :
    sendLoop send m (left + 1) a =
      if send a then { result := .returned (some true), attempts := 1, delays := [] }
      else if a = m then { result := .threw, attempts := 1, delays := [] }
      else
        { result := (sendLoop send m left (a + 1)).result,
          attempts := (sendLoop send m left (a + 1)).attempts + 1,
          delays := (1000 * a) :: (sendLoop send m left (a + 1)).delays } := rfl

/-- The loop calls `sendMail` at most once per iteration it has left, and at
least once when it has an iteration left. -/
theorem sendLoop_attempts (send : Nat → Bool) (m : Nat) :
    ∀ left a, (sendLoop send m left a).attempts ≤ left ∧
      (0 < left → 0 < (sendLoop send m left a).attempts) := by
  intro left
  induction left with
  | zero => intro a; simp [sendLoop_zero]
  | succ left ih =>
    intro a
    rw [sendLoop_succ]
    split
    · simp
    split
    · simp
    · have := (ih (a + 1)).1
      simp only [Nat.add_le_add_iff_right, Nat.succ_pos, implies_true, and_true]
      exact this

/-- Every attempt but the last one made has failed. -/
theorem sendLoop_earlier_failed (send : Nat → Bool) (m : Nat) :
    ∀ left a j, j + 1 < (sendLoop send m left a).attempts → send (a + j) = false := by
  intro left
  induction left with
  | zero => intro a j h; simp [sendLoop_zero] at h
  | succ left ih =>
    intro a j h
    rw [sendLoop_succ] at h
    split at h
    · simp at h
    split at h
    · simp at h
    · rename_i hs _
      simp only [Nat.add_lt_add_iff_right] at h
      cases j with
      | zero => simpa using hs
      | succ j =>
        have := ih (a + 1) j h
        rw [show a + (j + 1) = a + 1 + j by omega]
        exact this

/-- The delays waited: after the failed attempt `a + i`, `1000 * (a + i)` ms. -/
theorem sendLoop_delays (send : Nat → Bool) (m : Nat) :
    ∀ left a, a + left = m + 1 → (sendLoop send m left a).delays
      = (List.range ((sendLoop send m left a).attempts - 1)).map (fun i => 1000 * (a + i)) := by
  intro left
  induction left with
  | zero => intro a _; simp [sendLoop_zero]
  | succ left ih =>
    intro a hinv
    rw [sendLoop_succ]
    split
    · simp
    split
    · simp
    · rename_i hs ha
      simp only [Nat.add_sub_cancel]
      cases left with
      | zero => exact absurd (by omega) ha
      | succ left =>
        have hpos := (sendLoop_attempts send m (left + 1) (a + 1)).2 (Nat.succ_pos _)
        obtain ⟨n, hn⟩ : ∃ n, (sendLoop send m (left + 1) (a + 1)).attempts = n + 1 :=
          ⟨_, (Nat.succ_pred_eq_of_pos hpos).symm⟩
        rw [ih (a + 1) (by omega), hn, List.range_succ_eq_map]
        simp only [Nat.add_sub_cancel, List.map_cons, List.map_map, Nat.add_zero,
          List.cons.injEq, true_and]
        apply List.map_congr_left
        intro i _
        simp only [Function.comp]
        congr 1
        omega

theorem sendLoop_sent (send : Nat → Bool) (m left a : Nat) (hs : send a = true) :
    sendLoop send m (left + 1) a
      = { result := .returned (some true), attempts := 1, delays := [] } := by
  rw [sendLoop_succ, if_pos hs]

theorem sendLoop_exhausted (send : Nat → Bool) (m left : Nat) (hs : send m = false) :
    sendLoop send m (left + 1) m = { result := .threw, attempts := 1, delays := [] } := by
  rw [sendLoop_succ, if_neg (by simp [hs]), if_pos rfl]

theorem sendLoop_retry (send : Nat → Bool) (m left a : Nat) (hs : send a = false)
    (ha : a ≠ m) :
    sendLoop send m (left + 1) a =
      { result := (sendLoop send m left (a + 1)).result,
        attempts := (sendLoop send m left (a + 1)).attempts + 1,
        delays := (1000 * a) :: (sendLoop send m left (a + 1)).delays } := by
  rw [sendLoop_succ, if_neg (by simp [hs]), if_neg ha]

/-- How the loop ends, from attempt `a` with `a + left = m + 1`. -/
theorem sendLoop_result (send : Nat → Bool) (m : Nat) :
    ∀ left a, a + left = m + 1 →
      ((sendLoop send m left a).result = .threw ↔
        0 < left ∧ ∀ k, a ≤ k → k ≤ m → send k = false) ∧
      ((sendLoop send m left a).result = .threw → (sendLoop send m left a).attempts = left) ∧
      ((sendLoop send m left a).result = .returned (some true) ↔
        ∃ k, a ≤ k ∧ k ≤ m ∧ send k = true) ∧
      ((sendLoop send m left a).result = .returned (some true) →
        send (a + ((sendLoop send m left a).attempts - 1)) = true) ∧
      ((sendLoop send m left a).result = .returned none ↔ left = 0) := by
  intro left
  induction left with
  | zero =>
    intro a hinv
    rw [sendLoop_zero]
    refine ⟨?_, ?_, ?_, ?_, ?_⟩
    · simp
    · simp
    · constructor
      · intro h
        simp at h
      · rintro ⟨k, hk1, hk2, -⟩
        omega
    · intro h
      simp at h
    · simp
  | succ left ih =>
    intro a hinv
    obtain ⟨ih1, ih2, ih3, ih4, ih5⟩ := ih (a + 1) (by omega)
    have ham : a ≤ m := by omega
    by_cases hs : send a = true
    · rw [sendLoop_sent send m left a hs]
      refine ⟨?_, ?_, ?_, ?_, ?_⟩
      · constructor
        · intro h
          simp at h
        · rintro ⟨-, h⟩
          have := h a (le_refl _) ham
          simp [hs] at this
      · intro h
        simp at h
      · exact ⟨fun _ => ⟨a, le_refl _, ham, hs⟩, fun _ => rfl⟩
      · intro _
        simpa using hs
      · simp
    · have hs' : send a = false := by simpa using hs
      by_cases ha : a = m
      · subst ha
        rw [sendLoop_exhausted send a left hs']
        have hleft : left = 0 := by omega
        refine ⟨?_, ?_, ?_, ?_, ?_⟩
        · refine ⟨fun _ => ⟨Nat.succ_pos _, ?_⟩, fun _ => rfl⟩
          intro k hk1 hk2
          have : k = a := by omega
          rw [this]
          exact hs'
        · intro _
          simp [hleft]
        · constructor
          · intro h
            simp at h
          · rintro ⟨k, hk1, hk2, hk3⟩
            have : k = a := by omega
            rw [this, hs'] at hk3
            simp at hk3
        · intro h
          simp at h
        · simp
      · rw [sendLoop_retry send m left a hs' ha]
        have hleftpos : 0 < left := by omega
        refine ⟨?_, ?_, ?_, ?_, ?_⟩
        · show (sendLoop send m left (a + 1)).result = .threw ↔ _
          rw [ih1]
          constructor
          · rintro ⟨-, h⟩
            refine ⟨Nat.succ_pos _, ?_⟩
            intro k hk1 hk2
            by_cases hka : k = a
            · rw [hka]
              exact hs'
            · exact h k (by omega) hk2
          · rintro ⟨-, h⟩
            exact ⟨hleftpos, fun k hk1 hk2 => h k (by omega) hk2⟩
        · intro h
          show (sendLoop send m left (a + 1)).attempts + 1 = left + 1
          rw [ih2 h]
        · show (sendLoop send m left (a + 1)).result = .returned (some true) ↔ _
          rw [ih3]
          constructor
          · rintro ⟨k, hk1, hk2, hk3⟩
            exact ⟨k, by omega, hk2, hk3⟩
          · rintro ⟨k, hk1, hk2, hk3⟩
            have hka : k ≠ a := by
              intro e
              rw [e, hs'] at hk3
              simp at hk3
            exact ⟨k, by omega, hk2, hk3⟩
        · intro h
          have h4 := ih4 h
          have hpos := (sendLoop_attempts send m left (a + 1)).2 hleftpos
          show send (a + ((sendLoop send m left (a + 1)).attempts + 1 - 1)) = true
          rw [show a + ((sendLoop send m left (a + 1)).attempts + 1 - 1)
            = a + 1 + ((sendLoop send m left (a + 1)).attempts - 1) by omega]
          exact h4
        · show (sendLoop send m left (a + 1)).result = .returned none ↔ _
          rw [ih5]
          constructor
          · intro h
            omega
          · intro h
            simp at h

/-- When `sendVerificationEmail` throws. -/
theorem sendVerificationEmail_threw_iff (env : Env) (recipient token : String) (maxRetries : Nat) :
    (sendVerificationEmail env recipient token maxRetries).result = .threw ↔
      0 < maxRetries ∧ ∀ k, 1 ≤ k → k ≤ maxRetries → env.sendMail k = false :=
  (sendLoop_result env.sendMail maxRetries maxRetries 1 (Nat.add_comm 1 maxRetries)).1

/-- C16: `sendVerificationEmail` calls `sendMail` at most `maxRetries` times
(3 at the call in `register`, the default). It returns `true` exactly when
some attempt among `1..maxRetries` succeeds, and then the attempts made are
those up to the first success and no more. After each failed attempt `i` that
is followed by another it waits `1000 * i` ms: the delays are 1000, 2000, ...
in order. It throws exactly when all `maxRetries` attempts (at least one) have
failed, having made them all; with `maxRetries = 0` it makes no attempt and
returns `undefined`. -/
theorem C16_sendVerificationEmail_retries (env : Env) (recipient token : String) (maxRetries : Nat) :
    (sendVerificationEmail env recipient token maxRetries).attempts ≤ maxRetries ∧
    ((sendVerificationEmail env recipient token maxRetries).result = .returned (some true) ↔
      ∃ k, 1 ≤ k ∧ k ≤ maxRetries ∧ env.sendMail k = true) ∧
    ((sendVerificationEmail env recipient token maxRetries).result = .returned (some true) →
      env.sendMail (sendVerificationEmail env recipient token maxRetries).attempts = true ∧
      ∀ j, 1 ≤ j → j < (sendVerificationEmail env recipient token maxRetries).attempts →
        env.sendMail j = false) ∧
    (sendVerificationEmail env recipient token maxRetries).delays
      = (List.range ((sendVerificationEmail env recipient token maxRetries).attempts - 1)).map
          (fun i => 1000 * (i + 1)) ∧
    ((sendVerificationEmail env recipient token maxRetries).result = .threw ↔
      0 < maxRetries ∧ ∀ k, 1 ≤ k → k ≤ maxRetries → env.sendMail k = false) ∧
    ((sendVerificationEmail env recipient token maxRetries).result = .threw →
      (sendVerificationEmail env recipient token maxRetries).attempts = maxRetries) ∧
    ((sendVerificationEmail env recipient token maxRetries).result = .returned none ↔
      maxRetries = 0) := by
  unfold sendVerificationEmail
  obtain ⟨h1, h2, h3, h4, h5⟩ :=
    sendLoop_result env.sendMail maxRetries maxRetries 1 (Nat.add_comm 1 maxRetries)
  have hatt := sendLoop_attempts env.sendMail maxRetries maxRetries 1
  refine ⟨hatt.1, h3, ?_, ?_, h1, h2, h5⟩
  · intro h
    have hlast := h4 h
    have hpos : 0 < (sendLoop env.sendMail maxRetries maxRetries 1).attempts := by
      rcases Nat.eq_zero_or_pos maxRetries with h0 | h0
      · have := h5.mpr h0
        rw [this] at h
        simp at h
      · exact hatt.2 h0
    constructor
    · rw [show (sendLoop env.sendMail maxRetries maxRetries 1).attempts
        = 1 + ((sendLoop env.sendMail maxRetries maxRetries 1).attempts - 1) by omega]
      exact hlast
    · intro j hj1 hj2
      have := sendLoop_earlier_failed env.sendMail maxRetries maxRetries 1 (j - 1) (by omega)
      rw [show 1 + (j - 1) = j by omega] at this
      exact this
  · rw [sendLoop_delays env.sendMail maxRetries maxRetries 1 (Nat.add_comm 1 maxRetries)]
    apply List.map_congr_left
    intro i _
    congr 1
    omega

/-! ### C17 -/

/-- The handler `register` is `registerTraced` without the trace. -/
theorem register_eq_registerTraced (env : Env) (req : RegisterRequest) (s : Store) :
    register env req s = ((registerTraced env req s).1, (registerTraced env req s).2.1) := by
  unfold register registerTraced
  cases hv : req.errors.isEmpty
  · rfl
  simp only [Bool.not_true, Bool.false_eq_true, if_false]
  cases hf : s.findUserByEmailOrUsername req.email req.username with
  | some u => rfl
  | none =>
    simp only []
    generalize s.createUser env.now _ = r
    rcases r with _ | ⟨newUser, s'⟩
    · rfl
    · simp only []
      cases (sendVerificationEmail env req.email env.uuidv4 3).result <;> rfl

/-- The response and the store that `register` leaves do not depend on the
mail transport. -/
theorem register_sendMail (env : Env) (sendMail : Nat → Bool) (req : RegisterRequest)
    (s : Store) : register { env with sendMail := sendMail } req s = register env req s := by
  unfold register
  cases hv : req.errors.isEmpty
  · rfl
  simp only [Bool.not_true, Bool.false_eq_true, if_false]
  cases hf : s.findUserByEmailOrUsername req.email req.username with
  | some u => rfl
  | none =>
    simp only []
    have hsalt : saltRounds { env with sendMail := sendMail } = saltRounds env := rfl
    rw [hsalt]
    generalize s.createUser env.now _ = r
    rcases r with _ | ⟨newUser, s'⟩
    · rfl
    · simp only []
      cases (sendVerificationEmail env req.email env.uuidv4 3).result <;>
        cases (sendVerificationEmail { env with sendMail := sendMail } req.email
          env.uuidv4 3).result <;> rfl

/-- C17: for a validated register request with unused email and username,
`register` persists the user and answers 201 with the same body and the same
store whatever the mail transport does: whether `sendVerificationEmail`
returns or, every attempt failing, throws. -/
theorem C17_register_swallows_mail_failure (env : Env) (sendMail : Nat → Bool)
    (req : RegisterRequest) (s : Store)
    (hvalid : req.errors = [])
    (hemail : ∀ u ∈ s.users, u.email ≠ req.email)
    (husername : ∀ u ∈ s.users, u.username ≠ req.username) :
    register { env with sendMail := sendMail } req s = register env req s ∧
    (register env req s).1.status = 201 ∧
    (register env req s).1.succeeded = true ∧
    (∃ newUser, (register env req s).2.users = s.users ++ [newUser] ∧
      newUser.email = req.email ∧ newUser.username = req.username) ∧
    (registerTraced env req s).2.2 = some (sendVerificationEmail env req.email env.uuidv4 3) ∧
    ((∀ k, env.sendMail k = false) →
      (sendVerificationEmail env req.email env.uuidv4 3).result = .threw) := by
  obtain ⟨row, -, -, hu, he, -, -, -, hreg⟩ := register_fresh env req s hvalid hemail husername
  refine ⟨register_sendMail env sendMail req s, ?_, ?_, ⟨row, ?_, he, hu⟩, ?_, ?_⟩
  · rw [hreg]
    rfl
  · rw [hreg]
    simp [success, Response.succeeded, Json.get?]
  · rw [hreg]
  · have hfind : s.findUserByEmailOrUsername req.email req.username = none := by
      simp only [Store.findUserByEmailOrUsername, List.find?_eq_none]
      intro u hu'
      simp [hemail u hu', husername u hu']
    have h1 : s.users.any (fun u => u.username == req.username) = false := by
      simp only [List.any_eq_false]
      intro u hu'
      simp [husername u hu']
    have h2 : s.users.any (fun u => u.email == req.email) = false := by
      simp only [List.any_eq_false]
      intro u hu'
      simp [hemail u hu']
    unfold registerTraced
    simp only [hvalid, hfind, Store.createUser, h1, h2, List.isEmpty_nil, Bool.not_true,
      Bool.false_eq_true, if_false]
    split <;> rfl
  · intro hdown
    exact (sendVerificationEmail_threw_iff env req.email env.uuidv4 3).mpr ⟨by decide, fun k _ _ => hdown k⟩

/-- Witness for C17: Jane registers while the mail transport is down, and
while it works. -/
theorem C17_register_swallows_mail_failure_witness :
    janeRegistration.errors = [] ∧
    (∀ u ∈ (demoStore [otherAdminRow]).users, u.email ≠ janeRegistration.email) ∧
    (∀ u ∈ (demoStore [otherAdminRow]).users, u.username ≠ janeRegistration.username) ∧
    (∀ k, mailDownEnv.sendMail k = false) ∧
    register mailUpEnv janeRegistration (demoStore [otherAdminRow])
      = register mailDownEnv janeRegistration (demoStore [otherAdminRow]) ∧
    (register mailDownEnv janeRegistration (demoStore [otherAdminRow])).1.status = 201 ∧
    (sendVerificationEmail mailDownEnv janeRegistration.email mailDownEnv.uuidv4 3).result
      = .threw :=
  ⟨by decide, by decide, by decide, fun _ => rfl,
    (C17_register_swallows_mail_failure mailDownEnv (fun _ => true) janeRegistration
      (demoStore [otherAdminRow]) (by decide) (by decide) (by decide)).1,
    (C17_register_swallows_mail_failure mailDownEnv (fun _ => true) janeRegistration
      (demoStore [otherAdminRow]) (by decide) (by decide) (by decide)).2.1,
    (C17_register_swallows_mail_failure mailDownEnv (fun _ => true) janeRegistration
      (demoStore [otherAdminRow]) (by decide) (by decide) (by decide)).2.2.2.2.2
      (fun _ => rfl)⟩

/-! ### C13 -/

instance courseColumnLe_total (column : String) : IsTotal Course (courseColumnLe column) :=
  ⟨by
    intro c d
    unfold courseColumnLe
    split_ifs <;> exact le_total _ _⟩

instance courseColumnLe_trans (column : String) : IsTrans Course (courseColumnLe column) :=
  ⟨by
    intro a b c
    unfold courseColumnLe
    split_ifs <;> exact le_trans⟩

instance courseColumnGe_total (column : String) :
    IsTotal Course (fun a b => courseColumnLe column b a) :=
  ⟨fun c d => (courseColumnLe_total column).total d c⟩

instance courseColumnGe_trans (column : String) :
    IsTrans Course (fun a b => courseColumnLe column b a) :=
  ⟨fun _ _ _ h1 h2 => (courseColumnLe_trans column).trans _ _ _ h2 h1⟩

/-- The rows `ORDER BY` returns are the rows it was given, in the order asked. -/
theorem orderRows_courses (column direction : String) (rows : List Course) :
    (∀ c, c ∈ orderRows (courseColumnLe column) direction rows ↔ c ∈ rows) ∧
    (direction = "ASC" →
      (orderRows (courseColumnLe column) direction rows).Sorted (courseColumnLe column)) ∧
    (direction ≠ "ASC" →
      (orderRows (courseColumnLe column) direction rows).Sorted
        (fun a b => courseColumnLe column b a)) := by
  unfold orderRows
  by_cases h : direction = "ASC"
  · rw [if_pos h]
    exact ⟨fun c => (List.perm_insertionSort _ rows).mem_iff,
      fun _ => List.sorted_insertionSort _ rows, fun hn => absurd h hn⟩
  · rw [if_neg h]
    exact ⟨fun c => (List.perm_insertionSort _ rows).mem_iff,
      fun hn => absurd hn h, fun _ => List.sorted_insertionSort _ rows⟩

/-- A page is a part of the ordered rows, in their order, of at most `LIMIT` rows. -/
theorem limitRows_ok {α : Type} (limit offset : Option (Option Int)) (rows page : List α)
    (h : limitRows limit offset rows = .ok page) :
    page.Sublist rows ∧ (∀ l : Int, limit = some (some l) → (page.length : Int) ≤ l) := by
  unfold limitRows at h
  split at h
  · simp only [Except.ok.injEq] at h
    subst h
    exact ⟨List.Sublist.refl _, fun l hl => by simp at hl⟩
  · split at h
    · simp only [Except.ok.injEq] at h
      subst h
      exact ⟨List.drop_sublist _ _, fun l hl => by simp at hl⟩
    · simp at h
  · rename_i l
    split at h
    · rename_i hl0
      simp only [Except.ok.injEq] at h
      subst h
      refine ⟨List.take_sublist _ _, ?_⟩
      intro l' hl'
      simp only [Option.some.injEq] at hl'
      subst hl'
      have : (List.take l.toNat rows).length ≤ l.toNat := List.length_take_le _ _
      omega
    · simp at h
  · rename_i l o
    split at h
    · rename_i hl0
      simp only [Except.ok.injEq] at h
      subst h
      refine ⟨(List.take_sublist _ _).trans (List.drop_sublist _ _), ?_⟩
      intro l' hl'
      simp only [Option.some.injEq] at hl'
      subst hl'
      have : (List.take l.toNat (List.drop o.toNat rows)).length ≤ l.toNat :=
        List.length_take_le _ _
      omega
    · simp at h
  · simp at h

/-- With a valid `LIMIT` and a valid or absent `OFFSET` the statement is accepted. -/
theorem limitRows_accepts {α : Type} (n : Nat) (offset : Option (Option Int)) (rows : List α)
    (hoffset : ∀ o, offset = some o → ∃ k : Nat, o = some (k : Int)) :
    ∃ page, limitRows (some (some (n : Int))) offset rows = .ok page := by
  cases offset with
  | none => exact ⟨rows.take n, by simp [limitRows]⟩
  | some o =>
    obtain ⟨k, rfl⟩ := hoffset o rfl
    exact ⟨(rows.drop k).take n, by simp [limitRows]⟩

/-- C13 as stated fails: with `sortBy=mentor`, a column outside the allow-list,
`GET /courses?category=Bisnis&sortBy=mentor&sort=ASC&limit=2` returns the two
`Bisnis` courses ordered by `created_at`, mentor Zed before mentor Abe: not in
ascending order of the requested column. -/
theorem C13_counterexample :
    byMentorQuery.errors = [] ∧
    getAllCourses demoEnv byMentorQuery businessStore
      = coursesPage byMentorQuery [zedCourse, abeCourse] 2 ∧
    zedCourse.mentor = "Zed" ∧ abeCourse.mentor = "Abe" ∧
    ¬ [zedCourse, abeCourse].Sorted (fun a b => a.mentor ≤ b.mentor) := by
  refine ⟨rfl, rfl, rfl, rfl, ?_⟩
  have h : ¬ ("Zed" : String) ≤ "Abe" := by
    rw [String.le_iff_toList_le]
    decide
  simpa [List.Sorted, zedCourse, abeCourse] using h

/-- C13 (amended): `getAllCourses`, called with a validated query that has a
category, a sortBy, a sort direction and a limit that parses to `n` (and an
offset that is absent or parses to a natural number), answers 200 with at most
`n` rows, all of them courses of the store with the requested category. The
rows are ordered by sortBy when it is one of `created_at`, `title`, `price`,
`rating`, and by `created_at` otherwise; ascending when the direction is
`ASC` in any letter case, descending otherwise. `pagination.total` is the
number of all courses of the store that match the filter, whatever the page. -/
theorem C13_getAllCourses_page (env : Env) (q : CoursesQuery) (s : Store) (cat : String)
    (n : Nat)
    (hvalid : q.errors = [])
    (hcat : q.category = some cat) (hcatne : cat ≠ "")
    (hlimit : parsedOption q.limit = some (some (n : Int)))
    (hoffset : ∀ o, parsedOption q.offset = some o → ∃ k : Nat, o = some (k : Int)) :
    ∃ rows,
      getAllCourses env q s
        = coursesPage q rows (s.courses.filter (coursesWhere env q)).length ∧
      (getAllCourses env q s).status = 200 ∧
      (getAllCourses env q s).body.get? "data" = some (.arr (rows.map courseData)) ∧
      ((getAllCourses env q s).body.get? "pagination").bind (Json.get? "total")
        = some (.num (s.courses.filter (coursesWhere env q)).length) ∧
      rows.length ≤ n ∧
      (∀ c ∈ rows, c ∈ s.courses ∧ c.category.toString = cat) ∧
      (sortOrder q.sort = "ASC" →
        rows.Sorted (courseColumnLe
          (sortColumn ["created_at", "title", "price", "rating"] q.sortBy))) ∧
      (sortOrder q.sort ≠ "ASC" →
        rows.Sorted (fun a b => courseColumnLe
          (sortColumn ["created_at", "title", "price", "rating"] q.sortBy) b a)) ∧
      (∀ c, q.sortBy = some c → c ∈ ["created_at", "title", "price", "rating"] →
        sortColumn ["created_at", "title", "price", "rating"] q.sortBy = c) ∧
      (∀ c, q.sortBy = some c → c ∉ ["created_at", "title", "price", "rating"] →
        sortColumn ["created_at", "title", "price", "rating"] q.sortBy = "created_at") := by
  obtain ⟨page, hpage⟩ := limitRows_accepts n (parsedOption q.offset)
    (orderRows (courseColumnLe (sortColumn ["created_at", "title", "price", "rating"] q.sortBy))
      (sortOrder q.sort) (s.courses.filter (coursesWhere env q))) hoffset
  obtain ⟨hsub, hlen⟩ := limitRows_ok _ _ _ _ hpage
  obtain ⟨hmem, hasc, hdesc⟩ := orderRows_courses
    (sortColumn ["created_at", "title", "price", "rating"] q.sortBy) (sortOrder q.sort)
    (s.courses.filter (coursesWhere env q))
  have hrun : getAllCourses env q s
      = coursesPage q page (s.courses.filter (coursesWhere env q)).length := by
    unfold getAllCourses
    simp only [hvalid, List.isEmpty_nil, Bool.not_true, Bool.false_eq_true, if_false,
      Store.findAndCountAllCourses, hlimit, hpage]
  refine ⟨page, hrun, ?_, ?_, ?_, ?_, ?_, ?_, ?_, ?_, ?_⟩
  · rw [hrun]
    rfl
  · rw [hrun]
    simp [coursesPage, Json.get?]
  · rw [hrun]
    simp [coursesPage, Json.get?]
  · have := hlen n rfl
    exact_mod_cast this
  · intro c hc
    have hc' := (hmem c).mp (hsub.subset hc)
    rw [List.mem_filter] at hc'
    refine ⟨hc'.1, ?_⟩
    have hw := hc'.2
    have ht : truthy (some cat) = true := by simp [truthy, hcatne]
    simp only [coursesWhere, hcat, ht, if_true, Bool.and_eq_true, beq_iff_eq,
      Option.some.injEq] at hw
    exact hw.1
  · intro h
    exact (hasc h).sublist hsub
  · intro h
    exact (hdesc h).sublist hsub
  · intro c hc hin
    have : ["created_at", "title", "price", "rating"].contains c = true := by
      simpa using hin
    simp only [sortColumn, hc, this, if_true]
  · intro c hc hin
    have : ["created_at", "title", "price", "rating"].contains c = false := by
      simpa using hin
    simp only [sortColumn, hc, this, Bool.false_eq_true, if_false]

/-- Witness for C13: the scenario of the specification,
`GET /courses?category=Bisnis&sortBy=price&sort=ASC&limit=2`. -/
theorem C13_getAllCourses_page_witness :
    byPriceQuery.errors = [] ∧ byPriceQuery.category = some "Bisnis" ∧ "Bisnis" ≠ "" ∧
    parsedOption byPriceQuery.limit = some (some ((2 : Nat) : Int)) ∧
    (∀ o, parsedOption byPriceQuery.offset = some o → ∃ k : Nat, o = some (k : Int)) ∧
    ∃ rows,
      getAllCourses demoEnv byPriceQuery businessStore
        = coursesPage byPriceQuery rows
            (businessStore.courses.filter (coursesWhere demoEnv byPriceQuery)).length ∧
      rows.length ≤ 2 :=
  ⟨rfl, rfl, by decide, by decide, fun o h => by simp [parsedOption, byPriceQuery, truthy] at h,
    (C13_getAllCourses_page demoEnv byPriceQuery businessStore "Bisnis" 2 rfl rfl (by decide)
      (by decide) (fun o h => by simp [parsedOption, byPriceQuery, truthy] at h)).imp
      (fun _ h => ⟨h.1, h.2.2.2.2.1⟩)⟩

/-! ### C14 -/

/-- A lower-case ASCII letter is one of the 26 code points 97..122. -/
theorem lower_eq_ofNat (c : Char) (h : 'a' ≤ c ∧ c ≤ 'z') :
    ∃ m, 97 ≤ m ∧ m ≤ 122 ∧ c = Char.ofNat m := by
  refine ⟨c.toNat, ?_, ?_, (Char.ofNat_toNat c).symm⟩
  · have := h.1
    rw [Char.le_def] at this
    exact this
  · have := h.2
    rw [Char.le_def] at this
    exact this

theorem jsUpperChar_eq_A (c : Char) : jsUpperChar c = 'A' ↔ c = 'a' ∨ c = 'A' := by
  by_cases h : 'a' ≤ c ∧ c ≤ 'z'
  · obtain ⟨m, h1, h2, rfl⟩ := lower_eq_ofNat c h
    interval_cases m <;> decide
  · unfold jsUpperChar
    rw [if_neg h]
    constructor
    · intro hc
      split_ifs at hc with h1 h2
      · exact absurd hc (by decide)
      · exact absurd hc (by decide)
      · exact Or.inr hc
    · rintro (rfl | rfl)
      · exact absurd (by decide) h
      · decide

theorem jsUpperChar_eq_C (c : Char) : jsUpperChar c = 'C' ↔ c = 'c' ∨ c = 'C' := by
  by_cases h : 'a' ≤ c ∧ c ≤ 'z'
  · obtain ⟨m, h1, h2, rfl⟩ := lower_eq_ofNat c h
    interval_cases m <;> decide
  · unfold jsUpperChar
    rw [if_neg h]
    constructor
    · intro hc
      split_ifs at hc with h1 h2
      · exact absurd hc (by decide)
      · exact absurd hc (by decide)
      · exact Or.inr hc
    · rintro (rfl | rfl)
      · exact absurd (by decide) h
      · decide

theorem jsUpperChar_eq_S (c : Char) :
    jsUpperChar c = 'S' ↔ c = 's' ∨ c = 'S' ∨ c = Char.ofNat 0x17F := by
  by_cases h : 'a' ≤ c ∧ c ≤ 'z'
  · obtain ⟨m, h1, h2, rfl⟩ := lower_eq_ofNat c h
    interval_cases m <;> decide
  · unfold jsUpperChar
    rw [if_neg h]
    constructor
    · intro hc
      split_ifs at hc with h1 h2
      · exact Or.inr (Or.inr h1)
      · exact absurd hc (by decide)
      · exact Or.inr (Or.inl hc)
    · rintro (rfl | rfl | rfl)
      · exact absurd (by decide) h
      · decide
      · decide

/-- The strings whose upper case is `ASC`. -/
theorem jsToUpperCase_eq_ASC (d : String) : jsToUpperCase d = "ASC" ↔ d ∈ ascSpellings := by
  have hdata : jsToUpperCase d = "ASC" ↔ d.data.map jsUpperChar = ['A', 'S', 'C'] := by
    unfold jsToUpperCase
    constructor
    · intro h
      have := congrArg String.data h
      simpa using this
    · intro h
      rw [h]
  have hmem : d ∈ ascSpellings ↔ d.data ∈ ascSpellings.map String.data := by
    constructor
    · intro h
      exact List.mem_map_of_mem _ h
    · intro h
      rw [List.mem_map] at h
      obtain ⟨e, he, hd⟩ := h
      have : e = d := by
        cases e
        cases d
        simp only at hd
        rw [hd]
      rw [← this]
      exact he
  rw [hdata, hmem]
  generalize d.data = cs
  constructor
  · intro h
    rcases cs with _ | ⟨c1, _ | ⟨c2, _ | ⟨c3, _ | ⟨c4, cs⟩⟩⟩⟩
    · simp at h
    · simp at h
    · simp at h
    · simp only [List.map_cons, List.map_nil, List.cons.injEq, and_true] at h
      obtain ⟨h1, h2, h3⟩ := h
      rw [jsUpperChar_eq_A] at h1
      rw [jsUpperChar_eq_S] at h2
      rw [jsUpperChar_eq_C] at h3
      rcases h1 with rfl | rfl <;> rcases h2 with rfl | rfl | rfl <;>
        rcases h3 with rfl | rfl <;> decide
    · simp at h
  · intro h
    have hl : ascSpellings.map String.data =
        [['A', 'S', 'C'], ['A', 'S', 'c'], ['A', 's', 'C'], ['A', 's', 'c'],
         ['a', 'S', 'C'], ['a', 'S', 'c'], ['a', 's', 'C'], ['a', 's', 'c'],
         ['A', Char.ofNat 0x17F, 'C'], ['A', Char.ofNat 0x17F, 'c'],
         ['a', Char.ofNat 0x17F, 'C'], ['a', Char.ofNat 0x17F, 'c']] := by
      decide
    rw [hl] at h
    simp only [List.mem_cons, List.mem_singleton, List.not_mem_nil, or_false] at h
    rcases h with h | h | h | h | h | h | h | h | h | h | h | h <;> (subst h; decide)

/-- The column chosen from an allow-list that contains `created_at`. -/
theorem sortColumn_allowed (allowed : List String) (sortBy : Option String)
    (hcreated : "created_at" ∈ allowed) :
    sortColumn allowed sortBy ∈ allowed ∧
    (∀ c, sortBy = some c → c ∈ allowed → sortColumn allowed sortBy = c) ∧
    ((∀ c, sortBy = some c → c ∉ allowed) → sortColumn allowed sortBy = "created_at") := by
  cases sortBy with
  | none => exact ⟨hcreated, fun c h => by simp at h, fun _ => rfl⟩
  | some c =>
    by_cases hc : c ∈ allowed
    · have : allowed.contains c = true := by simpa using hc
      refine ⟨?_, ?_, ?_⟩
      · simp only [sortColumn, this, if_true]
        exact hc
      · intro c' h _
        simp only [Option.some.injEq] at h
        subst h
        simp only [sortColumn, this, if_true]
      · intro h
        exact absurd hc (h c rfl)
    · have : allowed.contains c = false := by simpa using hc
      refine ⟨?_, ?_, ?_⟩
      · simp only [sortColumn, this, Bool.false_eq_true, if_false]
        exact hcreated
      · intro c' h hin
        simp only [Option.some.injEq] at h
        subst h
        exact absurd hin hc
      · intro _
        simp only [sortColumn, this, Bool.false_eq_true, if_false]

/-- The direction is `ASC` for the spellings of `ASC`, and `DESC` otherwise. -/
theorem sortOrder_spec (sort : Option String) :
    (sortOrder sort = "ASC" ↔ ∃ d ∈ ascSpellings, sort = some d) ∧
    (sortOrder sort ≠ "ASC" → sortOrder sort = "DESC") := by
  cases sort with
  | none =>
    refine ⟨⟨fun h => absurd h (by decide), fun ⟨d, _, h⟩ => by simp at h⟩, fun _ => rfl⟩
  | some d =>
    by_cases hd : d ∈ ascSpellings
    · have hup := (jsToUpperCase_eq_ASC d).mpr hd
      have hne : d ≠ "" := by
        intro e
        rw [e] at hd
        revert hd
        decide
      have : sortOrder (some d) = "ASC" := by
        simp [sortOrder, hup, hne]
      exact ⟨⟨fun _ => ⟨d, hd, rfl⟩, fun _ => this⟩, fun h => absurd this h⟩
    · have hup : jsToUpperCase d ≠ "ASC" := fun h => hd ((jsToUpperCase_eq_ASC d).mp h)
      have : sortOrder (some d) = "DESC" := by
        simp [sortOrder, hup]
      refine ⟨⟨fun h => ?_, fun ⟨d', hd', h⟩ => ?_⟩, fun _ => this⟩
      · rw [this] at h
        exact absurd h (by decide)
      · simp only [Option.some.injEq] at h
        subst h
        exact absurd hd' hd

/-- C14: in `getAllCourses` and `getAllUsers`, for every value of `sortBy` and
`sort`, absent ones included, the column passed to the store is a member of
the handler's allow-list: `sortBy` itself when it is in the list, `created_at`
otherwise. The direction is `ASC` exactly when `sort` is a spelling of `ASC`
in any letter case (the eight ASCII spellings, and the four with the long s,
whose upper case is `S` too), and `DESC` in every other case. -/
theorem C14_sort_parameters (env : Env) (cq : CoursesQuery) (uq : UsersQuery) (s : Store) :
    (sortColumn ["created_at", "title", "price", "rating"] cq.sortBy
        ∈ ["created_at", "title", "price", "rating"] ∧
      (∀ c, cq.sortBy = some c → c ∈ ["created_at", "title", "price", "rating"] →
        sortColumn ["created_at", "title", "price", "rating"] cq.sortBy = c) ∧
      ((∀ c, cq.sortBy = some c → c ∉ ["created_at", "title", "price", "rating"]) →
        sortColumn ["created_at", "title", "price", "rating"] cq.sortBy = "created_at")) ∧
    (sortColumn ["created_at", "name", "email"] uq.sortBy ∈ ["created_at", "name", "email"] ∧
      (∀ c, uq.sortBy = some c → c ∈ ["created_at", "name", "email"] →
        sortColumn ["created_at", "name", "email"] uq.sortBy = c) ∧
      ((∀ c, uq.sortBy = some c → c ∉ ["created_at", "name", "email"]) →
        sortColumn ["created_at", "name", "email"] uq.sortBy = "created_at")) ∧
    ((sortOrder cq.sort = "ASC" ↔ ∃ d ∈ ascSpellings, cq.sort = some d) ∧
      (sortOrder cq.sort ≠ "ASC" → sortOrder cq.sort = "DESC")) ∧
    ((sortOrder uq.sort = "ASC" ↔ ∃ d ∈ ascSpellings, uq.sort = some d) ∧
      (sortOrder uq.sort ≠ "ASC" → sortOrder uq.sort = "DESC")) ∧
    (∀ courses totalCount, cq.errors = [] →
      s.findAndCountAllCourses (coursesWhere env cq)
          (sortColumn ["created_at", "title", "price", "rating"] cq.sortBy)
          (sortOrder cq.sort) (parsedOption cq.limit) (parsedOption cq.offset)
        = .ok (courses, totalCount) →
      getAllCourses env cq s = coursesPage cq courses totalCount) ∧
    (getAllUsers env uq s).body.get? "data" =
      some (.arr ((orderRows (userColumnLe (sortColumn ["created_at", "name", "email"] uq.sortBy))
        (sortOrder uq.sort) (s.users.filter (usersWhere env uq))).map userData)) := by
  refine ⟨sortColumn_allowed _ _ (by decide), sortColumn_allowed _ _ (by decide),
    sortOrder_spec _, sortOrder_spec _, ?_, ?_⟩
  · intro courses totalCount hvalid hquery
    unfold getAllCourses
    simp only [hvalid, hquery, List.isEmpty_nil, Bool.not_true, Bool.false_eq_true, if_false]
  · simp [getAllUsers, Json.get?]

/-- Witness for C14: `sortBy=mentor&sort=asc` on `/courses` orders by
`created_at`, ascending. -/
theorem C14_sort_parameters_witness :
    byMentorQuery.errors = [] ∧
    sortColumn ["created_at", "title", "price", "rating"] byMentorQuery.sortBy = "created_at" ∧
    sortOrder (some "asc") = "ASC" :=
  ⟨rfl,
    (C14_sort_parameters demoEnv byMentorQuery ⟨none, none, none, some "asc"⟩
      businessStore).1.2.2 (by decide),
    (C14_sort_parameters demoEnv byMentorQuery ⟨none, none, none, some "asc"⟩
      businessStore).2.2.2.1.1.mpr ⟨"asc", by decide, rfl⟩⟩

/-! ### C15 -/

/-- C15 as stated fails: `resetToDefaultCourses` and `getAllUsers` never call
`validationResult`, so with a validation failure attached to the request the
first still truncates and reseeds the catalogue and the second still reads the
users and answers 200. -/
theorem C15_counterexample :
    [demoFailure] ≠ [] ∧
    (handle demoEnv [demoFailure] .resetToDefaultCourses businessStore).1.status = 200 ∧
    (handle demoEnv [demoFailure] .resetToDefaultCourses businessStore).2 ≠ businessStore ∧
    (handle demoEnv [demoFailure] (.getAllUsers ⟨some "nobody", none, none, none⟩)
      janeStore).1.status = 200 := by
  decide

/-- C15 (amended): every handler that consults the validation result (all but
`verifyToken`, `verifyEmail`, `getAllUsers` and `resetToDefaultCourses`), when
the validation layer reports at least one failure, answers 400 with the list
of failures, computed from that list alone, and returns the store as it was;
`register` does not reach `sendVerificationEmail`. -/
theorem C15_validation_short_circuit (env : Env) (errors : List FieldError) (call : Call)
    (s : Store)
    (hconsults : call.consultsValidation = true)
    (hfailed : errors ≠ []) :
    handle env errors call s = (validationFailed errors, s) ∧
    (handle env errors call s).1.status = 400 ∧
    (handle env errors call s).1.body.get? "errors"
      = some (.arr (errors.map FieldError.toJson)) ∧
    (∀ req : RegisterRequest,
      (registerTraced env { req with errors := errors } s).2.2 = none) := by
  have hne : (!errors.isEmpty) = true := by
    cases errors with
    | nil => exact absurd rfl hfailed
    | cons e es => rfl
  have hrun : handle env errors call s = (validationFailed errors, s) := by
    cases call <;>
      first
        | (simp only [handle, login, register, getUserById, createUser, updateUser, deleteUser,
            resetPassword, getAllCourses, getCourseById, getCoursesByCategory, createCourse,
            updateCourse, deleteCourse, hne, if_true]; done)
        | simp [Call.consultsValidation] at hconsults
  refine ⟨hrun, ?_, ?_, ?_⟩
  · rw [hrun]
    rfl
  · rw [hrun]
    simp [validationFailed, Json.get?]
  · intro req
    simp only [registerTraced, hne, if_true]

/-- Witness for C15: a login request that failed validation. -/
theorem C15_validation_short_circuit_witness :
    (Call.login janeLogin).consultsValidation = true ∧ [demoFailure] ≠ [] ∧
    handle demoEnv [demoFailure] (.login janeLogin) janeStore
      = (validationFailed [demoFailure], janeStore) :=
  ⟨rfl, by decide,
    (C15_validation_short_circuit demoEnv [demoFailure] (.login janeLogin) janeStore rfl
      (by decide)).1⟩

/-! ### C18 -/

/-- C18 as stated fails for the upload route: the response to an error of the
upload middleware is the message of that error, so two different errors give
two different responses, and the text of a file-system error, path of the
server included, reaches the client. -/
theorem C18_counterexample :
    (uploadRoute (some unexpectedField) none).status = 400 ∧
    (uploadRoute (some unexpectedField) none).body.get? "message"
      = some (.str "Unexpected field") ∧
    (uploadRoute (some diskFull) none).status = 400 ∧
    (uploadRoute (some diskFull) none).body.get? "message"
      = some (.str "ENOSPC: no space left on device, open /srv/app/uploads/1700000000000.png") ∧
    uploadRoute (some unexpectedField) none ≠ uploadRoute (some diskFull) none := by
  refine ⟨rfl, rfl, rfl, rfl, ?_⟩
  intro h
  have hm := congrArg (fun r => r.body.get? "message") h
  simp [uploadRoute, unexpectedField, diskFull, Json.get?] at hm

/-- C18 (amended): the response that the `catch` clause of a controller handler
sends is fixed per handler: `success: false` with one message and status 500
(401 for `verifyToken`), the same for any two caught errors. So `verifyToken`
answers the same whatever text the token library puts in the error it throws,
and `getAllCourses` answers with that response whenever the store refuses its
query. The upload route is different: an error of the upload middleware is
answered 400 with the message of that error. -/
theorem C18_catch_clauses_generic (h : Handler) (error error' : JsError) :
    (catchClause h error).2 = (catchClause h error').2 ∧
    (∃ message, ∀ e : JsError,
      (catchClause h e).2 = failure (if h = .verifyToken then 401 else 500) message) ∧
    (∀ (env : Env) (auth : Option String) (s : Store) (f : String → String),
      verifyToken { env with jwtVerify := fun t k => (env.jwtVerify t k).mapError f } auth s
        = verifyToken env auth s) ∧
    (∀ (env : Env) (auth : Option String) (s : Store) (detail : String),
      truthy (bearerToken auth) = true →
      env.jwtVerify ((bearerToken auth).getD "") env.JWT_SECRET = .error detail →
      verifyToken env auth s = (catchClause .verifyToken error).2) ∧
    (∀ (env : Env) (q : CoursesQuery) (s : Store) (e : StoreError),
      q.errors = [] →
      s.findAndCountAllCourses (coursesWhere env q)
          (sortColumn ["created_at", "title", "price", "rating"] q.sortBy) (sortOrder q.sort)
          (parsedOption q.limit) (parsedOption q.offset) = .error e →
      getAllCourses env q s = (catchClause .getAllCourses error).2) ∧
    (∀ (e : UploadError) (file : Option UploadedFile),
      uploadRoute (some e) file = failure 400 e.error.message) := by
  refine ⟨?_, ?_, ?_, ?_, ?_, ?_⟩
  · cases h <;> rfl
  · cases h <;> exact ⟨_, fun _ => rfl⟩
  · intro env auth s f
    unfold verifyToken
    simp only []
    split
    · rfl
    · cases env.jwtVerify ((bearerToken auth).getD "") env.JWT_SECRET <;> rfl
  · intro env auth s detail htoken hthrow
    exact verifyToken_of_verify_error env auth s detail htoken hthrow
  · intro env q s e hvalid hrefused
    unfold getAllCourses
    simp only [hvalid, List.isEmpty_nil, Bool.not_true, Bool.false_eq_true, if_false, hrefused]
    rfl
  · intro e file
    unfold uploadRoute
    simp only []
    split <;> rfl

/-- Witness for C18: the `catch` clause of `login` on a refused connection and
on a timed-out statement logs two different things and sends one response;
`verifyToken` on a token that the library rejects sends the response of its
`catch` clause. -/
theorem C18_catch_clauses_generic_witness :
    (catchClause .login connectionRefused).2 = (catchClause .login queryTimeout).2 ∧
    (catchClause .login connectionRefused).1 ≠ (catchClause .login queryTimeout).1 ∧
    truthy (bearerToken (some "Bearer not-a-token")) = true ∧
    tokenEnv.jwtVerify ((bearerToken (some "Bearer not-a-token")).getD "") tokenEnv.JWT_SECRET
      = .error "jwt malformed" ∧
    verifyToken tokenEnv (some "Bearer not-a-token") janeStore
      = (catchClause .verifyToken queryTimeout).2 :=
  ⟨(C18_catch_clauses_generic .login connectionRefused queryTimeout).1, by decide, rfl, rfl,
    (C18_catch_clauses_generic .verifyToken queryTimeout queryTimeout).2.2.2.1
      tokenEnv (some "Bearer not-a-token") janeStore "jwt malformed" rfl rfl⟩

/-! ### C19 -/

/-- A string without the separator splits into itself. -/
theorem splitOnChar_of_not_mem (sep : Char) (cs : List Char) (h : sep ∉ cs) :
    splitOnChar sep cs = [cs] := by
  induction cs with
  | nil => rfl
  | cons c cs ih =>
    have hc : c ≠ sep := fun e => h (by simp [e])
    have hcs : sep ∉ cs := fun m => h (List.mem_cons_of_mem _ m)
    simp [splitOnChar, ih hcs, hc]

/-- The header `Bearer <token>` yields the token when it holds no space. -/
theorem bearerToken_bearerHeader (token : String) (h : ' ' ∉ token.data) :
    bearerToken (bearerHeader token) = some token := by
  have hdata : ("Bearer " ++ token).data
      = 'B' :: 'e' :: 'a' :: 'r' :: 'e' :: 'r' :: ' ' :: token.data := by
    rw [String.data_append]
    rfl
  simp [bearerToken, bearerHeader, hdata, splitOnChar, splitOnChar_of_not_mem ' ' token.data h]

/-- Primary keys being distinct, `findByPk` on the id of a row returns that row. -/
theorem findUserByPk_of_mem (s : Store) (u : User) (hkeys : (s.users.map User.id).Nodup)
    (hmem : u ∈ s.users) : s.findUserByPk u.id = some u := by
  unfold Store.findUserByPk
  generalize s.users = l at hkeys hmem
  induction l with
  | nil => cases hmem
  | cons v l ih =>
    simp only [List.map_cons, List.nodup_cons] at hkeys
    rcases List.mem_cons.mp hmem with e | hm
    · subst e
      simp
    · have hne : v.id ≠ u.id := fun e => hkeys.1 (e ▸ List.mem_map_of_mem User.id hm)
      simp [List.find?_cons, hne, ih hkeys.2 hm]

/-- The response of a login that succeeds for a database user. -/
theorem login_of_succeeded (env : Env) (req : LoginRequest) (s : Store) (u : User)
    (hsucc : (login env req s).succeeded = true)
    (hnb : isBuiltinAccount req.email req.password = false)
    (hfind : s.findUserByEmail req.email = some u) :
    login env req s =
      loginSuccess
        (.obj [("id", .num u.id), ("fullname", .str u.name),
               ("username", .str u.username), ("email", .str u.email),
               ("role", .str (match u.role with
                              | some r => r.toString
                              | none => "user")),
               ("avatar", Json.ofOptStr u.avatar)])
        (generateToken env (.num u.id) u.email (Json.ofOptRole u.role)) := by
  have hvalid : req.errors = [] := by
    cases h : req.errors with
    | nil => rfl
    | cons e es =>
      have : login env req s = validationFailed req.errors := by
        unfold login
        simp [h]
      rw [this, succeeded_validationFailed] at hsucc
      cases hsucc
  rw [login_database env req s hvalid hnb] at hsucc ⊢
  simp only [hfind] at hsucc ⊢
  cases hpw : isPasswordValid env req.password u
  · simp only [hpw, Bool.not_false, if_true, succeeded_failure] at hsucc
    cases hsucc
  · simp only [hpw, Bool.not_true, Bool.false_eq_true, if_false]

/-- C19 as stated fails twice. The login of the hardcoded administrator
succeeds and returns a token that the library verifies, yet `verifyToken` with
that token is answered 401: the token carries the id `admin`, under which the
store holds no user. And for a database user whose `role` is NULL the login
response says role `user` while `verifyToken` with the returned token says
`null`. -/
theorem C19_counterexample :
    (login tokenEnv adminRequest janeStore).status = 200 ∧
    (login tokenEnv adminRequest janeStore).token?
      = some (.str "jwt|sadmin|admin@videobelajar.com|admin") ∧
    tokenEnv.jwtVerify "jwt|sadmin|admin@videobelajar.com|admin" tokenEnv.JWT_SECRET
      = .ok (.obj [("userId", .str "admin"), ("email", .str "admin@videobelajar.com"),
                   ("role", .str "admin")]) ∧
    verifyToken tokenEnv (bearerHeader "jwt|sadmin|admin@videobelajar.com|admin") janeStore
      = failure 401 "User tidak ditemukan" ∧
    (login tokenEnv janeLogin (demoStore [janeNoRole])).status = 200 ∧
    (login tokenEnv janeLogin (demoStore [janeNoRole])).token?
      = some (.str "jwt|n1|jane@x.com|") ∧
    (login tokenEnv janeLogin (demoStore [janeNoRole])).user?.bind (Json.get? "role")
      = some (.str "user") ∧
    (verifyToken tokenEnv (bearerHeader "jwt|n1|jane@x.com|") (demoStore [janeNoRole])).status
      = 200 ∧
    ((verifyToken tokenEnv (bearerHeader "jwt|n1|jane@x.com|")
        (demoStore [janeNoRole])).body.get? "data").bind (Json.get? "role")
      = some .null :=
  ⟨rfl, rfl, rfl, rfl, rfl, rfl, rfl, rfl, rfl⟩

/-- C19 (amended): when a login succeeds for a database user (not one of the
two hardcoded accounts) whose `role` is not NULL, primary keys being distinct,
and the token it returned is not empty, holds no space, and is verified by the
token library to a payload with the signed user id, then `verifyToken` with
`Bearer <token>` on the same store answers 200 and its `data` is the `user`
object of the login response: same id, email and role (and fullname, username
and avatar). The token is the one `generateToken` signs for the id, email and
role of the record. -/
theorem C19_login_then_verifyToken (env : Env) (req : LoginRequest) (s : Store) (u : User)
    (token : String) (decoded : Json)
    (hsucc : (login env req s).succeeded = true)
    (hnb : isBuiltinAccount req.email req.password = false)
    (hfind : s.findUserByEmail req.email = some u)
    (hrole : u.role ≠ none)
    (hkeys : (s.users.map User.id).Nodup)
    (htoken : (login env req s).token? = some (.str token))
    (hnonempty : token ≠ "")
    (hplain : ' ' ∉ token.data)
    (hverify : env.jwtVerify token env.JWT_SECRET = .ok decoded)
    (hid : decoded.get? "userId" = some (.num u.id)) :
    token = generateToken env (.num u.id) u.email (Json.ofOptRole u.role) ∧
    (verifyToken env (bearerHeader token) s).status = 200 ∧
    (verifyToken env (bearerHeader token) s).succeeded = true ∧
    (verifyToken env (bearerHeader token) s).body.get? "data" = (login env req s).user? ∧
    (login env req s).user?.bind (Json.get? "id") = some (.num u.id) ∧
    (login env req s).user?.bind (Json.get? "email") = some (.str u.email) ∧
    (login env req s).user?.bind (Json.get? "role") = some (Json.ofOptRole u.role) := by
  have hlogin := login_of_succeeded env req s u hsucc hnb hfind
  have hmem : u ∈ s.users := List.mem_of_find?_eq_some hfind
  have hpk : s.findUserByPk u.id = some u := findUserByPk_of_mem s u hkeys hmem
  have hbearer := bearerToken_bearerHeader token hplain
  have htruthy : truthy (bearerToken (bearerHeader token)) = true := by
    rw [hbearer]
    simpa [truthy] using hnonempty
  have hv : verifyToken env (bearerHeader token) s
      = success 200 "Token valid" (authUserData u) := by
    rw [verifyToken_of_valid env (bearerHeader token) s decoded htruthy
      (by rw [hbearer]; exact hverify)]
    simp [hid, pkOfJson, hpk]
  obtain ⟨r, hr⟩ := Option.ne_none_iff_exists'.mp hrole
  have hsigned : token = generateToken env (.num u.id) u.email (Json.ofOptRole u.role) := by
    rw [hlogin] at htoken
    simpa [Response.token?, loginSuccess, Json.get?] using htoken.symm
  refine ⟨hsigned, ?_⟩
  rw [hv, hlogin]
  simp [success, Response.succeeded, Response.user?, loginSuccess, authUserData, Json.get?, hr,
    Json.ofOptRole, Json.ofOptStr]

/-- Witness for C19: Jane logs in and verifies the token she was given. -/
theorem C19_login_then_verifyToken_witness :
    (login tokenEnv janeLogin janeStore).succeeded = true ∧
    isBuiltinAccount janeLogin.email janeLogin.password = false ∧
    janeStore.findUserByEmail janeLogin.email = some janeRow ∧
    janeRow.role ≠ none ∧
    (janeStore.users.map User.id).Nodup ∧
    (login tokenEnv janeLogin janeStore).token? = some (.str "jwt|n1|jane@x.com|student") ∧
    "jwt|n1|jane@x.com|student" ≠ "" ∧
    ' ' ∉ "jwt|n1|jane@x.com|student".data ∧
    tokenEnv.jwtVerify "jwt|n1|jane@x.com|student" tokenEnv.JWT_SECRET
      = .ok (.obj [("userId", .num 1), ("email", .str "jane@x.com"),
                   ("role", .str "student")]) ∧
    (verifyToken tokenEnv (bearerHeader "jwt|n1|jane@x.com|student") janeStore).status = 200 ∧
    (verifyToken tokenEnv (bearerHeader "jwt|n1|jane@x.com|student") janeStore).body.get? "data"
      = (login tokenEnv janeLogin janeStore).user? :=
  have h := C19_login_then_verifyToken tokenEnv janeLogin janeStore janeRow
    "jwt|n1|jane@x.com|student"
    (.obj [("userId", .num 1), ("email", .str "jane@x.com"), ("role", .str "student")])
    rfl rfl rfl (by decide) (by decide) rfl (by decide) (by decide) rfl rfl
  ⟨rfl, rfl, rfl, by decide, by decide, rfl, by decide, by decide, rfl, h.2.1, h.2.2.2.1⟩

end VideoBelajar
